import Mathlib

/-!
# TCP client (`source/tcp_client.c`): connection lifecycle and command handling

A shallow embedding of the functions of `source/tcp_client.c`.  Every function is a
pure function on a `World`: the program's globals, the state of the collaborators
the program drives (socket stack, GPIO, semaphore, UART), the answers those
collaborators will give to the calls still to come, and the `trace` of the calls
made so far, oldest first.
-/

namespace TcpClient

/-! ## Types of the platform libraries -/

/-- The `cy_rslt_t` of the platform: a 32-bit result code. -/
abbrev cy_rslt_t := Nat

/-- The `cy_socket_t` of the socket library: a socket handle. -/
abbrev cy_socket_t := Nat

/-- Constants and pure helpers that `tcp_client.c` takes from headers outside this
repository.  Their values are not fixed here: every definition below takes them as
a parameter. -/
structure Platform where
  /-- The result code `CY_RSLT_SUCCESS`. -/
  CY_RSLT_SUCCESS : cy_rslt_t
  /-- The result code `CY_RSLT_MODULE_SECURE_SOCKETS_TIMEOUT`. -/
  CY_RSLT_MODULE_SECURE_SOCKETS_TIMEOUT : cy_rslt_t
  /-- The pin `CYBSP_USER_LED`. -/
  CYBSP_USER_LED : Nat
  /-- The pin level `CYBSP_LED_STATE_ON`. -/
  CYBSP_LED_STATE_ON : Bool
  /-- The pin level `CYBSP_LED_STATE_OFF`. -/
  CYBSP_LED_STATE_OFF : Bool
  /-- The conversion specifier `PRIx32` of `<inttypes.h>`. -/
  PRIx32 : String
  /-- The parser `ip4addr_aton` on a C string: `none` when it returns 0 and leaves
  the address untouched, `some a` when it returns 1 and stores `a`. -/
  ip4addr_aton : List Nat → Option Nat
  /-- The printer `ip4addr_ntoa`. -/
  ip4addr_ntoa : Nat → String
  /-- The conversion `pdMS_TO_TICKS` of FreeRTOS, from milliseconds to ticks. -/
  pdMS_TO_TICKS : Nat → Nat

/-- The values of `cy_wcm_interface_t`. -/
inductive cy_wcm_interface_t where
  | CY_WCM_INTERFACE_TYPE_STA
  | CY_WCM_INTERFACE_TYPE_AP
  | CY_WCM_INTERFACE_TYPE_AP_STA
  deriving DecidableEq, Repr

/-- The values of `cy_wcm_security_t` the examples need. -/
inductive cy_wcm_security_t where
  | CY_WCM_SECURITY_OPEN
  | CY_WCM_SECURITY_WPA2_AES_PSK
  deriving DecidableEq, Repr

/-- The values of `cy_socket_ip_version_t`. -/
inductive cy_socket_ip_version_t where
  | CY_SOCKET_IP_VER_V4
  | CY_SOCKET_IP_VER_V6
  deriving DecidableEq, Repr

/-- The fields of `cy_socket_sockaddr_t` that the program sets. -/
structure cy_socket_sockaddr_t where
  port : Nat
  version : cy_socket_ip_version_t
  v4 : Nat
  deriving DecidableEq, Repr

/-- The callbacks the program registers on its socket. -/
inductive Callback where
  | tcp_client_recv_handler
  | tcp_disconnection_handler
  deriving DecidableEq, Repr

/-- The socket domains of the socket library (`CY_SOCKET_DOMAIN_*`). -/
inductive SockDomain where
  | CY_SOCKET_DOMAIN_AF_INET
  | CY_SOCKET_DOMAIN_AF_INET6
  deriving DecidableEq, Repr

/-- The socket types of the socket library (`CY_SOCKET_TYPE_*`). -/
inductive SockType where
  | CY_SOCKET_TYPE_DGRAM
  | CY_SOCKET_TYPE_STREAM
  deriving DecidableEq, Repr

/-- The socket protocols of the socket library (`CY_SOCKET_IPPROTO_*`). -/
inductive SockProtocol where
  | CY_SOCKET_IPPROTO_TCP
  | CY_SOCKET_IPPROTO_UDP
  | CY_SOCKET_IPPROTO_TLS
  deriving DecidableEq, Repr

/-- The socket option levels used by the program. -/
inductive SockLevel where
  | CY_SOCKET_SOL_SOCKET
  | CY_SOCKET_SOL_TCP
  deriving DecidableEq, Repr

/-- The socket option names used by the program. -/
inductive SockOpt where
  | CY_SOCKET_SO_RECEIVE_CALLBACK
  | CY_SOCKET_SO_DISCONNECT_CALLBACK
  | CY_SOCKET_SO_TCP_KEEPALIVE_INTERVAL
  | CY_SOCKET_SO_TCP_KEEPALIVE_COUNT
  | CY_SOCKET_SO_TCP_KEEPALIVE_IDLE_TIME
  | CY_SOCKET_SO_TCP_KEEPALIVE_ENABLE
  deriving DecidableEq, Repr

/-- The value behind the `optval` pointer of `cy_socket_setsockopt`. -/
inductive OptVal where
  /-- A `cy_socket_opt_callback_t` with the given callback and `arg = NULL`. -/
  | callback (f : Callback)
  /-- A `uint32_t`. -/
  | u32 (n : Nat)
  /-- An `int`. -/
  | int (n : Int)
  deriving DecidableEq, Repr

/-- An argument of `printf` after the format string. -/
inductive PrintfArg where
  | u32 (n : Nat)
  | int (n : Int)
  | str (s : String)
  deriving DecidableEq, Repr

/-- One call made by the program to a collaborator, with the arguments the program
passed and (last, where the program can see it) what the collaborator answered. -/
inductive Event where
  | printf (fmt : String) (args : List PrintfArg)
  /-- The call `cy_socket_create(domain, type, protocol, &client_handle)`: its result
  and the handle stored through the pointer. -/
  | cy_socket_create (domain : SockDomain) (type : SockType) (protocol : SockProtocol)
      (result : cy_rslt_t) (handle : cy_socket_t)
  | cy_socket_setsockopt (handle : cy_socket_t) (level : SockLevel) (optname : SockOpt)
      (optval : OptVal) (result : cy_rslt_t)
  | cy_socket_connect (handle : cy_socket_t) (address : cy_socket_sockaddr_t)
      (result : cy_rslt_t)
  | cy_socket_delete (handle : cy_socket_t)
  | cy_socket_disconnect (handle : cy_socket_t) (timeout : Nat) (result : cy_rslt_t)
  /-- A receive call: the number of bytes asked for, the result, the bytes stored. -/
  | cy_socket_recv (handle : cy_socket_t) (length : Nat) (result : cy_rslt_t)
      (stored : List Nat)
  /-- A send call: the `length` bytes found at the buffer pointer, and the result. -/
  | cy_socket_send (handle : cy_socket_t) (data : List Nat) (length : Nat)
      (result : cy_rslt_t)
  | cyhal_gpio_write (pin : Nat) (value : Bool)
  | xSemaphoreGive
  | xSemaphoreTake
  | cyhal_syspm_lock_deepsleep
  | cyhal_syspm_unlock_deepsleep
  | cyhal_uart_putc (c : Nat)
  | vTaskDelay (ticks : Nat)
  /-- The call `cy_wcm_init(&wifi_config)`: the interface of the configuration. -/
  | cy_wcm_init (interface : cy_wcm_interface_t) (result : cy_rslt_t)
  /-- The call `cy_wcm_connect_ap(&wifi_conn_param, &ip_address)`: the credentials
  passed, the result and the IPv4 address stored. -/
  | cy_wcm_connect_ap (ssid password : String) (security : cy_wcm_security_t)
      (result : cy_rslt_t) (ip_v4 : Nat)
  | cy_socket_init (result : cy_rslt_t)
  /-- The failed assertion `CY_ASSERT(0)`. -/
  | CY_ASSERT_0
  deriving DecidableEq, Repr

/-- One poll of the UART by `read_uart_input`: what `cyhal_uart_readable` returns
and, when `cyhal_uart_getc` is then called, its result and the character it stores
(the character is stored only when the result is success). -/
structure UartPoll where
  readable : Nat
  getc_result : cy_rslt_t
  getc_char : Nat
  deriving DecidableEq, Repr

/-- The state the program runs in. -/
structure World where
  /-- The calls made so far, oldest first. -/
  trace : List Event
  /-- The global `client_handle`. -/
  client_handle : cy_socket_t
  /-- The global binary semaphore `connect_to_server`: whether its token is present. -/
  connect_to_server : Bool
  /-- The level of each GPIO output pin. -/
  gpio : Nat → Bool
  /-- Answers of the coming `cy_socket_create` calls: result and handle stored. -/
  socket_create_rsp : Nat → cy_rslt_t × cy_socket_t
  /-- Results of the coming `cy_socket_setsockopt` calls. -/
  setsockopt_rsp : Nat → cy_rslt_t
  /-- Results of the coming `cy_socket_connect` calls. -/
  connect_rsp : Nat → cy_rslt_t
  /-- Results of the coming `cy_socket_disconnect` calls. -/
  disconnect_rsp : Nat → cy_rslt_t
  /-- Answers of the coming `cy_socket_recv` calls: result and bytes delivered. -/
  recv_rsp : Nat → cy_rslt_t × List Nat
  /-- Results of the coming `cy_socket_send` calls. -/
  send_rsp : Nat → cy_rslt_t
  /-- The coming polls of the UART. -/
  uart : List UartPoll
  /-- The bytes found in an automatic array that was never written. -/
  indeterminate : Nat → Nat
  /-- Results of the coming `cy_wcm_init` calls. -/
  wcm_init_rsp : Nat → cy_rslt_t
  /-- Answers of the coming `cy_wcm_connect_ap` calls: result and address stored. -/
  wcm_connect_rsp : Nat → cy_rslt_t × Nat
  /-- Results of the coming `cy_socket_init` calls. -/
  socket_init_rsp : Nat → cy_rslt_t
  /-- The value found in the local `result` of `connect_to_wifi_ap`, which has no
  initialiser. -/
  indeterminate_result : cy_rslt_t

/-- How a run of a function ends. -/
inductive Outcome (α : Type) where
  /-- The function returned this value. -/
  | returned (a : α)
  /-- The process stopped in `CY_ASSERT(0)`. -/
  | halted
  /-- The task waits on the semaphore, whose token is absent. -/
  | blocked
  /-- The task polls the UART and the input has run dry. -/
  | starved
  /-- The function accessed its buffer at this index, which is outside it. -/
  | out_of_bounds (index : Nat)
  deriving DecidableEq, Repr

/-! ## Macros of `tcp_client.c` -/

def MAX_WIFI_CONN_RETRIES : Nat := 10
def WIFI_CONN_RETRY_INTERVAL_MSEC : Nat := 1000
def MAX_TCP_SERVER_CONN_RETRIES : Nat := 5
def MAX_TCP_DATA_PACKET_LENGTH : Nat := 20
def TCP_KEEP_ALIVE_IDLE_TIME_MS : Nat := 10000
def TCP_KEEP_ALIVE_INTERVAL_MS : Nat := 1000
def TCP_KEEP_ALIVE_RETRY_COUNT : Nat := 2
def TCP_LED_CMD_LEN : Nat := 1
def LED_ON_CMD : Nat := '1'.toNat
def LED_OFF_CMD : Nat := '0'.toNat
def ACK_LED_ON : String := "LED ON ACK"
def ACK_LED_OFF : String := "LED OFF ACK"
def MSG_INVALID_CMD : String := "Invalid command"
def TCP_SERVER_PORT : Nat := 50007
def ASCII_BACKSPACE : Nat := 0x08
def RTOS_TICK_TO_WAIT : Nat := 50
def UART_INPUT_TIMEOUT_MS : Nat := 1
def UART_BUFFER_SIZE : Nat := 50

/-- The separator line the program prints: 60 times `=` and a line feed. -/
def SEPARATOR_MSG : String := String.mk (List.replicate 60 '=') ++ "\n"

/-! ## C strings and buffers -/

/-- The bytes of an ASCII string literal, without the terminating NUL. -/
def bytes (s : String) : List Nat := s.toList.map Char.toNat

/-- Store `data` in `buf` from index `off` on; bytes past the end of `buf` are
dropped. -/
def store (buf : List Nat) (off : Nat) (data : List Nat) : List Nat :=
  buf.take off ++ (data.take (buf.length - off)) ++ buf.drop (off + data.length)

/-- The call `sprintf(buf, s)` for a literal `s` without conversion: the characters
of `s` and a terminating NUL, stored from index 0. -/
def sprintf (buf : List Nat) (s : String) : List Nat :=
  store buf 0 (bytes s ++ [0])

/-- The call `strlen(buf)`: the number of bytes before the first NUL. -/
def strlen (buf : List Nat) : Nat := (buf.takeWhile (fun b => b != 0)).length

/-! ## Collaborators -/

/-- Append one call to the trace. -/
def emit (e : Event) (w : World) : World := { w with trace := w.trace ++ [e] }

/-- The call `printf(fmt, args...)`. -/
def printf (fmt : String) (args : List PrintfArg) (w : World) : World :=
  emit (Event.printf fmt args) w

/-- The call `cyhal_gpio_write(pin, value)`. -/
def cyhal_gpio_write (pin : Nat) (value : Bool) (w : World) : World :=
  emit (Event.cyhal_gpio_write pin value)
    { w with gpio := fun p => if p = pin then value else w.gpio p }

/-- The call `cy_socket_create(domain, type, protocol, &client_handle)`.  The answer of the stack says what
`client_handle` holds after the call, whatever the result; the handle is a new socket
only when the result is success. -/
def cy_socket_create (domain : SockDomain) (type : SockType) (protocol : SockProtocol)
    (w : World) : cy_rslt_t × World :=
  let rsp := w.socket_create_rsp 0
  (rsp.1, emit (Event.cy_socket_create domain type protocol rsp.1 rsp.2)
    { w with client_handle := rsp.2,
             socket_create_rsp := fun i => w.socket_create_rsp (i + 1) })

/-- The call `cy_socket_setsockopt(handle, level, optname, &optval, sizeof optval)`. -/
def cy_socket_setsockopt (handle : cy_socket_t) (level : SockLevel) (optname : SockOpt)
    (optval : OptVal) (w : World) : cy_rslt_t × World :=
  let r := w.setsockopt_rsp 0
  (r, emit (Event.cy_socket_setsockopt handle level optname optval r)
    { w with setsockopt_rsp := fun i => w.setsockopt_rsp (i + 1) })

/-- The call `cy_socket_connect(handle, &address, sizeof(cy_socket_sockaddr_t))`. -/
def cy_socket_connect (handle : cy_socket_t) (address : cy_socket_sockaddr_t)
    (w : World) : cy_rslt_t × World :=
  let r := w.connect_rsp 0
  (r, emit (Event.cy_socket_connect handle address r)
    { w with connect_rsp := fun i => w.connect_rsp (i + 1) })

/-- The call `cy_socket_delete(handle)`; the program ignores its result. -/
def cy_socket_delete (handle : cy_socket_t) (w : World) : World :=
  emit (Event.cy_socket_delete handle) w

/-- The call `cy_socket_disconnect(handle, timeout)`. -/
def cy_socket_disconnect (handle : cy_socket_t) (timeout : Nat) (w : World) :
    cy_rslt_t × World :=
  let r := w.disconnect_rsp 0
  (r, emit (Event.cy_socket_disconnect handle timeout r)
    { w with disconnect_rsp := fun i => w.disconnect_rsp (i + 1) })

/-- The call `cy_socket_recv(handle, buffer, length, CY_SOCKET_FLAGS_NONE,
&bytes_received)`: at most `length` of the delivered bytes are stored at the start of
`buffer`.  Returns the result, the buffer and `bytes_received`. -/
def cy_socket_recv (handle : cy_socket_t) (buffer : List Nat) (length : Nat)
    (w : World) : cy_rslt_t × List Nat × Nat × World :=
  let rsp := w.recv_rsp 0
  let stored := rsp.2.take length
  (rsp.1, store buffer 0 stored, stored.length,
    emit (Event.cy_socket_recv handle length rsp.1 stored)
      { w with recv_rsp := fun i => w.recv_rsp (i + 1) })

/-- The call `cy_socket_send(handle, buffer, length, CY_SOCKET_FLAGS_NONE,
&bytes_sent)`. -/
def cy_socket_send (handle : cy_socket_t) (buffer : List Nat) (length : Nat)
    (w : World) : cy_rslt_t × World :=
  let r := w.send_rsp 0
  (r, emit (Event.cy_socket_send handle (buffer.take length) length r)
    { w with send_rsp := fun i => w.send_rsp (i + 1) })

/-! ## `tcp_client_recv_handler` -/

/-- The function `tcp_client_recv_handler(socket_handle, arg)`; `arg` is unused. -/
def tcp_client_recv_handler (P : Platform) (socket_handle : cy_socket_t) (w : World) :
    cy_rslt_t × World :=
  let message_buffer : List Nat :=
    (List.range MAX_TCP_DATA_PACKET_LENGTH).map w.indeterminate
  let w := printf SEPARATOR_MSG [] w
  let (_, message_buffer, _, w) :=
    cy_socket_recv socket_handle message_buffer TCP_LED_CMD_LEN w
  let (message_buffer, w) :=
    if message_buffer.getD 0 0 = LED_ON_CMD then
      let w := cyhal_gpio_write P.CYBSP_USER_LED P.CYBSP_LED_STATE_ON w
      let w := printf "LED turned ON\n" [] w
      (sprintf message_buffer ACK_LED_ON, w)
    else if message_buffer.getD 0 0 = LED_OFF_CMD then
      let w := cyhal_gpio_write P.CYBSP_USER_LED P.CYBSP_LED_STATE_OFF w
      let w := printf "LED turned OFF\n" [] w
      (sprintf message_buffer ACK_LED_OFF, w)
    else
      let w := printf "Invalid command\n" [] w
      (sprintf message_buffer MSG_INVALID_CMD, w)
  let (result, w) :=
    cy_socket_send socket_handle message_buffer (strlen message_buffer) w
  let w :=
    if result = P.CY_RSLT_SUCCESS then printf "Acknowledgement sent to TCP server\n" [] w
    else w
  (result, w)

/-! ## The binary semaphore `connect_to_server` -/

/-- Modelled from the spec: the FreeRTOS call `xSemaphoreGive(connect_to_server)`, which
is not part of the sources.  The ConnectionTrigger is "a single-slot binary signal
(present/absent)"; "giving it when already present is a no-op", it "never blocks,
never overflows". -/
def give_token (present : Bool) : Bool :=
  if present then present else true

/-- Modelled from the spec: the FreeRTOS call `xSemaphoreTake(connect_to_server,
portMAX_DELAY)` seen from the semaphore: `none` when the token is absent (the caller
waits, without a timeout), otherwise the token is consumed. -/
def take_token (present : Bool) : Option Bool :=
  if present then some false else none

/-- Modelled from the spec: the FreeRTOS call `xSemaphoreCreateBinary()`, which
creates the semaphore empty. -/
def xSemaphoreCreateBinary (w : World) : World :=
  { w with connect_to_server := false }

/-- The call `xSemaphoreGive(connect_to_server)`. -/
def xSemaphoreGive (w : World) : World :=
  emit Event.xSemaphoreGive { w with connect_to_server := give_token w.connect_to_server }

/-- The call `xSemaphoreTake(connect_to_server, portMAX_DELAY)`: `none` when the
caller is left waiting. -/
def xSemaphoreTake (w : World) : Option World :=
  match take_token w.connect_to_server with
  | some present => some (emit Event.xSemaphoreTake { w with connect_to_server := present })
  | none => none

/-- Modelled from the spec: the macro `CY_ASSERT(0)`, which is not part of the
sources: "process aborts". -/
def CY_ASSERT_0 {α : Type} (w : World) : Outcome α × World :=
  (Outcome.halted, emit Event.CY_ASSERT_0 w)

/-! ## `create_tcp_client_socket` -/

/-- The function `create_tcp_client_socket()`. -/
def create_tcp_client_socket (P : Platform) (w : World) : cy_rslt_t × World :=
  let keep_alive : Int := 1
  let keep_alive_interval : Nat := TCP_KEEP_ALIVE_INTERVAL_MS
  let keep_alive_count : Nat := TCP_KEEP_ALIVE_RETRY_COUNT
  let keep_alive_idle_time : Nat := TCP_KEEP_ALIVE_IDLE_TIME_MS
  let (result, w) := cy_socket_create SockDomain.CY_SOCKET_DOMAIN_AF_INET
    SockType.CY_SOCKET_TYPE_STREAM SockProtocol.CY_SOCKET_IPPROTO_TCP w
  if result ≠ P.CY_RSLT_SUCCESS then
    (result, printf "Failed to create socket!\n" [] w)
  else
  let tcp_recv_option := OptVal.callback Callback.tcp_client_recv_handler
  let (result, w) := cy_socket_setsockopt w.client_handle SockLevel.CY_SOCKET_SOL_SOCKET
    SockOpt.CY_SOCKET_SO_RECEIVE_CALLBACK tcp_recv_option w
  if result ≠ P.CY_RSLT_SUCCESS then
    (result, printf "Set socket option: CY_SOCKET_SO_RECEIVE_CALLBACK failed\n" [] w)
  else
  let tcp_disconnect_option := OptVal.callback Callback.tcp_disconnection_handler
  let (result, w) := cy_socket_setsockopt w.client_handle SockLevel.CY_SOCKET_SOL_SOCKET
    SockOpt.CY_SOCKET_SO_DISCONNECT_CALLBACK tcp_disconnect_option w
  let w :=
    if result ≠ P.CY_RSLT_SUCCESS then
      printf "Set socket option: CY_SOCKET_SO_DISCONNECT_CALLBACK failed\n" [] w
    else w
  let (result, w) := cy_socket_setsockopt w.client_handle SockLevel.CY_SOCKET_SOL_TCP
    SockOpt.CY_SOCKET_SO_TCP_KEEPALIVE_INTERVAL (OptVal.u32 keep_alive_interval) w
  if result ≠ P.CY_RSLT_SUCCESS then
    (result, printf "Set socket option: CY_SOCKET_SO_TCP_KEEPALIVE_INTERVAL failed\n" [] w)
  else
  let (result, w) := cy_socket_setsockopt w.client_handle SockLevel.CY_SOCKET_SOL_TCP
    SockOpt.CY_SOCKET_SO_TCP_KEEPALIVE_COUNT (OptVal.u32 keep_alive_count) w
  if result ≠ P.CY_RSLT_SUCCESS then
    (result, printf "Set socket option: CY_SOCKET_SO_TCP_KEEPALIVE_COUNT failed\n" [] w)
  else
  let (result, w) := cy_socket_setsockopt w.client_handle SockLevel.CY_SOCKET_SOL_TCP
    SockOpt.CY_SOCKET_SO_TCP_KEEPALIVE_IDLE_TIME (OptVal.u32 keep_alive_idle_time) w
  if result ≠ P.CY_RSLT_SUCCESS then
    (result, printf "Set socket option: CY_SOCKET_SO_TCP_KEEPALIVE_IDLE_TIME failed\n" [] w)
  else
  let (result, w) := cy_socket_setsockopt w.client_handle SockLevel.CY_SOCKET_SOL_SOCKET
    SockOpt.CY_SOCKET_SO_TCP_KEEPALIVE_ENABLE (OptVal.int keep_alive) w
  if result ≠ P.CY_RSLT_SUCCESS then
    (result, printf "Set socket option: CY_SOCKET_SO_TCP_KEEPALIVE_ENABLE failed\n" [] w)
  else
  (result, w)

/-! ## `connect_to_tcp_server` -/

/-- The `for` loop of `connect_to_tcp_server`, with `remaining` iterations to go: the
loop counter is `conn_retries = MAX_TCP_SERVER_CONN_RETRIES - remaining`, which the
body never reads or writes.  `result` is the local of that name, set once before the
loop. -/
def connect_to_tcp_server_loop (P : Platform) (address : cy_socket_sockaddr_t)
    (result : cy_rslt_t) : (remaining : Nat) → World → Outcome cy_rslt_t × World
  | 0, w =>
    let w := printf "Exceeded maximum connection attempts to the TCP server\n" [] w
    (Outcome.returned result, w)
  | remaining + 1, w =>
    let (conn_result, w) := create_tcp_client_socket P w
    if conn_result ≠ P.CY_RSLT_SUCCESS then
      let w := printf "Socket creation failed!\n" [] w
      CY_ASSERT_0 w
    else
    let (conn_result, w) := cy_socket_connect w.client_handle address w
    if conn_result = P.CY_RSLT_SUCCESS then
      let w := printf SEPARATOR_MSG [] w
      let w := printf "Connected to TCP server\n" [] w
      (Outcome.returned conn_result, w)
    else
    let w := printf ("Could not connect to TCP server. Error code: 0x%08" ++ P.PRIx32 ++ "\n")
      [PrintfArg.u32 result] w
    let w := printf
      "Trying to reconnect to TCP server... Please check if the server is listening\n" [] w
    let w := cy_socket_delete w.client_handle w
    connect_to_tcp_server_loop P address result remaining w

/-- The function `connect_to_tcp_server(address)`. -/
def connect_to_tcp_server (P : Platform) (address : cy_socket_sockaddr_t) (w : World) :
    Outcome cy_rslt_t × World :=
  let result := P.CY_RSLT_MODULE_SECURE_SOCKETS_TIMEOUT
  connect_to_tcp_server_loop P address result MAX_TCP_SERVER_CONN_RETRIES w

/-! ## `tcp_disconnection_handler` -/

/-- The function `tcp_disconnection_handler(socket_handle, arg)`; `arg` is unused. -/
def tcp_disconnection_handler (socket_handle : cy_socket_t) (w : World) :
    cy_rslt_t × World :=
  let (result, w) := cy_socket_disconnect socket_handle 0 w
  let w := cy_socket_delete socket_handle w
  let w := printf "Disconnected from the TCP server! \n" [] w
  let w := xSemaphoreGive w
  (result, w)

/-! ## `read_uart_input` -/

/-- The body of the `do ... while` loop of `read_uart_input`, up to the call of
`vTaskDelay`, on the poll `p` of the UART.  `buf` is the caller's buffer and `ptr` the
offset of the pointer `ptr` from `input_buffer_ptr`; returns both.  The character
`'\b'` of the source is `ASCII_BACKSPACE`. -/
def read_uart_input_body (P : Platform) (p : UartPoll) (buf : List Nat) (ptr : Nat)
    (w : World) : Outcome (List Nat × Nat) × World :=
  let numBytes := p.readable
  if numBytes > 0 then
    let result := p.getc_result
    if result = P.CY_RSLT_SUCCESS then
      if ptr < buf.length then
        let buf := buf.set ptr p.getc_char
        let c := buf.getD ptr 0
        if c = '\r'.toNat ∨ c = '\n'.toNat then
          (Outcome.returned (buf, ptr), printf "\n" [] w)
        else
          let w := emit (Event.cyhal_uart_putc c) w
          if c ≠ ASCII_BACKSPACE then (Outcome.returned (buf, ptr + 1), w)
          else if ptr ≠ 0 then (Outcome.returned (buf, ptr - 1), w)
          else (Outcome.returned (buf, ptr), w)
      else (Outcome.out_of_bounds ptr, w)
    else (Outcome.returned (buf, ptr), w)
  else (Outcome.returned (buf, ptr), w)

/-- The `do ... while` loop of `read_uart_input`, one iteration per poll of the UART;
returns the buffer and the final offset of `ptr`. -/
def read_uart_input_loop (P : Platform) :
    List UartPoll → List Nat → Nat → World → Outcome (List Nat × Nat) × World
  | [], _, _, w => (Outcome.starved, w)
  | p :: rest, buf, ptr, w =>
    match read_uart_input_body P p buf ptr { w with uart := rest } with
    | (Outcome.returned (buf, ptr), w) =>
      let w := emit (Event.vTaskDelay RTOS_TICK_TO_WAIT) w
      if ptr < buf.length then
        let c := buf.getD ptr 0
        if c ≠ '\r'.toNat ∧ c ≠ '\n'.toNat then read_uart_input_loop P rest buf ptr w
        else (Outcome.returned (buf, ptr), w)
      else (Outcome.out_of_bounds ptr, w)
    | (Outcome.halted, w) => (Outcome.halted, w)
    | (Outcome.blocked, w) => (Outcome.blocked, w)
    | (Outcome.starved, w) => (Outcome.starved, w)
    | (Outcome.out_of_bounds i, w) => (Outcome.out_of_bounds i, w)

/-- The function `read_uart_input(input_buffer_ptr)` on the buffer `buf` the pointer
points to; returns the buffer as the function leaves it. -/
def read_uart_input (P : Platform) (buf : List Nat) (w : World) :
    Outcome (List Nat) × World :=
  match read_uart_input_loop P w.uart buf 0 w with
  | (Outcome.returned (buf, ptr), w) => (Outcome.returned (buf.set ptr 0), w)
  | (Outcome.halted, w) => (Outcome.halted, w)
  | (Outcome.blocked, w) => (Outcome.blocked, w)
  | (Outcome.starved, w) => (Outcome.starved, w)
  | (Outcome.out_of_bounds i, w) => (Outcome.out_of_bounds i, w)

/-! ## The loop of `tcp_client_task` -/

/-- The C string at the start of `buf`: the bytes before the first NUL. -/
def cstring (buf : List Nat) : List Nat := buf.takeWhile (fun b => b != 0)

/-- One iteration of the `for(;;)` loop of `tcp_client_task`.  The local
`tcp_server_address` lives across iterations, so it is an argument and is returned,
after the result of `connect_to_tcp_server`. -/
def tcp_client_task_iteration (P : Platform) (tcp_server_address : cy_socket_sockaddr_t)
    (w : World) : Outcome (cy_rslt_t × cy_socket_sockaddr_t) × World :=
  match xSemaphoreTake w with
  | none => (Outcome.blocked, w)
  | some w =>
    let w := printf "Connect to TCP server\n" [] w
    let w := printf "Enter the IPv4 address of the TCP Server:\n" [] w
    let w := emit Event.cyhal_syspm_lock_deepsleep w
    let uart_input : List Nat := List.replicate UART_BUFFER_SIZE 0
    match read_uart_input P uart_input w with
    | (Outcome.returned uart_input, w) =>
      let w := emit Event.cyhal_syspm_unlock_deepsleep w
      let tcp_server_address : cy_socket_sockaddr_t :=
        match P.ip4addr_aton (cstring uart_input) with
        | some a => { tcp_server_address with v4 := a }
        | none => tcp_server_address
      let w := printf "Connecting to TCP Server (IP Address: %s, Port: %d)\n\n"
        [PrintfArg.str (P.ip4addr_ntoa tcp_server_address.v4), PrintfArg.int TCP_SERVER_PORT] w
      match connect_to_tcp_server P tcp_server_address w with
      | (Outcome.returned result, w) =>
        if result ≠ P.CY_RSLT_SUCCESS then
          let w := printf "Failed to connect to TCP server.\n" [] w
          let w := xSemaphoreGive w
          (Outcome.returned (result, tcp_server_address), w)
        else (Outcome.returned (result, tcp_server_address), w)
      | (Outcome.halted, w) => (Outcome.halted, w)
      | (Outcome.blocked, w) => (Outcome.blocked, w)
      | (Outcome.starved, w) => (Outcome.starved, w)
      | (Outcome.out_of_bounds i, w) => (Outcome.out_of_bounds i, w)
    | (Outcome.halted, w) => (Outcome.halted, w)
    | (Outcome.blocked, w) => (Outcome.blocked, w)
    | (Outcome.starved, w) => (Outcome.starved, w)
    | (Outcome.out_of_bounds i, w) => (Outcome.out_of_bounds i, w)


/-! ## `connect_to_wifi_ap` and `tcp_client_task`, for `USE_AP_INTERFACE` 0 -/

def WIFI_INTERFACE_TYPE : cy_wcm_interface_t := cy_wcm_interface_t.CY_WCM_INTERFACE_TYPE_STA
def WIFI_SSID : String := "MY_WIFI_SSID"
def WIFI_PASSWORD : String := "MY_WIFI_PASSWORD"
def WIFI_SECURITY_TYPE : cy_wcm_security_t := cy_wcm_security_t.CY_WCM_SECURITY_WPA2_AES_PSK

/-- The call `cy_wcm_init(&wifi_config)`. -/
def cy_wcm_init (interface : cy_wcm_interface_t) (w : World) : cy_rslt_t × World :=
  let r := w.wcm_init_rsp 0
  (r, emit (Event.cy_wcm_init interface r)
    { w with wcm_init_rsp := fun i => w.wcm_init_rsp (i + 1) })

/-- The call `cy_wcm_connect_ap(&wifi_conn_param, &ip_address)`; returns the result
and what `ip_address.ip.v4` holds after the call. -/
def cy_wcm_connect_ap (ssid password : String) (security : cy_wcm_security_t) (w : World) :
    cy_rslt_t × Nat × World :=
  let rsp := w.wcm_connect_rsp 0
  (rsp.1, rsp.2, emit (Event.cy_wcm_connect_ap ssid password security rsp.1 rsp.2)
    { w with wcm_connect_rsp := fun i => w.wcm_connect_rsp (i + 1) })

/-- The call `cy_socket_init()`. -/
def cy_socket_init (w : World) : cy_rslt_t × World :=
  let r := w.socket_init_rsp 0
  (r, emit (Event.cy_socket_init r)
    { w with socket_init_rsp := fun i => w.socket_init_rsp (i + 1) })

/-- The call `vTaskDelay(ticks)`. -/
def vTaskDelay (ticks : Nat) (w : World) : World := emit (Event.vTaskDelay ticks) w

/-- The conversion `(int)result` of a 32-bit unsigned value. -/
def to_int (n : Nat) : Int :=
  if n % 2 ^ 32 < 2 ^ 31 then (n % 2 ^ 32 : Nat) else (n % 2 ^ 32 : Nat) - 2 ^ 32

/-- The `for` loop of `connect_to_wifi_ap`, with `remaining` iterations to go: the
loop counter is `conn_retries = MAX_WIFI_CONN_RETRIES - remaining`, which the body
never reads or writes.  `result` is the local of that name. -/
def connect_to_wifi_ap_loop (P : Platform) :
    (remaining : Nat) → (result : cy_rslt_t) → World → cy_rslt_t × World
  | 0, result, w =>
    let w := printf "Exceeded maximum Wi-Fi connection attempts\n" [] w
    (result, w)
  | remaining + 1, _, w =>
    let (result, ip_address, w) := cy_wcm_connect_ap WIFI_SSID WIFI_PASSWORD WIFI_SECURITY_TYPE w
    if result = P.CY_RSLT_SUCCESS then
      let w := printf "Successfully connected to Wi-Fi network '%s'.\n"
        [PrintfArg.str WIFI_SSID] w
      let w := printf "IP Address Assigned: %s\n" [PrintfArg.str (P.ip4addr_ntoa ip_address)] w
      (result, w)
    else
    let w := printf
      "Connection to Wi-Fi network failed with error code %d.Retrying in %d ms...\n"
      [PrintfArg.int (to_int result), PrintfArg.u32 WIFI_CONN_RETRY_INTERVAL_MSEC] w
    let w := vTaskDelay (P.pdMS_TO_TICKS WIFI_CONN_RETRY_INTERVAL_MSEC) w
    connect_to_wifi_ap_loop P remaining result w

/-- The function `connect_to_wifi_ap()`. -/
def connect_to_wifi_ap (P : Platform) (w : World) : cy_rslt_t × World :=
  let result := w.indeterminate_result
  let w := printf "Connecting to Wi-Fi Network: %s\n" [PrintfArg.str WIFI_SSID] w
  connect_to_wifi_ap_loop P MAX_WIFI_CONN_RETRIES result w

/-- The function `tcp_client_task(arg)` up to its `for(;;)` loop; returns the local
`tcp_server_address` as initialised. -/
def tcp_client_task_init (P : Platform) (w : World) : Outcome cy_socket_sockaddr_t × World :=
  let tcp_server_address : cy_socket_sockaddr_t :=
    { version := cy_socket_ip_version_t.CY_SOCKET_IP_VER_V4, port := TCP_SERVER_PORT, v4 := 0 }
  let (result, w) := cy_wcm_init WIFI_INTERFACE_TYPE w
  if result ≠ P.CY_RSLT_SUCCESS then
    let w := printf
      ("Wi-Fi Connection Manager initialization failed! Error code: 0x%08" ++ P.PRIx32 ++ "\n")
      [PrintfArg.u32 result] w
    CY_ASSERT_0 w
  else
  let w := printf "Wi-Fi Connection Manager initialized.\r\n" [] w
  let (result, w) := connect_to_wifi_ap P w
  if result ≠ P.CY_RSLT_SUCCESS then
    let w := printf
      ("\n Failed to connect to Wi-Fi AP! Error code: 0x%08" ++ P.PRIx32 ++ "\n")
      [PrintfArg.u32 result] w
    CY_ASSERT_0 w
  else
  let w := xSemaphoreCreateBinary w
  let w := xSemaphoreGive w
  let (result, w) := cy_socket_init w
  if result ≠ P.CY_RSLT_SUCCESS then
    let w := printf "Secure Socket initialization failed!\n" [] w
    CY_ASSERT_0 w
  else
  let w := printf "Secure Socket initialized\n" [] w
  (Outcome.returned tcp_server_address, w)

/-- The `for(;;)` loop of `tcp_client_task`, cut after `iterations` iterations: the
outcome `returned` says that they all ran to their end, with the local
`tcp_server_address` as they leave it. -/
def tcp_client_task_loop (P : Platform) :
    (iterations : Nat) → cy_socket_sockaddr_t → World → Outcome cy_socket_sockaddr_t × World
  | 0, tcp_server_address, w => (Outcome.returned tcp_server_address, w)
  | iterations + 1, tcp_server_address, w =>
    match tcp_client_task_iteration P tcp_server_address w with
    | (Outcome.returned (_, tcp_server_address), w) =>
      tcp_client_task_loop P iterations tcp_server_address w
    | (Outcome.halted, w) => (Outcome.halted, w)
    | (Outcome.blocked, w) => (Outcome.blocked, w)
    | (Outcome.starved, w) => (Outcome.starved, w)
    | (Outcome.out_of_bounds i, w) => (Outcome.out_of_bounds i, w)

/-- The function `tcp_client_task(arg)`, its loop cut after `iterations` iterations;
`arg` is unused. -/
def tcp_client_task (P : Platform) (iterations : Nat) (w : World) :
    Outcome cy_socket_sockaddr_t × World :=
  match tcp_client_task_init P w with
  | (Outcome.returned tcp_server_address, w) =>
    tcp_client_task_loop P iterations tcp_server_address w
  | (Outcome.halted, w) => (Outcome.halted, w)
  | (Outcome.blocked, w) => (Outcome.blocked, w)
  | (Outcome.starved, w) => (Outcome.starved, w)
  | (Outcome.out_of_bounds i, w) => (Outcome.out_of_bounds i, w)

/-! ## Notions used to state the properties -/

/-- The command byte of one run of `tcp_client_recv_handler` from `w`: the first byte
of `message_buffer` after the receive call. -/
def command_byte (w : World) : Nat :=
  (store ((List.range MAX_TCP_DATA_PACKET_LENGTH).map w.indeterminate) 0
    ((w.recv_rsp 0).2.take TCP_LED_CMD_LEN)).getD 0 0

/-- The level of the user LED pin. -/
def led (P : Platform) (w : World) : Bool := w.gpio P.CYBSP_USER_LED

/-- The events a run appended to the trace: those of `w1` after the ones of `w0`. -/
def appended (w0 w1 : World) : List Event := w1.trace.drop w0.trace.length

/-- The values written to GPIO pins, as (pin, value), in order. -/
def gpio_writes : List Event → List (Nat × Bool)
  | [] => []
  | Event.cyhal_gpio_write p v :: es => (p, v) :: gpio_writes es
  | _ :: es => gpio_writes es

/-- The replies sent: handle, bytes and length of every send call, in order. -/
def replies : List Event → List (cy_socket_t × List Nat × Nat)
  | [] => []
  | Event.cy_socket_send h data n _ :: es => (h, data, n) :: replies es
  | _ :: es => replies es

/-- A platform to evaluate the program on: success is 0, the LED is active low. -/
def examplePlatform : Platform where
  CY_RSLT_SUCCESS := 0
  CY_RSLT_MODULE_SECURE_SOCKETS_TIMEOUT := 0x080c0007
  CYBSP_USER_LED := 13
  CYBSP_LED_STATE_ON := false
  CYBSP_LED_STATE_OFF := true
  PRIx32 := "lx"
  ip4addr_aton := fun _ => none
  ip4addr_ntoa := fun _ => ""
  pdMS_TO_TICKS := fun ms => ms

/-- A world to evaluate the program on: every call of a collaborator succeeds, the
server sends the byte `cmd`, the LED pin has level `level`. -/
def exampleWorld (cmd : Nat) (level : Bool) : World where
  trace := []
  client_handle := 0
  connect_to_server := false
  gpio := fun _ => level
  socket_create_rsp := fun i => (0, 100 + i)
  setsockopt_rsp := fun _ => 0
  connect_rsp := fun _ => 0
  disconnect_rsp := fun _ => 0
  recv_rsp := fun _ => (0, [cmd])
  send_rsp := fun _ => 0
  uart := []
  indeterminate := fun _ => 0xAA
  wcm_init_rsp := fun _ => 0
  wcm_connect_rsp := fun _ => (0, 0x0A01A8C0)
  socket_init_rsp := fun _ => 0
  indeterminate_result := 0xAAAAAAAA

/-- Whether an event is a `cy_socket_create` call. -/
def Event.is_create : Event → Bool
  | Event.cy_socket_create _ _ _ _ _ => true
  | _ => false

/-- Whether an event is a `cy_socket_connect` call. -/
def Event.is_connect : Event → Bool
  | Event.cy_socket_connect _ _ _ => true
  | _ => false

/-- Whether an event is a `cy_socket_delete` call. -/
def Event.is_delete : Event → Bool
  | Event.cy_socket_delete _ => true
  | _ => false

/-- Whether an event is a `printf` call with the format `fmt`. -/
def Event.is_printf (fmt : String) : Event → Bool
  | Event.printf f _ => f == fmt
  | _ => false

/-- The number of `cy_socket_create` calls in a trace. -/
def creations (evs : List Event) : Nat := evs.countP Event.is_create

/-- The number of `cy_socket_connect` calls in a trace. -/
def connects (evs : List Event) : Nat := evs.countP Event.is_connect

/-- The number of `cy_socket_delete` calls in a trace. -/
def deletions (evs : List Event) : Nat := evs.countP Event.is_delete

/-- Whether an event is an `xSemaphoreGive` call. -/
def Event.is_give : Event → Bool
  | Event.xSemaphoreGive => true
  | _ => false

/-- The number of `xSemaphoreGive` calls in a trace. -/
def gives (evs : List Event) : Nat := evs.countP Event.is_give

/-- The number of `printf` calls with the format `fmt` in a trace. -/
def printed (fmt : String) (evs : List Event) : Nat := evs.countP (Event.is_printf fmt)

/-- The handles that exist after one more event: a successful `cy_socket_create` adds
its handle, a `cy_socket_delete` removes its handle. -/
def undeleted_step (P : Platform) (live : List cy_socket_t) : Event → List cy_socket_t
  | Event.cy_socket_create _ _ _ r h => if r = P.CY_RSLT_SUCCESS then h :: live else live
  | Event.cy_socket_delete h => live.erase h
  | _ => live

/-- The handles created and not deleted by a trace, starting from the handles `live`. -/
def undeleted_from (P : Platform) (live : List cy_socket_t) (evs : List Event) :
    List cy_socket_t :=
  evs.foldl (undeleted_step P) live

/-- The handles created and not deleted by a trace. -/
def undeleted (P : Platform) (evs : List Event) : List cy_socket_t :=
  undeleted_from P [] evs

/-- What the handle discipline asks of one event, given the undeleted handles before
it: a creation finds none, any other socket call is made on the only one. -/
def disciplined_event (live : List cy_socket_t) : Event → Prop
  | Event.cy_socket_create _ _ _ _ _ => live = []
  | Event.cy_socket_connect h _ _ => live = [h]
  | Event.cy_socket_delete h => live = [h]
  | _ => True

/-- The handle discipline along a trace, starting from the handles `live`. -/
def disciplined (P : Platform) : List cy_socket_t → List Event → Prop
  | live, [] => live.length ≤ 1
  | live, e :: es =>
    live.length ≤ 1 ∧ disciplined_event live e ∧ disciplined P (undeleted_step P live e) es

/-- The exhaustion diagnostic of `connect_to_tcp_server`. -/
def EXHAUSTED_MSG : String := "Exceeded maximum connection attempts to the TCP server\n"

/-- The address prompt of `tcp_client_task`. -/
def PROMPT_MSG : String := "Enter the IPv4 address of the TCP Server:\n"

/-- An event of the Socket Factory after its creation call: an option-set call on
the handle `h`, or a message other than the exhaustion diagnostic and the prompt. -/
def Event.is_option_step (h : cy_socket_t) : Event → Bool
  | Event.cy_socket_setsockopt h1 _ _ _ _ => h1 == h
  | Event.printf f _ => f != EXHAUSTED_MSG && f != PROMPT_MSG
  | _ => false

/-- The state of a run of the Socket Factory started in `w0`, after its creation
call: the trace is the creation call and then option-set calls on the handle stored
in `client_handle`; no connect answer was consumed and the semaphore is untouched. -/
def FactoryInv (w0 w : World) : Prop :=
  ∃ rest, w.trace
      = w0.trace ++ Event.cy_socket_create SockDomain.CY_SOCKET_DOMAIN_AF_INET
        SockType.CY_SOCKET_TYPE_STREAM SockProtocol.CY_SOCKET_IPPROTO_TCP
        (w0.socket_create_rsp 0).1 (w0.socket_create_rsp 0).2 :: rest
    ∧ (∀ e ∈ rest, Event.is_option_step (w0.socket_create_rsp 0).2 e = true)
    ∧ w.client_handle = (w0.socket_create_rsp 0).2
    ∧ w.connect_rsp = w0.connect_rsp
    ∧ w.connect_to_server = w0.connect_to_server

/-- An event of `read_uart_input`: an echo, a line feed message or a delay. -/
def Event.is_uart_step : Event → Bool
  | Event.printf f _ => f == "\n"
  | Event.cyhal_uart_putc _ => true
  | Event.vTaskDelay _ => true
  | _ => false

/-- The example world with a server that refuses the first `k` connect calls. -/
def refusingWorld (k : Nat) : World :=
  { exampleWorld 0 true with connect_rsp := fun i => if i < k then 0x80 else 0 }

/-- The address used in the examples: 192.168.1.50, port 50007. -/
def exampleAddress : cy_socket_sockaddr_t where
  port := TCP_SERVER_PORT
  version := cy_socket_ip_version_t.CY_SOCKET_IP_VER_V4
  v4 := 0x3201A8C0

/-- The example world with the token of `connect_to_server` present, a server that
refuses the first `k` connect calls, and the line "1.2.3.4" typed on the UART, one
character per poll, ended by a carriage return. -/
def supervisorWorld (k : Nat) : World :=
  { refusingWorld k with
    connect_to_server := true,
    uart := (bytes "1.2.3.4" ++ ['\r'.toNat]).map (fun c => ⟨1, 0, c⟩) }

/-- The example world with a socket stack that fails the option-set call of the
disconnect callback (the second one of the Socket Factory) and no other call. -/
def disconnectOptionFailsWorld : World :=
  { exampleWorld 0 true with setsockopt_rsp := fun i => if i = 1 then 0x80 else 0 }

/-- Every coming call of `cy_socket_create` and of `cy_socket_setsockopt` succeeds. -/
def stack_accepts (P : Platform) (w : World) : Prop :=
  (∀ i, (w.socket_create_rsp i).1 = P.CY_RSLT_SUCCESS) ∧
  (∀ i, w.setsockopt_rsp i = P.CY_RSLT_SUCCESS)

/-- The receive calls of a trace: handle and number of bytes asked for, in order. -/
def receives : List Event → List (cy_socket_t × Nat)
  | [] => []
  | Event.cy_socket_recv h n _ _ :: es => (h, n) :: receives es
  | _ :: es => receives es

/-- The reply literals of `tcp_client_recv_handler`. -/
def REPLY_LITERALS : List String := [ACK_LED_ON, ACK_LED_OFF, MSG_INVALID_CMD]

/-! ## The lifecycle state machine -/

/-- The part of one iteration of the loop of `tcp_client_task` between the call of
`xSemaphoreTake` and the call of `connect_to_tcp_server`: the prompt, the line read
from the UART and the address parsed from it, which is returned. -/
def tcp_client_task_prompt (P : Platform) (tcp_server_address : cy_socket_sockaddr_t)
    (w : World) : Outcome cy_socket_sockaddr_t × World :=
  let w := printf "Connect to TCP server\n" [] w
  let w := printf "Enter the IPv4 address of the TCP Server:\n" [] w
  let w := emit Event.cyhal_syspm_lock_deepsleep w
  let uart_input : List Nat := List.replicate UART_BUFFER_SIZE 0
  match read_uart_input P uart_input w with
  | (Outcome.returned uart_input, w) =>
    let w := emit Event.cyhal_syspm_unlock_deepsleep w
    let tcp_server_address : cy_socket_sockaddr_t :=
      match P.ip4addr_aton (cstring uart_input) with
      | some a => { tcp_server_address with v4 := a }
      | none => tcp_server_address
    let w := printf "Connecting to TCP Server (IP Address: %s, Port: %d)\n\n"
      [PrintfArg.str (P.ip4addr_ntoa tcp_server_address.v4), PrintfArg.int TCP_SERVER_PORT] w
    (Outcome.returned tcp_server_address, w)
  | (Outcome.halted, w) => (Outcome.halted, w)
  | (Outcome.blocked, w) => (Outcome.blocked, w)
  | (Outcome.starved, w) => (Outcome.starved, w)
  | (Outcome.out_of_bounds i, w) => (Outcome.out_of_bounds i, w)

/-- The end of an iteration of the loop of `tcp_client_task` whose call of
`connect_to_tcp_server` returned a failure: the message and the give. -/
def tcp_client_task_rearm (w : World) : World :=
  xSemaphoreGive (printf "Failed to connect to TCP server.\n" [] w)

/-- The connected sockets after one more event: a successful `cy_socket_connect`
adds its handle, a `cy_socket_delete` removes its handle. -/
def connected_step (P : Platform) (conn : List cy_socket_t) : Event → List cy_socket_t
  | Event.cy_socket_connect h _ r => if r = P.CY_RSLT_SUCCESS then h :: conn else conn
  | Event.cy_socket_delete h => conn.erase h
  | _ => conn

/-- The handles connected and not deleted by a trace, starting from `conn`. -/
def connected_from (P : Platform) (conn : List cy_socket_t) (evs : List Event) :
    List cy_socket_t :=
  evs.foldl (connected_step P) conn

/-- The connected sockets of a world: the handles its trace connected and did not
delete. -/
def connected (P : Platform) (w : World) : List cy_socket_t :=
  connected_from P [] w.trace

/-- The states of the lifecycle: the five of the specification, and `HALTED` for the
process stopped in `CY_ASSERT(0)`. -/
inductive Phase where
  | IDLE
  | PROMPTING
  | CONNECTING
  | CONNECTED
  | RETRIES_EXHAUSTED
  | HALTED
  deriving DecidableEq, Repr

/-- A state of the system: the lifecycle state, the local `tcp_server_address` of the
task, and the world. -/
structure Lifecycle where
  phase : Phase
  tcp_server_address : cy_socket_sockaddr_t
  world : World

/-- The steps of the system.  The Supervisor runs the parts of its loop in order; it
is at its call of `xSemaphoreTake` in `IDLE` and in `CONNECTED` alike.  Modelled from
the spec: the socket stack calls the two callbacks in `CONNECTED` only ("CONNECTED is
the only state with live asynchronous callback activity"), with the handle of the
socket. -/
inductive Step (P : Platform) : Lifecycle → Lifecycle → Prop where
  | wake (s : Lifecycle) (w : World) :
      s.phase = Phase.IDLE ∨ s.phase = Phase.CONNECTED →
      xSemaphoreTake s.world = some w →
      Step P s ⟨Phase.PROMPTING, s.tcp_server_address, w⟩
  | prompted (s : Lifecycle) (adr : cy_socket_sockaddr_t) (w : World) :
      s.phase = Phase.PROMPTING →
      tcp_client_task_prompt P s.tcp_server_address s.world = (Outcome.returned adr, w) →
      Step P s ⟨Phase.CONNECTING, adr, w⟩
  | connected (s : Lifecycle) (w : World) :
      s.phase = Phase.CONNECTING →
      connect_to_tcp_server P s.tcp_server_address s.world
        = (Outcome.returned P.CY_RSLT_SUCCESS, w) →
      Step P s ⟨Phase.CONNECTED, s.tcp_server_address, w⟩
  | exhausted (s : Lifecycle) (result : cy_rslt_t) (w : World) :
      s.phase = Phase.CONNECTING →
      connect_to_tcp_server P s.tcp_server_address s.world = (Outcome.returned result, w) →
      result ≠ P.CY_RSLT_SUCCESS →
      Step P s ⟨Phase.RETRIES_EXHAUSTED, s.tcp_server_address, w⟩
  | aborted (s : Lifecycle) (w : World) :
      s.phase = Phase.CONNECTING →
      connect_to_tcp_server P s.tcp_server_address s.world = (Outcome.halted, w) →
      Step P s ⟨Phase.HALTED, s.tcp_server_address, w⟩
  | rearmed (s : Lifecycle) :
      s.phase = Phase.RETRIES_EXHAUSTED →
      Step P s ⟨Phase.IDLE, s.tcp_server_address, tcp_client_task_rearm s.world⟩
  | received (s : Lifecycle) :
      s.phase = Phase.CONNECTED →
      Step P s ⟨Phase.CONNECTED, s.tcp_server_address,
        (tcp_client_recv_handler P s.world.client_handle s.world).2⟩
  | disconnected (s : Lifecycle) :
      s.phase = Phase.CONNECTED →
      Step P s ⟨Phase.IDLE, s.tcp_server_address,
        (tcp_disconnection_handler s.world.client_handle s.world).2⟩

/-- The reachable states: the task starts in a world without a connected socket, and
enters its loop, in `IDLE`, when `tcp_client_task_init` returns. -/
inductive Reachable (P : Platform) : Lifecycle → Prop where
  | start (w0 w : World) (adr : cy_socket_sockaddr_t) :
      connected P w0 = [] →
      tcp_client_task_init P w0 = (Outcome.returned adr, w) →
      Reachable P ⟨Phase.IDLE, adr, w⟩
  | step (s t : Lifecycle) : Reachable P s → Step P s t → Reachable P t

/-- The shape of the events of the loop of `connect_to_tcp_server`, with `n` attempts
left, by outcome; the third index is the handle left connected, if any.  Every
attempt starts with the events of the Socket Factory: a creation call and option
steps. -/
inductive CycleTrace (P : Platform) (a : cy_socket_sockaddr_t) (res : cy_rslt_t) :
    Nat → Outcome cy_rslt_t → Option cy_socket_t → List Event → Prop where
  | exhausted :
      CycleTrace P a res 0 (Outcome.returned res) none [Event.printf EXHAUSTED_MSG []]
  | halted (n : Nat) (r0 : cy_rslt_t) (h : cy_socket_t) (rest : List Event) :
      (∀ e ∈ rest, Event.is_option_step h e = true) →
      CycleTrace P a res (n + 1) Outcome.halted none
        (Event.cy_socket_create SockDomain.CY_SOCKET_DOMAIN_AF_INET
          SockType.CY_SOCKET_TYPE_STREAM SockProtocol.CY_SOCKET_IPPROTO_TCP r0 h ::
          (rest ++ [Event.printf "Socket creation failed!\n" [], Event.CY_ASSERT_0]))
  | connected (n : Nat) (h : cy_socket_t) (rest : List Event) :
      (∀ e ∈ rest, Event.is_option_step h e = true) →
      CycleTrace P a res (n + 1) (Outcome.returned P.CY_RSLT_SUCCESS) (some h)
        (Event.cy_socket_create SockDomain.CY_SOCKET_DOMAIN_AF_INET
          SockType.CY_SOCKET_TYPE_STREAM SockProtocol.CY_SOCKET_IPPROTO_TCP
          P.CY_RSLT_SUCCESS h ::
          (rest ++ [Event.cy_socket_connect h a P.CY_RSLT_SUCCESS,
            Event.printf SEPARATOR_MSG [], Event.printf "Connected to TCP server\n" []]))
  | retry (n : Nat) (h : cy_socket_t) (rest : List Event) (rc : cy_rslt_t)
      (o : Outcome cy_rslt_t) (c : Option cy_socket_t) (evs : List Event) :
      (∀ e ∈ rest, Event.is_option_step h e = true) →
      rc ≠ P.CY_RSLT_SUCCESS →
      CycleTrace P a res n o c evs →
      CycleTrace P a res (n + 1) o c
        (Event.cy_socket_create SockDomain.CY_SOCKET_DOMAIN_AF_INET
          SockType.CY_SOCKET_TYPE_STREAM SockProtocol.CY_SOCKET_IPPROTO_TCP
          P.CY_RSLT_SUCCESS h ::
          (rest ++ [Event.cy_socket_connect h a rc,
            Event.printf
              ("Could not connect to TCP server. Error code: 0x%08" ++ P.PRIx32 ++ "\n")
              [PrintfArg.u32 res],
            Event.printf
              "Trying to reconnect to TCP server... Please check if the server is listening\n"
              [],
            Event.cy_socket_delete h]) ++ evs)

/-- The example world with a socket stack that fails the option-set call of the
receive callback (the first one of the Socket Factory) and no other call. -/
def receiveOptionFailsWorld : World :=
  { exampleWorld 0 true with setsockopt_rsp := fun i => if i = 0 then 0x80 else 0 }

/-- Whether an event is a `cy_wcm_connect_ap` call. -/
def Event.is_join : Event → Bool
  | Event.cy_wcm_connect_ap _ _ _ _ _ => true
  | _ => false

/-- Whether an event is an `xSemaphoreTake` call. -/
def Event.is_take : Event → Bool
  | Event.xSemaphoreTake => true
  | _ => false

/-- The number of `cy_wcm_connect_ap` calls in a trace. -/
def joins (evs : List Event) : Nat := evs.countP Event.is_join

/-- The number of `xSemaphoreTake` calls in a trace. -/
def takes (evs : List Event) : Nat := evs.countP Event.is_take

/-- The delays of a trace: the ticks of every `vTaskDelay` call, in order. -/
def delays : List Event → List Nat
  | [] => []
  | Event.vTaskDelay ticks :: es => ticks :: delays es
  | _ :: es => delays es

/-- The joins and delays of a trace, in order: the result of every
`cy_wcm_connect_ap` call and the ticks of every `vTaskDelay` call. -/
def wifi_calls : List Event → List (cy_rslt_t ⊕ Nat)
  | [] => []
  | Event.cy_wcm_connect_ap _ _ _ r _ :: es => Sum.inl r :: wifi_calls es
  | Event.vTaskDelay ticks :: es => Sum.inr ticks :: wifi_calls es
  | _ :: es => wifi_calls es

/-- Joins with the results `rs`, each followed by a delay of `ticks`. -/
def join_then_delay (ticks : Nat) : List cy_rslt_t → List (cy_rslt_t ⊕ Nat)
  | [] => []
  | r :: rs => Sum.inl r :: Sum.inr ticks :: join_then_delay ticks rs

/-- The number of `cy_wcm_init` calls in a trace. -/
def wcm_inits (evs : List Event) : Nat :=
  evs.countP (fun e => match e with | Event.cy_wcm_init _ _ => true | _ => false)

/-- The number of `cy_socket_init` calls in a trace. -/
def socket_inits (evs : List Event) : Nat :=
  evs.countP (fun e => match e with | Event.cy_socket_init _ => true | _ => false)

/-- An event of `tcp_client_task` before its loop: a call of the Wi-Fi connection
manager, a delay, the give, the initialisation of the socket library, the failed
assertion, or a message other than the prompt. -/
def Event.is_init_step : Event → Bool
  | Event.cy_wcm_init _ _ => true
  | Event.cy_wcm_connect_ap _ _ _ _ _ => true
  | Event.vTaskDelay _ => true
  | Event.xSemaphoreGive => true
  | Event.cy_socket_init _ => true
  | Event.CY_ASSERT_0 => true
  | Event.printf f _ => f != PROMPT_MSG
  | _ => false

/-- The example world with an access point that refuses the first `k` joins. -/
def wifiWorld (k : Nat) : World :=
  { exampleWorld 0 true with
    wcm_connect_rsp := fun i => if i < k then (0x70 + i, 0) else (0, 0x0A01A8C0) }

/-- The characters the UART delivers over the polls `polls`, in order: one per poll
that finds a character to read. -/
def uart_chars (polls : List UartPoll) : List Nat :=
  (polls.filter (fun p => decide (0 < p.readable))).map (fun p => p.getc_char)

/-- One character of line editing, in the words of the specification: a backspace
removes the most recently kept character, and does nothing when no character is
kept; every other character is appended. -/
def spec_edit_char (kept : List Nat) (c : Nat) : List Nat :=
  if c = ASCII_BACKSPACE then kept.dropLast else kept ++ [c]

/-- The line of the specification: the characters kept after processing `chars` in
order, starting with none kept. -/
def spec_edit_line (chars : List Nat) : List Nat := chars.foldl spec_edit_char []

/-- A poll of the UART that delivers the character `c`. -/
def key (c : Char) : UartPoll := { readable := 1, getc_result := 0, getc_char := c.toNat }

/-- A poll of the UART that finds no character to read. -/
def idle : UartPoll := { readable := 0, getc_result := 0, getc_char := 0 }

/-- The example world with the user typing `1`, `0`, `x`, backspace, `.`, backspace,
backspace, backspace, backspace, `7`, and carriage return, then `z`. -/
def typingWorld : World :=
  { exampleWorld 0 true with
    uart := [key '1', idle, key '0', key 'x', key '\x08', key '.', key '\x08', key '\x08',
      key '\x08', key '\x08', idle, key '7', key '\r', key 'z'] }

/-- What holds of the states of the lifecycle: a socket is connected in `CONNECTED`
only, where it is the one of `client_handle`; the token is present in `IDLE` and
absent from the wake of the Supervisor to its next wait. -/
def LifecycleInv (P : Platform) (s : Lifecycle) : Prop :=
  (s.phase ≠ Phase.CONNECTED → connected P s.world = []) ∧
  (s.phase = Phase.CONNECTED → connected P s.world = [s.world.client_handle]) ∧
  (s.phase = Phase.IDLE → s.world.connect_to_server = true) ∧
  (s.phase = Phase.PROMPTING ∨ s.phase = Phase.CONNECTING ∨ s.phase = Phase.CONNECTED ∨
    s.phase = Phase.RETRIES_EXHAUSTED → s.world.connect_to_server = false)

/-- The address of the task before any line is parsed. -/
def startAddress : cy_socket_sockaddr_t where
  port := TCP_SERVER_PORT
  version := cy_socket_ip_version_t.CY_SOCKET_IP_VER_V4
  v4 := 0

/-- The example world where the task of `typingWorld` enters its loop. -/
def startedWorld : World := (tcp_client_task_init examplePlatform typingWorld).2

/-- The world after the Supervisor took the token of `startedWorld`. -/
def wokenWorld : World :=
  emit Event.xSemaphoreTake { startedWorld with connect_to_server := false }

/-- The world after the prompt in `wokenWorld`. -/
def promptedWorld : World :=
  (tcp_client_task_prompt examplePlatform startAddress wokenWorld).2

/-- The world after the Connect Cycle in `promptedWorld`. -/
def connectedWorld : World :=
  (connect_to_tcp_server examplePlatform startAddress promptedWorld).2

/-- The example state of the lifecycle: connected at the first attempt. -/
def connectedExample : Lifecycle :=
  { phase := Phase.CONNECTED, tcp_server_address := startAddress, world := connectedWorld }

/-! ## The address macros -/

/-- The conversion `(uint32_t) x` of a non-negative integer. -/
def to_uint32 (x : Nat) : Nat := x % 2 ^ 32

/-- The shift `x << k` of a `uint32_t`. -/
def shl32 (x k : Nat) : Nat := (x <<< k) % 2 ^ 32

/-- The macro `MAKE_IP_PARAMETERS(a, b, c, d)` of `tcp_client.c`. -/
def MAKE_IP_PARAMETERS (a b c d : Nat) : Nat :=
  shl32 (to_uint32 d) 24 ||| shl32 (to_uint32 c) 16 ||| shl32 (to_uint32 b) 8 ||| to_uint32 a

/-- The macro `MAKE_IPV4_ADDRESS(a, b, c, d)` of `main.c`. -/
def MAKE_IPV4_ADDRESS (a b c d : Nat) : Nat :=
  shl32 (to_uint32 d) 24 ||| shl32 (to_uint32 c) 16 ||| shl32 (to_uint32 b) 8 ||| to_uint32 a

/-- The macro `TCP_SERVER_IP_ADDRESS` of `main.c`. -/
def TCP_SERVER_IP_ADDRESS : Nat := MAKE_IPV4_ADDRESS 172 20 10 2

/-- Byte `i` of a 32-bit value, least significant first. -/
def byte_of (x i : Nat) : Nat := (x / 2 ^ (8 * i)) % 256

/-- The world `w` with the answer of the coming `cy_socket_recv` call replaced by
`rsp`: result and bytes delivered. -/
def with_recv (w : World) (rsp : cy_rslt_t × List Nat) : World :=
  { w with recv_rsp := fun i => if i = 0 then rsp else w.recv_rsp i }

/-- The events of a trace other than the `cy_socket_recv` calls. -/
def without_receives (evs : List Event) : List Event :=
  evs.filter (fun e => match e with | Event.cy_socket_recv _ _ _ _ => false | _ => true)

/-- The example world with a receive call that fails and delivers no byte, on a
stack whose uninitialised buffer starts with the byte `'1'`. -/
def shortReadWorld : World :=
  { exampleWorld 0 true with
    recv_rsp := fun _ => (0x80, []),
    indeterminate := fun _ => '1'.toNat }

/-- The option-set calls of a trace, in order: the option and the result. -/
def option_calls : List Event → List (SockOpt × cy_rslt_t)
  | [] => []
  | Event.cy_socket_setsockopt _ _ optname _ r :: es => (optname, r) :: option_calls es
  | _ :: es => option_calls es

/-- The world `w` with the result of the coming option-set call number `k`
(counted from 0) replaced by `r`. -/
def with_setsockopt (w : World) (k : Nat) (r : cy_rslt_t) : World :=
  { w with setsockopt_rsp := fun i => if i = k then r else w.setsockopt_rsp i }

/-- The message of the Socket Factory for a failed option-set of the disconnect
callback. -/
def DISCONNECT_OPTION_MSG : String :=
  "Set socket option: CY_SOCKET_SO_DISCONNECT_CALLBACK failed\n"

/-- The diagnostic of `connect_to_tcp_server` for a failed connect call. -/
def COULD_NOT_MSG (P : Platform) : String :=
  "Could not connect to TCP server. Error code: 0x%08" ++ P.PRIx32 ++ "\n"

/-- The connect calls of a trace, in order: the address passed and the result. -/
def connect_calls : List Event → List (cy_socket_sockaddr_t × cy_rslt_t)
  | [] => []
  | Event.cy_socket_connect _ a r :: es => (a, r) :: connect_calls es
  | _ :: es => connect_calls es

/-- The arguments of every diagnostic `COULD_NOT_MSG` of a trace, in order. -/
def diagnostics (P : Platform) : List Event → List (List PrintfArg)
  | [] => []
  | Event.printf f args :: es =>
    if f = COULD_NOT_MSG P then args :: diagnostics P es else diagnostics P es
  | _ :: es => diagnostics P es

/-- The example world with a server that refuses the connect calls with the errors
0x81, 0x82, ..., and the token present. -/
def erringWorld : World :=
  { exampleWorld 0 true with connect_rsp := fun i => 0x81 + i, connect_to_server := true }

/-- The address of a cycle: `adr` with the IPv4 address that `ip4addr_aton` parses
from the line `line`, and `adr` itself when the line does not parse. -/
def parsed_address (P : Platform) (adr : cy_socket_sockaddr_t) (line : List Nat) :
    cy_socket_sockaddr_t :=
  match P.ip4addr_aton (cstring line) with
  | some a => { adr with v4 := a }
  | none => adr

/-- A platform as `examplePlatform` whose `ip4addr_aton` parses the line "1.2.3.4" to
the address 1.2.3.4 and no other line. -/
def parsingPlatform : Platform :=
  { examplePlatform with
    ip4addr_aton := fun s =>
      if s = bytes "1.2.3.4" then some (MAKE_IP_PARAMETERS 1 2 3 4) else none }

/-- The example world of `typingWorld`, where the line typed is "7", with the token
present. -/
def typingReadyWorld : World := { typingWorld with connect_to_server := true }

/-- The example world with the user typing `n` times the key `a` and then a carriage
return. -/
def longLineWorld (n : Nat) : World :=
  { exampleWorld 0 true with uart := List.replicate n (key 'a') ++ [key '\r'] }

/-! ## Buffers -/

theorem appended_eq (w0 w1 : World) (evs : List Event) (h : w1.trace = w0.trace ++ evs) :
    appended w0 w1 = evs := by
  simp [appended, h]

theorem takeWhile_nonzero_append (l r : List Nat) (hl : ∀ b ∈ l, b ≠ 0) :
    (l ++ 0 :: r).takeWhile (fun b => b != 0) = l := by
  induction l with
  | nil => simp
  | cons a l ih =>
    have ha : a ≠ 0 := hl a (by simp)
    have hl2 : ∀ b ∈ l, b ≠ 0 := fun b hb => hl b (by simp [hb])
    simp [List.takeWhile_cons, ha, ih hl2]

theorem sprintf_eq (buf : List Nat) (s : String) (h : (bytes s).length < buf.length) :
    sprintf buf s = bytes s ++ 0 :: buf.drop ((bytes s).length + 1) := by
  have h2 : (bytes s ++ [0]).length ≤ buf.length := by simp; omega
  simp [sprintf, store, List.take_of_length_le h2]

theorem sprintf_reply (buf : List Nat) (s : String) (h : (bytes s).length < buf.length)
    (hs : ∀ b ∈ bytes s, b ≠ 0) :
    strlen (sprintf buf s) = (bytes s).length ∧
    (sprintf buf s).take (bytes s).length = bytes s := by
  rw [sprintf_eq buf s h]
  constructor
  · rw [strlen, takeWhile_nonzero_append _ _ hs]
  · simp

theorem store_length (buf : List Nat) (off : Nat) (data : List Nat) :
    (store buf off data).length = buf.length := by
  simp [store]
  omega

/-! ## `tcp_client_recv_handler` -/

/-- The run of the handler on a given command byte, for a reply literal that fits:
the shape shared by the three branches. -/
theorem recv_handler_reply (w : World) (s : String) (hs : (bytes s).length < 20)
    (hnz : ∀ b ∈ bytes s, b ≠ 0) :
    strlen (sprintf (store ((List.range MAX_TCP_DATA_PACKET_LENGTH).map w.indeterminate) 0
      ((w.recv_rsp 0).2.take TCP_LED_CMD_LEN)) s) = (bytes s).length ∧
    (sprintf (store ((List.range MAX_TCP_DATA_PACKET_LENGTH).map w.indeterminate) 0
      ((w.recv_rsp 0).2.take TCP_LED_CMD_LEN)) s).take (bytes s).length = bytes s := by
  apply sprintf_reply _ _ _ hnz
  rw [store_length]
  simpa [MAX_TCP_DATA_PACKET_LENGTH] using hs

/-- The events after the send call: the acknowledgement message, on success only. -/
theorem recv_handler_on (P : Platform) (socket_handle : cy_socket_t) (w : World)
    (h : command_byte w = '1'.toNat) :
    (tcp_client_recv_handler P socket_handle w).1 = w.send_rsp 0 ∧
    (tcp_client_recv_handler P socket_handle w).2.gpio
      = (fun p => if p = P.CYBSP_USER_LED then P.CYBSP_LED_STATE_ON else w.gpio p) ∧
    (tcp_client_recv_handler P socket_handle w).2.trace = w.trace ++
      ([Event.printf SEPARATOR_MSG [],
        Event.cy_socket_recv socket_handle 1 (w.recv_rsp 0).1 ((w.recv_rsp 0).2.take 1),
        Event.cyhal_gpio_write P.CYBSP_USER_LED P.CYBSP_LED_STATE_ON,
        Event.printf "LED turned ON\n" [],
        Event.cy_socket_send socket_handle (bytes "LED ON ACK") 10 (w.send_rsp 0)] ++
        if w.send_rsp 0 = P.CY_RSLT_SUCCESS
        then [Event.printf "Acknowledgement sent to TCP server\n" []] else []) := by
  unfold command_byte at h
  obtain ⟨h1, h2⟩ := recv_handler_reply w ACK_LED_ON (by decide) (by decide)
  have h3 : (bytes "LED ON ACK").length = 10 := by decide
  simp only [tcp_client_recv_handler, cy_socket_recv, cy_socket_send, printf, emit,
    cyhal_gpio_write, LED_ON_CMD, h, if_true, h1, h2]
  simp only [h3, ACK_LED_ON, TCP_LED_CMD_LEN]
  split <;> simp

theorem recv_handler_off (P : Platform) (socket_handle : cy_socket_t) (w : World)
    (h : command_byte w = '0'.toNat) :
    (tcp_client_recv_handler P socket_handle w).1 = w.send_rsp 0 ∧
    (tcp_client_recv_handler P socket_handle w).2.gpio
      = (fun p => if p = P.CYBSP_USER_LED then P.CYBSP_LED_STATE_OFF else w.gpio p) ∧
    (tcp_client_recv_handler P socket_handle w).2.trace = w.trace ++
      ([Event.printf SEPARATOR_MSG [],
        Event.cy_socket_recv socket_handle 1 (w.recv_rsp 0).1 ((w.recv_rsp 0).2.take 1),
        Event.cyhal_gpio_write P.CYBSP_USER_LED P.CYBSP_LED_STATE_OFF,
        Event.printf "LED turned OFF\n" [],
        Event.cy_socket_send socket_handle (bytes "LED OFF ACK") 11 (w.send_rsp 0)] ++
        if w.send_rsp 0 = P.CY_RSLT_SUCCESS
        then [Event.printf "Acknowledgement sent to TCP server\n" []] else []) := by
  unfold command_byte at h
  obtain ⟨h1, h2⟩ := recv_handler_reply w ACK_LED_OFF (by decide) (by decide)
  have h3 : (bytes "LED OFF ACK").length = 11 := by decide
  have h4 : ¬ ('0'.toNat = '1'.toNat) := by decide
  simp only [tcp_client_recv_handler, cy_socket_recv, cy_socket_send, printf, emit,
    cyhal_gpio_write, LED_ON_CMD, LED_OFF_CMD, h, h4, if_true, if_false, h1, h2]
  simp only [h3, ACK_LED_OFF, TCP_LED_CMD_LEN]
  split <;> simp

theorem recv_handler_other (P : Platform) (socket_handle : cy_socket_t) (w : World)
    (h1 : command_byte w ≠ '1'.toNat) (h0 : command_byte w ≠ '0'.toNat) :
    (tcp_client_recv_handler P socket_handle w).1 = w.send_rsp 0 ∧
    (tcp_client_recv_handler P socket_handle w).2.gpio = w.gpio ∧
    (tcp_client_recv_handler P socket_handle w).2.trace = w.trace ++
      ([Event.printf SEPARATOR_MSG [],
        Event.cy_socket_recv socket_handle 1 (w.recv_rsp 0).1 ((w.recv_rsp 0).2.take 1),
        Event.printf "Invalid command\n" [],
        Event.cy_socket_send socket_handle (bytes "Invalid command") 15 (w.send_rsp 0)] ++
        if w.send_rsp 0 = P.CY_RSLT_SUCCESS
        then [Event.printf "Acknowledgement sent to TCP server\n" []] else []) := by
  unfold command_byte at h1 h0
  obtain ⟨h5, h2⟩ := recv_handler_reply w MSG_INVALID_CMD (by decide) (by decide)
  have h3 : (bytes "Invalid command").length = 15 := by decide
  simp only [tcp_client_recv_handler, cy_socket_recv, cy_socket_send, printf, emit,
    cyhal_gpio_write, LED_ON_CMD, LED_OFF_CMD, h1, h0, if_true, if_false, h5, h2]
  simp only [h3, MSG_INVALID_CMD, TCP_LED_CMD_LEN]
  split <;> simp

/-! ## `create_tcp_client_socket` -/

theorem FactoryInv.create (w0 : World) :
    FactoryInv w0 (cy_socket_create SockDomain.CY_SOCKET_DOMAIN_AF_INET
      SockType.CY_SOCKET_TYPE_STREAM SockProtocol.CY_SOCKET_IPPROTO_TCP w0).2 ∧
    (cy_socket_create SockDomain.CY_SOCKET_DOMAIN_AF_INET
      SockType.CY_SOCKET_TYPE_STREAM SockProtocol.CY_SOCKET_IPPROTO_TCP w0).1
      = (w0.socket_create_rsp 0).1 := by
  simp [FactoryInv, cy_socket_create, emit]

theorem FactoryInv.printf (w0 w : World) (f : String) (a : List PrintfArg)
    (h : FactoryInv w0 w) (hf : (f != EXHAUSTED_MSG && f != PROMPT_MSG) = true) :
    FactoryInv w0 (printf f a w) := by
  obtain ⟨rest, h1, h2, h3, h4, h5⟩ := h
  refine ⟨rest ++ [Event.printf f a], ?_, ?_, h3, h4, h5⟩
  · simp [TcpClient.printf, emit, h1]
  · intro e he
    rcases List.mem_append.1 he with he | he
    · exact h2 e he
    · simp at he
      subst he
      simpa [Event.is_option_step] using hf

theorem FactoryInv.setsockopt (w0 w : World) (l : SockLevel) (o : SockOpt)
    (v : OptVal) (h : FactoryInv w0 w) :
    FactoryInv w0 (cy_socket_setsockopt w.client_handle l o v w).2 := by
  obtain ⟨rest, h1, h2, h3, h4, h5⟩ := h
  refine ⟨rest ++ [Event.cy_socket_setsockopt w.client_handle l o v (w.setsockopt_rsp 0)],
    ?_, ?_, h3, h4, h5⟩
  · simp [cy_socket_setsockopt, emit, h1]
  · intro e he
    rcases List.mem_append.1 he with he | he
    · exact h2 e he
    · simp at he
      subst he
      simp [Event.is_option_step, h3]

/-- What one run of the Socket Factory does: one creation call, then option-set calls
on the handle stored in `client_handle`; it consumes no connect answer. -/
theorem factory_run (P : Platform) (w : World) :
    FactoryInv w (create_tcp_client_socket P w).2
      ∧ ((create_tcp_client_socket P w).1 = P.CY_RSLT_SUCCESS →
          (w.socket_create_rsp 0).1 = P.CY_RSLT_SUCCESS) := by
  unfold create_tcp_client_socket
  dsimp only
  obtain ⟨i0, hr0⟩ := FactoryInv.create w
  generalize cy_socket_create SockDomain.CY_SOCKET_DOMAIN_AF_INET
    SockType.CY_SOCKET_TYPE_STREAM SockProtocol.CY_SOCKET_IPPROTO_TCP w = p0 at i0 hr0 ⊢
  obtain ⟨r0, w0⟩ := p0
  dsimp only at i0 hr0 ⊢
  subst hr0
  split
  · rename_i c
    exact ⟨FactoryInv.printf w w0 _ _ i0 (by decide), fun h => absurd h c⟩
  rename_i c0
  have c0 : (w.socket_create_rsp 0).1 = P.CY_RSLT_SUCCESS := not_not.1 c0
  have i1 := FactoryInv.setsockopt w w0 SockLevel.CY_SOCKET_SOL_SOCKET SockOpt.CY_SOCKET_SO_RECEIVE_CALLBACK (OptVal.callback Callback.tcp_client_recv_handler) i0
  generalize cy_socket_setsockopt w0.client_handle SockLevel.CY_SOCKET_SOL_SOCKET SockOpt.CY_SOCKET_SO_RECEIVE_CALLBACK (OptVal.callback Callback.tcp_client_recv_handler) w0 = p1 at i1 ⊢
  obtain ⟨r1, w1⟩ := p1
  dsimp only at i1 ⊢
  split
  · rename_i c
    exact ⟨FactoryInv.printf w w1 _ _ i1 (by decide), fun h => absurd h c⟩
  have i2 := FactoryInv.setsockopt w w1 SockLevel.CY_SOCKET_SOL_SOCKET
    SockOpt.CY_SOCKET_SO_DISCONNECT_CALLBACK (OptVal.callback Callback.tcp_disconnection_handler) i1
  generalize cy_socket_setsockopt w1.client_handle SockLevel.CY_SOCKET_SOL_SOCKET
    SockOpt.CY_SOCKET_SO_DISCONNECT_CALLBACK (OptVal.callback Callback.tcp_disconnection_handler) w1
    = p2 at i2 ⊢
  obtain ⟨r2, w2⟩ := p2
  dsimp only at i2 ⊢
  have i2b : FactoryInv w (if r2 ≠ P.CY_RSLT_SUCCESS then
      printf "Set socket option: CY_SOCKET_SO_DISCONNECT_CALLBACK failed\n" [] w2 else w2) := by
    split
    · exact FactoryInv.printf w w2 _ _ i2 (by decide)
    · exact i2
  generalize (if r2 ≠ P.CY_RSLT_SUCCESS then
      printf "Set socket option: CY_SOCKET_SO_DISCONNECT_CALLBACK failed\n" [] w2 else w2)
    = w2b at i2b ⊢
  have i3 := FactoryInv.setsockopt w w2b SockLevel.CY_SOCKET_SOL_TCP SockOpt.CY_SOCKET_SO_TCP_KEEPALIVE_INTERVAL (OptVal.u32 TCP_KEEP_ALIVE_INTERVAL_MS) i2b
  generalize cy_socket_setsockopt w2b.client_handle SockLevel.CY_SOCKET_SOL_TCP SockOpt.CY_SOCKET_SO_TCP_KEEPALIVE_INTERVAL (OptVal.u32 TCP_KEEP_ALIVE_INTERVAL_MS) w2b = p3 at i3 ⊢
  obtain ⟨r3, w3⟩ := p3
  dsimp only at i3 ⊢
  split
  · rename_i c
    exact ⟨FactoryInv.printf w w3 _ _ i3 (by decide), fun h => absurd h c⟩
  have i4 := FactoryInv.setsockopt w w3 SockLevel.CY_SOCKET_SOL_TCP SockOpt.CY_SOCKET_SO_TCP_KEEPALIVE_COUNT (OptVal.u32 TCP_KEEP_ALIVE_RETRY_COUNT) i3
  generalize cy_socket_setsockopt w3.client_handle SockLevel.CY_SOCKET_SOL_TCP SockOpt.CY_SOCKET_SO_TCP_KEEPALIVE_COUNT (OptVal.u32 TCP_KEEP_ALIVE_RETRY_COUNT) w3 = p4 at i4 ⊢
  obtain ⟨r4, w4⟩ := p4
  dsimp only at i4 ⊢
  split
  · rename_i c
    exact ⟨FactoryInv.printf w w4 _ _ i4 (by decide), fun h => absurd h c⟩
  have i5 := FactoryInv.setsockopt w w4 SockLevel.CY_SOCKET_SOL_TCP SockOpt.CY_SOCKET_SO_TCP_KEEPALIVE_IDLE_TIME (OptVal.u32 TCP_KEEP_ALIVE_IDLE_TIME_MS) i4
  generalize cy_socket_setsockopt w4.client_handle SockLevel.CY_SOCKET_SOL_TCP SockOpt.CY_SOCKET_SO_TCP_KEEPALIVE_IDLE_TIME (OptVal.u32 TCP_KEEP_ALIVE_IDLE_TIME_MS) w4 = p5 at i5 ⊢
  obtain ⟨r5, w5⟩ := p5
  dsimp only at i5 ⊢
  split
  · rename_i c
    exact ⟨FactoryInv.printf w w5 _ _ i5 (by decide), fun h => absurd h c⟩
  have i6 := FactoryInv.setsockopt w w5 SockLevel.CY_SOCKET_SOL_SOCKET SockOpt.CY_SOCKET_SO_TCP_KEEPALIVE_ENABLE (OptVal.int 1) i5
  generalize cy_socket_setsockopt w5.client_handle SockLevel.CY_SOCKET_SOL_SOCKET SockOpt.CY_SOCKET_SO_TCP_KEEPALIVE_ENABLE (OptVal.int 1) w5 = p6 at i6 ⊢
  obtain ⟨r6, w6⟩ := p6
  dsimp only at i6 ⊢
  split
  · rename_i c
    exact ⟨FactoryInv.printf w w6 _ _ i6 (by decide), fun h => absurd h c⟩
  exact ⟨i6, fun _ => c0⟩

/-! ## Traces -/

theorem option_step_neutral (P : Platform) (h : cy_socket_t) (live : List cy_socket_t)
    (e : Event) (he : Event.is_option_step h e = true) :
    undeleted_step P live e = live ∧ disciplined_event live e ∧ e.is_create = false ∧
      e.is_connect = false ∧ e.is_delete = false ∧ e.is_give = false ∧
      e.is_printf EXHAUSTED_MSG = false ∧ e.is_printf PROMPT_MSG = false := by
  cases e <;> simp_all [Event.is_option_step, undeleted_step, disciplined_event,
    Event.is_create, Event.is_connect, Event.is_delete, Event.is_give, Event.is_printf]

theorem undeleted_from_append (P : Platform) (live : List cy_socket_t) (a b : List Event) :
    undeleted_from P live (a ++ b) = undeleted_from P (undeleted_from P live a) b := by
  simp [undeleted_from, List.foldl_append]

theorem disciplined_length (P : Platform) (live : List cy_socket_t) (evs : List Event)
    (h : disciplined P live evs) : live.length ≤ 1 := by
  cases evs with
  | nil => exact h
  | cons e es => exact h.1

theorem disciplined_append (P : Platform) (a b : List Event) :
    ∀ live, disciplined P live (a ++ b) ↔
      disciplined P live a ∧ disciplined P (undeleted_from P live a) b := by
  induction a with
  | nil =>
    intro live
    simp only [List.nil_append, undeleted_from, List.foldl_nil, disciplined]
    exact ⟨fun h => ⟨disciplined_length P live b h, h⟩, fun h => h.2⟩
  | cons e es ih =>
    intro live
    show (live.length ≤ 1 ∧ disciplined_event live e ∧
        disciplined P (undeleted_step P live e) (es ++ b)) ↔
      (live.length ≤ 1 ∧ disciplined_event live e ∧
        disciplined P (undeleted_step P live e) es) ∧
      disciplined P (undeleted_from P (undeleted_step P live e) es) b
    rw [ih]
    tauto

/-- Option-set calls and messages leave the undeleted handles as they are. -/
theorem option_steps_neutral (P : Platform) (h : cy_socket_t) (rest : List Event)
    (hr : ∀ e ∈ rest, Event.is_option_step h e = true) :
    (∀ live, undeleted_from P live rest = live) ∧
    (∀ live, live.length ≤ 1 → disciplined P live rest) ∧
    creations rest = 0 ∧ connects rest = 0 ∧ deletions rest = 0 ∧ gives rest = 0 ∧
    printed EXHAUSTED_MSG rest = 0 ∧ printed PROMPT_MSG rest = 0 := by
  induction rest with
  | nil => simp [undeleted_from, disciplined, creations, connects, deletions, gives, printed]
  | cons e es ih =>
    obtain ⟨i1, i2, i3, i4, i5, i6, i7, i8⟩ := ih (fun e he => hr e (by simp [he]))
    have hn := fun live => option_step_neutral P h live e (hr e (by simp))
    simp only [creations, connects, deletions, gives, printed] at *
    refine ⟨?_, ?_, ?_, ?_, ?_, ?_, ?_, ?_⟩
    · intro live
      have := i1 live
      simp only [undeleted_from, List.foldl_cons, (hn live).1] at *
      exact this
    · intro live hl
      exact ⟨hl, (hn live).2.1, by rw [(hn live).1]; exact i2 live hl⟩
    all_goals simp [List.countP_cons, (hn []).2, *]

theorem could_not_ne (x : String) :
    ("Could not connect to TCP server. Error code: 0x%08" ++ x ++ "\n" == EXHAUSTED_MSG)
      = false := by
  rw [beq_eq_false_iff_ne]
  intro h
  have := congrArg String.data h
  simp [EXHAUSTED_MSG] at this

theorem could_not_ne_prompt (x : String) :
    ("Could not connect to TCP server. Error code: 0x%08" ++ x ++ "\n" == PROMPT_MSG)
      = false := by
  rw [beq_eq_false_iff_ne]
  intro h
  have := congrArg String.data h
  simp [PROMPT_MSG] at this

/-! ## `connect_to_tcp_server` -/

/-- The events of an attempt that ends in the failed assertion. -/
theorem halted_attempt (P : Platform) (d : SockDomain) (t : SockType) (p : SockProtocol)
    (h : cy_socket_t) (r0 : cy_rslt_t)
    (rest : List Event) (h2 : ∀ e ∈ rest, Event.is_option_step h e = true) :
    disciplined P []
      (Event.cy_socket_create d t p r0 h ::
        (rest ++ [Event.printf "Socket creation failed!\n" [], Event.CY_ASSERT_0])) ∧
    creations (Event.cy_socket_create d t p r0 h ::
        (rest ++ [Event.printf "Socket creation failed!\n" [], Event.CY_ASSERT_0])) = 1 ∧
    gives (Event.cy_socket_create d t p r0 h ::
        (rest ++ [Event.printf "Socket creation failed!\n" [], Event.CY_ASSERT_0])) = 0 ∧
    printed PROMPT_MSG (Event.cy_socket_create d t p r0 h ::
        (rest ++ [Event.printf "Socket creation failed!\n" [], Event.CY_ASSERT_0])) = 0 := by
  obtain ⟨n1, n2, n3, n4, n5, n6, n7, n8⟩ := option_steps_neutral P _ rest h2
  simp only [creations, connects, deletions, gives, printed] at *
  refine ⟨?_, ?_, ?_, ?_⟩
  · refine ⟨by simp, by simp [disciplined_event], ?_⟩
    have hl : (undeleted_step P [] (Event.cy_socket_create d t p r0 h)).length ≤ 1 := by
      simp only [undeleted_step]; split <;> simp
    rw [disciplined_append, n1]
    refine ⟨n2 _ hl, hl, trivial, ?_, trivial, ?_⟩ <;> simpa [undeleted_step] using hl
  · simp [List.countP_cons, List.countP_append, n3, Event.is_create]
  · simp [List.countP_cons, List.countP_append, n6, Event.is_give]
  · simp [List.countP_cons, List.countP_append, n8, Event.is_printf]
    decide

/-- The events of an attempt whose connect call fails. -/
theorem failed_attempt (P : Platform) (d : SockDomain) (t : SockType) (p : SockProtocol)
    (h : cy_socket_t) (rc res : cy_rslt_t)
    (a : cy_socket_sockaddr_t) (rest : List Event)
    (h2 : ∀ e ∈ rest, Event.is_option_step h e = true) (B : List Event)
    (hB : B = Event.cy_socket_create d t p P.CY_RSLT_SUCCESS h :: (rest ++
      [Event.cy_socket_connect h a rc,
        Event.printf ("Could not connect to TCP server. Error code: 0x%08" ++ P.PRIx32 ++ "\n")
          [PrintfArg.u32 res],
        Event.printf
          "Trying to reconnect to TCP server... Please check if the server is listening\n" [],
        Event.cy_socket_delete h])) :
    (∀ evs, undeleted_from P [] (B ++ evs) = undeleted_from P [] evs) ∧
    (∀ evs, disciplined P [] evs → disciplined P [] (B ++ evs)) ∧
    creations B = 1 ∧ connects B = 1 ∧ deletions B = 1 ∧ gives B = 0 ∧
    printed EXHAUSTED_MSG B = 0 ∧ printed PROMPT_MSG B = 0 := by
  obtain ⟨n1, n2, n3, n4, n5, n6, n7, n8⟩ := option_steps_neutral P _ rest h2
  have hu : undeleted_from P [] B = [] := by
    subst hB
    show undeleted_from P (undeleted_step P [] _) _ = []
    rw [undeleted_from_append, n1]
    simp [undeleted_from, undeleted_step]
  simp only [creations, connects, deletions, gives, printed] at *
  refine ⟨?_, ?_, ?_, ?_, ?_, ?_, ?_, ?_⟩
  · intro evs
    rw [undeleted_from_append, hu]
  · intro evs he
    rw [disciplined_append, hu]
    refine ⟨?_, he⟩
    subst hB
    refine ⟨by simp, by simp [disciplined_event], ?_⟩
    rw [disciplined_append, n1]
    simp only [undeleted_step, if_true]
    refine ⟨n2 _ (by simp), ?_⟩
    simp [disciplined, disciplined_event, undeleted_step]
  all_goals subst hB
  all_goals simp [List.countP_cons, List.countP_append, n3, n4, n5, n6, n7, n8, Event.is_create,
      Event.is_connect, Event.is_delete, Event.is_give, Event.is_printf, could_not_ne,
      could_not_ne_prompt]
  all_goals decide

/-- The events of an attempt whose connect call succeeds. -/
theorem connected_attempt (P : Platform) (d : SockDomain) (t : SockType) (p : SockProtocol)
    (h : cy_socket_t) (a : cy_socket_sockaddr_t)
    (rest : List Event) (h2 : ∀ e ∈ rest, Event.is_option_step h e = true) (B : List Event)
    (hB : B = Event.cy_socket_create d t p P.CY_RSLT_SUCCESS h :: (rest ++
      [Event.cy_socket_connect h a P.CY_RSLT_SUCCESS,
        Event.printf SEPARATOR_MSG [],
        Event.printf "Connected to TCP server\n" []])) :
    undeleted P B = [h] ∧ disciplined P [] B ∧
    creations B = 1 ∧ connects B = 1 ∧ deletions B = 0 ∧ gives B = 0 ∧
    printed EXHAUSTED_MSG B = 0 ∧ printed PROMPT_MSG B = 0 := by
  obtain ⟨n1, n2, n3, n4, n5, n6, n7, n8⟩ := option_steps_neutral P _ rest h2
  simp only [creations, connects, deletions, gives, printed] at *
  subst hB
  refine ⟨?_, ?_, ?_, ?_, ?_, ?_, ?_, ?_⟩
  · show undeleted_from P (undeleted_step P [] _) _ = [h]
    rw [undeleted_from_append, n1]
    simp [undeleted_from, undeleted_step]
  · refine ⟨by simp, by simp [disciplined_event], ?_⟩
    rw [disciplined_append, n1]
    simp only [undeleted_step, if_true]
    refine ⟨n2 _ (by simp), ?_⟩
    simp [disciplined, disciplined_event, undeleted_step]
  all_goals simp [List.countP_cons, List.countP_append, n3, n4, n5, n6, n7, n8, Event.is_create,
      Event.is_connect, Event.is_delete, Event.is_give, Event.is_printf]
  all_goals decide

/-- One run of the loop of `connect_to_tcp_server` with `n` attempts left: its events
`evs`, and the three ways it can end. -/
theorem connect_loop_run (P : Platform) (a : cy_socket_sockaddr_t) (res : cy_rslt_t) :
    ∀ (n : Nat) (w : World), ∃ evs,
      (connect_to_tcp_server_loop P a res n w).2.trace = w.trace ++ evs ∧
      (connect_to_tcp_server_loop P a res n w).2.connect_to_server = w.connect_to_server ∧
      disciplined P [] evs ∧ gives evs = 0 ∧ printed PROMPT_MSG evs = 0 ∧ creations evs ≤ n ∧
      ((connect_to_tcp_server_loop P a res n w).1 = Outcome.halted
      ∨ (∃ k, k < n ∧ (∀ i, i < k → w.connect_rsp i ≠ P.CY_RSLT_SUCCESS) ∧
          w.connect_rsp k = P.CY_RSLT_SUCCESS ∧
          (connect_to_tcp_server_loop P a res n w).1 = Outcome.returned P.CY_RSLT_SUCCESS ∧
          creations evs = k + 1 ∧ connects evs = k + 1 ∧ deletions evs = k ∧
          printed EXHAUSTED_MSG evs = 0 ∧
          undeleted P evs = [(connect_to_tcp_server_loop P a res n w).2.client_handle] ∧
          ∃ pre, evs = pre ++
            [Event.cy_socket_connect (connect_to_tcp_server_loop P a res n w).2.client_handle a
                P.CY_RSLT_SUCCESS,
              Event.printf SEPARATOR_MSG [],
              Event.printf "Connected to TCP server\n" []])
      ∨ ((∀ i, i < n → w.connect_rsp i ≠ P.CY_RSLT_SUCCESS) ∧
          (connect_to_tcp_server_loop P a res n w).1 = Outcome.returned res ∧
          creations evs = n ∧ connects evs = n ∧ deletions evs = n ∧
          printed EXHAUSTED_MSG evs = 1 ∧ undeleted P evs = [])) := by
  intro n
  induction n with
  | zero =>
    intro w
    refine ⟨[Event.printf EXHAUSTED_MSG []], ?_, ?_, ?_, ?_, ?_, ?_, Or.inr (Or.inr ?_)⟩
    · simp [connect_to_tcp_server_loop, printf, emit, EXHAUSTED_MSG]
    · simp [connect_to_tcp_server_loop, printf, emit]
    · simp [disciplined, disciplined_event, undeleted_step]
    · simp [gives, Event.is_give]
    · simp [printed, Event.is_printf]
      decide
    · simp [creations, Event.is_create]
    · simp [connect_to_tcp_server_loop, creations, connects, deletions, printed, undeleted,
        undeleted_from, undeleted_step, Event.is_create, Event.is_connect, Event.is_delete,
        Event.is_printf]
  | succ n ih =>
    intro w
    obtain ⟨⟨rest, h1, h2, h3, h4, h5⟩, hs⟩ := factory_run P w
    rw [connect_to_tcp_server_loop]
    dsimp only
    generalize create_tcp_client_socket P w = p at h1 h3 h4 h5 hs ⊢
    obtain ⟨r, w1⟩ := p
    dsimp only at h1 h3 h4 h5 hs ⊢
    have hc1 : (cy_socket_connect w1.client_handle a w1).1 = w.connect_rsp 0 := by
      simp [cy_socket_connect, h4]
    by_cases hr : r = P.CY_RSLT_SUCCESS
    swap
    · -- the Socket Factory failed
      obtain ⟨b1, b2, b3, b4⟩ := halted_attempt P SockDomain.CY_SOCKET_DOMAIN_AF_INET
        SockType.CY_SOCKET_TYPE_STREAM SockProtocol.CY_SOCKET_IPPROTO_TCP
        _ (w.socket_create_rsp 0).1 rest h2
      simp only [hr, ne_eq, not_false_eq_true, if_true, CY_ASSERT_0]
      refine ⟨_, ?_, ?_, b1, b3, b4, ?_, Or.inl trivial⟩
      · simp [printf, emit, h1]
      · simp [printf, emit, h5]
      · rw [b2]; omega
    have hr0 := hs hr
    rw [hr0] at h1
    simp only [hr, ne_eq, not_true_eq_false, if_false, hc1]
    by_cases hc : w.connect_rsp 0 = P.CY_RSLT_SUCCESS
    · -- the connect call succeeded
      obtain ⟨b1, b2, b3, b4, b5, b6, b7, b8⟩ := connected_attempt P SockDomain.CY_SOCKET_DOMAIN_AF_INET
        SockType.CY_SOCKET_TYPE_STREAM SockProtocol.CY_SOCKET_IPPROTO_TCP
        _ a rest h2 _ rfl
      simp only [hc, if_true]
      refine ⟨_, ?_, ?_, b2, b6, b8, ?_, Or.inr (Or.inl ⟨0, ?_, ?_, hc, trivial, b3, b4, b5, b7, ?_, ?_⟩)⟩
      · simp [printf, emit, cy_socket_connect, h1, h3, h4, hc]
      · simp [printf, emit, cy_socket_connect, h5]
      · rw [b3]; omega
      · omega
      · intro i hi; omega
      · simpa [printf, emit, cy_socket_connect, h3] using b1
      · refine ⟨Event.cy_socket_create SockDomain.CY_SOCKET_DOMAIN_AF_INET
          SockType.CY_SOCKET_TYPE_STREAM SockProtocol.CY_SOCKET_IPPROTO_TCP P.CY_RSLT_SUCCESS
          (w.socket_create_rsp 0).2 :: rest, ?_⟩
        simp [printf, emit, cy_socket_connect, h3]
    · -- the connect call failed
      simp only [hc, if_false]
      obtain ⟨B, hB⟩ : ∃ B, B = Event.cy_socket_create SockDomain.CY_SOCKET_DOMAIN_AF_INET
          SockType.CY_SOCKET_TYPE_STREAM SockProtocol.CY_SOCKET_IPPROTO_TCP P.CY_RSLT_SUCCESS
          (w.socket_create_rsp 0).2 :: (rest ++
          [Event.cy_socket_connect (w.socket_create_rsp 0).2 a (w.connect_rsp 0),
            Event.printf ("Could not connect to TCP server. Error code: 0x%08" ++ P.PRIx32 ++ "\n")
              [PrintfArg.u32 res],
            Event.printf
              "Trying to reconnect to TCP server... Please check if the server is listening\n" [],
            Event.cy_socket_delete (w.socket_create_rsp 0).2]) := ⟨_, rfl⟩
      obtain ⟨b1, b2, b3, b4, b5, b6, b7, b8⟩ :=
        failed_attempt P _ _ _ _ (w.connect_rsp 0) res a rest h2 B hB
      generalize hw3 : cy_socket_delete _ _ = w3
      have t3 : w3.trace = w.trace ++ B := by
        rw [← hw3, hB]
        simp [printf, emit, cy_socket_connect, cy_socket_delete, h1, h3, h4]
      have c3 : w3.connect_rsp = fun i => w.connect_rsp (i + 1) := by
        rw [← hw3]
        simp [printf, emit, cy_socket_connect, cy_socket_delete, h4]
      have s3 : w3.connect_to_server = w.connect_to_server := by
        rw [← hw3]
        simp [printf, emit, cy_socket_connect, cy_socket_delete, h5]
      obtain ⟨evs, e1, e2, e3, e4, e4b, e5, e6⟩ := ih w3
      refine ⟨B ++ evs, ?_, ?_, b2 evs e3, ?_, ?_, ?_, ?_⟩
      · rw [e1, t3, List.append_assoc]
      · rw [e2, s3]
      · simp only [gives, List.countP_append] at b6 e4 ⊢
        omega
      · simp only [printed, List.countP_append] at b8 e4b ⊢
        omega
      · simp only [creations, List.countP_append] at b3 e5 ⊢
        omega
      · simp only [creations, connects, deletions, printed, List.countP_append, undeleted, b1]
          at b3 b4 b5 b7 e6 ⊢
        rcases e6 with e6 | ⟨k, k1, k2, k3, k4, k5, k6, k7, k8, k9, pre, k10⟩ | ⟨k1, k2, k3, k4, k5, k6, k7⟩
        · exact Or.inl e6
        · refine Or.inr (Or.inl ⟨k + 1, by omega, ?_, ?_, k4, by omega, by omega, by omega, by omega,
            k9, B ++ pre, ?_⟩)
          · intro i hi
            cases i with
            | zero => exact hc
            | succ i =>
              have := k2 i (by omega)
              rwa [c3] at this
          · rwa [c3] at k3
          · rw [k10, List.append_assoc]
        · refine Or.inr (Or.inr ⟨?_, k2, by omega, by omega, by omega, by omega, k7⟩)
          intro i hi
          cases i with
          | zero => exact hc
          | succ i =>
            have := k1 i (by omega)
            rwa [c3] at this

/-- Along a disciplined trace at most one handle is undeleted before every event, and
every event meets the discipline. -/
theorem disciplined_at (P : Platform) (evs pre : List Event) (e : Event) (post : List Event)
    (h : disciplined P [] evs) (he : evs = pre ++ e :: post) :
    (undeleted P pre).length ≤ 1 ∧ disciplined_event (undeleted P pre) e := by
  subst he
  rw [disciplined_append] at h
  exact ⟨h.2.1, h.2.2.1⟩

theorem disciplined_take (P : Platform) (evs : List Event) (h : disciplined P [] evs)
    (n : Nat) : (undeleted P (evs.take n)).length ≤ 1 := by
  rw [← List.take_append_drop n evs, disciplined_append] at h
  exact disciplined_length P _ _ h.2

/-! ## Properties of the specification -/

/-- C1: when the command byte is '1' the handler writes the LED once, to ON, and the
only reply it sends is "LED ON ACK"; when the byte is '0' it writes the LED once, to
OFF, and the only reply it sends is "LED OFF ACK". -/
theorem recv_handler_led_commands (P : Platform) (socket_handle : cy_socket_t) (w : World) :
    (command_byte w = '1'.toNat →
      gpio_writes (appended w (tcp_client_recv_handler P socket_handle w).2)
        = [(P.CYBSP_USER_LED, P.CYBSP_LED_STATE_ON)] ∧
      led P (tcp_client_recv_handler P socket_handle w).2 = P.CYBSP_LED_STATE_ON ∧
      replies (appended w (tcp_client_recv_handler P socket_handle w).2)
        = [(socket_handle, bytes "LED ON ACK", 10)]) ∧
    (command_byte w = '0'.toNat →
      gpio_writes (appended w (tcp_client_recv_handler P socket_handle w).2)
        = [(P.CYBSP_USER_LED, P.CYBSP_LED_STATE_OFF)] ∧
      led P (tcp_client_recv_handler P socket_handle w).2 = P.CYBSP_LED_STATE_OFF ∧
      replies (appended w (tcp_client_recv_handler P socket_handle w).2)
        = [(socket_handle, bytes "LED OFF ACK", 11)]) := by
  constructor
  · intro h
    obtain ⟨_, h2, h3⟩ := recv_handler_on P socket_handle w h
    rw [appended_eq _ _ _ h3, led, h2]
    split <;> simp [gpio_writes, replies]
  · intro h
    obtain ⟨_, h2, h3⟩ := recv_handler_off P socket_handle w h
    rw [appended_eq _ _ _ h3, led, h2]
    split <;> simp [gpio_writes, replies]

/-- C1 on the example world: the server sends '1' with the LED off, then '0' with
the LED on. -/
theorem recv_handler_led_commands_witness :
    (command_byte (exampleWorld 49 true) = '1'.toNat ∧
      led examplePlatform (tcp_client_recv_handler examplePlatform 7 (exampleWorld 49 true)).2
        = false) ∧
    (command_byte (exampleWorld 48 false) = '0'.toNat ∧
      led examplePlatform (tcp_client_recv_handler examplePlatform 7 (exampleWorld 48 false)).2
        = true) :=
  ⟨⟨by decide,
    ((recv_handler_led_commands examplePlatform 7 (exampleWorld 49 true)).1 (by decide)).2.1⟩,
   ⟨by decide,
    ((recv_handler_led_commands examplePlatform 7 (exampleWorld 48 false)).2 (by decide)).2.1⟩⟩

/-- C2: for a command byte other than '0' and '1' the handler writes no GPIO pin, the
LED keeps its level, and the only reply sent is "Invalid command". -/
theorem recv_handler_invalid_command (P : Platform) (socket_handle : cy_socket_t) (w : World)
    (h1 : command_byte w ≠ '1'.toNat) (h0 : command_byte w ≠ '0'.toNat) :
    gpio_writes (appended w (tcp_client_recv_handler P socket_handle w).2) = [] ∧
    led P (tcp_client_recv_handler P socket_handle w).2 = led P w ∧
    replies (appended w (tcp_client_recv_handler P socket_handle w).2)
      = [(socket_handle, bytes "Invalid command", 15)] := by
  obtain ⟨_, h2, h3⟩ := recv_handler_other P socket_handle w h1 h0
  rw [appended_eq _ _ _ h3, led, h2]
  split <;> simp [gpio_writes, replies, led]

/-- C2 on the example world: the server sends 0x32 ('2') with the LED on. -/
theorem recv_handler_invalid_command_witness :
    command_byte (exampleWorld 0x32 false) ≠ '1'.toNat ∧
    command_byte (exampleWorld 0x32 false) ≠ '0'.toNat ∧
    gpio_writes (appended (exampleWorld 0x32 false)
      (tcp_client_recv_handler examplePlatform 7 (exampleWorld 0x32 false)).2) = [] ∧
    led examplePlatform (tcp_client_recv_handler examplePlatform 7 (exampleWorld 0x32 false)).2
      = led examplePlatform (exampleWorld 0x32 false) ∧
    replies (appended (exampleWorld 0x32 false)
      (tcp_client_recv_handler examplePlatform 7 (exampleWorld 0x32 false)).2)
      = [(7, bytes "Invalid command", 15)] :=
  ⟨by decide, by decide,
    recv_handler_invalid_command examplePlatform 7 (exampleWorld 0x32 false)
      (by decide) (by decide)⟩

/-- C3: one run of `connect_to_tcp_server` makes at most 5 socket creations; at every
creation no earlier handle is left undeleted; at no point of the run is more than one
handle undeleted; and every connect call is made on the one undeleted handle, the one
created in the same attempt. -/
theorem connect_cycle_handle_discipline (P : Platform) (address : cy_socket_sockaddr_t)
    (w : World) :
    creations (appended w (connect_to_tcp_server P address w).2)
      ≤ MAX_TCP_SERVER_CONN_RETRIES ∧
    (∀ pre d t p r h post,
      appended w (connect_to_tcp_server P address w).2
        = pre ++ Event.cy_socket_create d t p r h :: post →
      undeleted P pre = []) ∧
    (∀ n, (undeleted P ((appended w (connect_to_tcp_server P address w).2).take n)).length
      ≤ 1) ∧
    (∀ pre h adr r post,
      appended w (connect_to_tcp_server P address w).2
        = pre ++ Event.cy_socket_connect h adr r :: post →
      undeleted P pre = [h]) := by
  obtain ⟨evs, e1, _, e3, _, _, e5, _⟩ :=
    connect_loop_run P address P.CY_RSLT_MODULE_SECURE_SOCKETS_TIMEOUT
      MAX_TCP_SERVER_CONN_RETRIES w
  have ha : appended w (connect_to_tcp_server P address w).2 = evs :=
    appended_eq _ _ _ e1
  rw [ha]
  refine ⟨e5, ?_, disciplined_take P evs e3, ?_⟩
  · intro pre d t p r h post he
    exact (disciplined_at P evs pre _ post e3 he).2
  · intro pre h adr r post he
    exact (disciplined_at P evs pre _ post e3 he).2

/-- C3 on a server that refuses the first connect call: the second creation (event
11 of the run) finds no undeleted handle, and the second connect call (event 18) is
made on the handle 101 of the second creation, the only undeleted one. -/
theorem connect_cycle_handle_discipline_witness :
    undeleted examplePlatform
      ((appended (refusingWorld 1)
        (connect_to_tcp_server examplePlatform exampleAddress (refusingWorld 1)).2).take 11) = [] ∧
    undeleted examplePlatform
      ((appended (refusingWorld 1)
        (connect_to_tcp_server examplePlatform exampleAddress (refusingWorld 1)).2).take 18)
      = [101] :=
  ⟨(connect_cycle_handle_discipline examplePlatform exampleAddress (refusingWorld 1)).2.1
      ((appended (refusingWorld 1)
        (connect_to_tcp_server examplePlatform exampleAddress (refusingWorld 1)).2).take 11)
      SockDomain.CY_SOCKET_DOMAIN_AF_INET SockType.CY_SOCKET_TYPE_STREAM
      SockProtocol.CY_SOCKET_IPPROTO_TCP 0 101
      ((appended (refusingWorld 1)
        (connect_to_tcp_server examplePlatform exampleAddress (refusingWorld 1)).2).drop 12)
      (by decide),
   (connect_cycle_handle_discipline examplePlatform exampleAddress (refusingWorld 1)).2.2.2
      ((appended (refusingWorld 1)
        (connect_to_tcp_server examplePlatform exampleAddress (refusingWorld 1)).2).take 18)
      101 exampleAddress 0
      ((appended (refusingWorld 1)
        (connect_to_tcp_server examplePlatform exampleAddress (refusingWorld 1)).2).drop 19)
      (by decide)⟩

/-- C4: when no Socket Factory call of the run fails (the run does not stop in
`CY_ASSERT(0)`), `connect_to_tcp_server` returns `CY_RSLT_SUCCESS` exactly when one of
the 5 connect answers is a success; it then stops right after the first successful
connect call, attempt `k + 1`: the run holds `k + 1` creations, `k + 1` connect calls
and `k` deletions, only messages follow the successful connect call, and its handle
is the one undeleted handle on return. -/
theorem connect_cycle_success (P : Platform) (address : cy_socket_sockaddr_t) (w : World)
    (hP : P.CY_RSLT_MODULE_SECURE_SOCKETS_TIMEOUT ≠ P.CY_RSLT_SUCCESS)
    (hrun : (connect_to_tcp_server P address w).1 ≠ Outcome.halted) :
    ((connect_to_tcp_server P address w).1 = Outcome.returned P.CY_RSLT_SUCCESS ↔
      ∃ i, i < MAX_TCP_SERVER_CONN_RETRIES ∧ w.connect_rsp i = P.CY_RSLT_SUCCESS) ∧
    ((connect_to_tcp_server P address w).1 = Outcome.returned P.CY_RSLT_SUCCESS →
      ∃ k, k < MAX_TCP_SERVER_CONN_RETRIES ∧
        (∀ i, i < k → w.connect_rsp i ≠ P.CY_RSLT_SUCCESS) ∧
        w.connect_rsp k = P.CY_RSLT_SUCCESS ∧
        creations (appended w (connect_to_tcp_server P address w).2) = k + 1 ∧
        connects (appended w (connect_to_tcp_server P address w).2) = k + 1 ∧
        deletions (appended w (connect_to_tcp_server P address w).2) = k ∧
        undeleted P (appended w (connect_to_tcp_server P address w).2)
          = [(connect_to_tcp_server P address w).2.client_handle] ∧
        ∃ pre, appended w (connect_to_tcp_server P address w).2 = pre ++
          [Event.cy_socket_connect (connect_to_tcp_server P address w).2.client_handle address
              P.CY_RSLT_SUCCESS,
            Event.printf SEPARATOR_MSG [],
            Event.printf "Connected to TCP server\n" []]) := by
  obtain ⟨evs, e1, _, _, _, _, _, e6⟩ :=
    connect_loop_run P address P.CY_RSLT_MODULE_SECURE_SOCKETS_TIMEOUT
      MAX_TCP_SERVER_CONN_RETRIES w
  have ha : appended w (connect_to_tcp_server P address w).2 = evs :=
    appended_eq _ _ _ e1
  rw [ha]
  change (connect_to_tcp_server P address w).1 = Outcome.halted ∨ _ at e6
  change (connect_to_tcp_server P address w).2.trace = _ at e1
  rcases e6 with e6 | ⟨k, k1, k2, k3, k4, k5, k6, k7, _, k9, k10⟩ | ⟨k1, k2, _⟩
  · exact absurd e6 hrun
  · exact ⟨⟨fun _ => ⟨k, k1, k3⟩, fun _ => k4⟩,
      fun _ => ⟨k, k1, k2, k3, k5, k6, k7, k9, k10⟩⟩
  · have hne : (connect_to_tcp_server P address w).1
        ≠ Outcome.returned P.CY_RSLT_SUCCESS := by
      change (connect_to_tcp_server P address w).1 = _ at k2
      rw [k2]
      intro h
      exact hP (Outcome.returned.inj h)
    refine ⟨⟨fun h => absurd h hne, ?_⟩, fun h => absurd h hne⟩
    rintro ⟨i, hi, hs⟩
    exact absurd hs (k1 i hi)

/-- C4 on a server that refuses the first connect call: the run returns success with
2 creations, 2 connect calls, 1 deletion and the handle 101 left undeleted. -/
theorem connect_cycle_success_witness :
    examplePlatform.CY_RSLT_MODULE_SECURE_SOCKETS_TIMEOUT ≠ examplePlatform.CY_RSLT_SUCCESS ∧
    (connect_to_tcp_server examplePlatform exampleAddress (refusingWorld 1)).1
      ≠ Outcome.halted ∧
    ((connect_to_tcp_server examplePlatform exampleAddress (refusingWorld 1)).1
        = Outcome.returned examplePlatform.CY_RSLT_SUCCESS ↔
      ∃ i, i < MAX_TCP_SERVER_CONN_RETRIES ∧
        (refusingWorld 1).connect_rsp i = examplePlatform.CY_RSLT_SUCCESS) ∧
    undeleted examplePlatform (appended (refusingWorld 1)
      (connect_to_tcp_server examplePlatform exampleAddress (refusingWorld 1)).2) = [101] :=
  ⟨by decide, by decide,
    (connect_cycle_success examplePlatform exampleAddress (refusingWorld 1)
      (by decide) (by decide)).1,
    by decide⟩

/-- C5: when no Socket Factory call of the run fails, the connect call fails on
attempts 1 to `k - 1` and succeeds on attempt `k`, with `1 ≤ k ≤ 5`, the function
returns success after exactly `k` creations, `k` connect calls and `k - 1` deletions,
one per failed attempt. -/
theorem connect_cycle_success_on_attempt (P : Platform) (address : cy_socket_sockaddr_t)
    (w : World) (k : Nat) (hk1 : 1 ≤ k) (hk5 : k ≤ MAX_TCP_SERVER_CONN_RETRIES)
    (hfail : ∀ i, i < k - 1 → w.connect_rsp i ≠ P.CY_RSLT_SUCCESS)
    (hok : w.connect_rsp (k - 1) = P.CY_RSLT_SUCCESS)
    (hrun : (connect_to_tcp_server P address w).1 ≠ Outcome.halted) :
    (connect_to_tcp_server P address w).1 = Outcome.returned P.CY_RSLT_SUCCESS ∧
    creations (appended w (connect_to_tcp_server P address w).2) = k ∧
    connects (appended w (connect_to_tcp_server P address w).2) = k ∧
    deletions (appended w (connect_to_tcp_server P address w).2) = k - 1 := by
  obtain ⟨evs, e1, _, _, _, _, _, e6⟩ :=
    connect_loop_run P address P.CY_RSLT_MODULE_SECURE_SOCKETS_TIMEOUT
      MAX_TCP_SERVER_CONN_RETRIES w
  have ha : appended w (connect_to_tcp_server P address w).2 = evs :=
    appended_eq _ _ _ e1
  rw [ha]
  change (connect_to_tcp_server P address w).1 = Outcome.halted ∨ _ at e6
  rcases e6 with e6 | ⟨j, j1, j2, j3, j4, j5, j6, j7, _⟩ | ⟨j1, _⟩
  · exact absurd e6 hrun
  · have hj : j = k - 1 := by
      rcases Nat.lt_trichotomy j (k - 1) with h | h | h
      · exact absurd j3 (hfail j h)
      · exact h
      · exact absurd hok (j2 (k - 1) h)
    subst hj
    exact ⟨j4, by omega, by omega, j7⟩
  · exact absurd hok (j1 (k - 1) (by omega))

/-- C5 on a server that accepts on attempt 1 (no failed attempt) and on a server that
accepts on attempt 5 (4 failed attempts). -/
theorem connect_cycle_success_on_attempt_witness :
    ((connect_to_tcp_server examplePlatform exampleAddress (refusingWorld 0)).1
        = Outcome.returned 0 ∧
      creations (appended (refusingWorld 0)
        (connect_to_tcp_server examplePlatform exampleAddress (refusingWorld 0)).2) = 1 ∧
      connects (appended (refusingWorld 0)
        (connect_to_tcp_server examplePlatform exampleAddress (refusingWorld 0)).2) = 1 ∧
      deletions (appended (refusingWorld 0)
        (connect_to_tcp_server examplePlatform exampleAddress (refusingWorld 0)).2) = 0) ∧
    ((connect_to_tcp_server examplePlatform exampleAddress (refusingWorld 4)).1
        = Outcome.returned 0 ∧
      creations (appended (refusingWorld 4)
        (connect_to_tcp_server examplePlatform exampleAddress (refusingWorld 4)).2) = 5 ∧
      connects (appended (refusingWorld 4)
        (connect_to_tcp_server examplePlatform exampleAddress (refusingWorld 4)).2) = 5 ∧
      deletions (appended (refusingWorld 4)
        (connect_to_tcp_server examplePlatform exampleAddress (refusingWorld 4)).2) = 4) :=
  ⟨connect_cycle_success_on_attempt examplePlatform exampleAddress (refusingWorld 0) 1
      (by decide) (by decide) (by decide) (by decide) (by decide),
   connect_cycle_success_on_attempt examplePlatform exampleAddress (refusingWorld 4) 5
      (by decide) (by decide) (by decide) (by decide) (by decide)⟩

/-- C6: when no Socket Factory call of the run fails and the connect call fails on
all 5 attempts, the function returns `CY_RSLT_MODULE_SECURE_SOCKETS_TIMEOUT`, which is
not `CY_RSLT_SUCCESS`, after exactly 5 creations and 5 deletions, with no handle left
undeleted, and it prints the exhaustion diagnostic exactly once. -/
theorem connect_cycle_exhausted (P : Platform) (address : cy_socket_sockaddr_t) (w : World)
    (hP : P.CY_RSLT_MODULE_SECURE_SOCKETS_TIMEOUT ≠ P.CY_RSLT_SUCCESS)
    (hfail : ∀ i, i < MAX_TCP_SERVER_CONN_RETRIES → w.connect_rsp i ≠ P.CY_RSLT_SUCCESS)
    (hrun : (connect_to_tcp_server P address w).1 ≠ Outcome.halted) :
    (∃ r, (connect_to_tcp_server P address w).1 = Outcome.returned r ∧
      r ≠ P.CY_RSLT_SUCCESS) ∧
    creations (appended w (connect_to_tcp_server P address w).2) = 5 ∧
    deletions (appended w (connect_to_tcp_server P address w).2) = 5 ∧
    undeleted P (appended w (connect_to_tcp_server P address w).2) = [] ∧
    printed "Exceeded maximum connection attempts to the TCP server\n"
      (appended w (connect_to_tcp_server P address w).2) = 1 := by
  obtain ⟨evs, e1, _, _, _, _, _, e6⟩ :=
    connect_loop_run P address P.CY_RSLT_MODULE_SECURE_SOCKETS_TIMEOUT
      MAX_TCP_SERVER_CONN_RETRIES w
  have ha : appended w (connect_to_tcp_server P address w).2 = evs :=
    appended_eq _ _ _ e1
  rw [ha]
  change (connect_to_tcp_server P address w).1 = Outcome.halted ∨ _ at e6
  rcases e6 with e6 | ⟨j, j1, _, j3, _⟩ | ⟨_, j2, j3, _, j5, j6, j7⟩
  · exact absurd e6 hrun
  · exact absurd j3 (hfail j j1)
  · exact ⟨⟨_, j2, hP⟩, j3, j5, j7, j6⟩

/-- C6 on a server that refuses every connect call. -/
theorem connect_cycle_exhausted_witness :
    (∃ r, (connect_to_tcp_server examplePlatform exampleAddress (refusingWorld 5)).1
        = Outcome.returned r ∧ r ≠ 0) ∧
    creations (appended (refusingWorld 5)
      (connect_to_tcp_server examplePlatform exampleAddress (refusingWorld 5)).2) = 5 ∧
    deletions (appended (refusingWorld 5)
      (connect_to_tcp_server examplePlatform exampleAddress (refusingWorld 5)).2) = 5 ∧
    undeleted examplePlatform (appended (refusingWorld 5)
      (connect_to_tcp_server examplePlatform exampleAddress (refusingWorld 5)).2) = [] ∧
    printed "Exceeded maximum connection attempts to the TCP server\n" (appended (refusingWorld 5)
      (connect_to_tcp_server examplePlatform exampleAddress (refusingWorld 5)).2) = 1 :=
  connect_cycle_exhausted examplePlatform exampleAddress (refusingWorld 5)
    (by decide) (by decide) (by decide)

/-! ## `read_uart_input` -/

theorem uart_steps_neutral (evs : List Event) (h : ∀ e ∈ evs, Event.is_uart_step e = true) :
    gives evs = 0 ∧ printed PROMPT_MSG evs = 0 := by
  induction evs with
  | nil => simp [gives, printed]
  | cons e es ih =>
    obtain ⟨i1, i2⟩ := ih (fun e he => h e (by simp [he]))
    have he := h e (by simp)
    simp only [gives, printed] at *
    cases e <;> simp_all [Event.is_uart_step, Event.is_give, Event.is_printf, List.countP_cons]
    decide

theorem uart_body_run (P : Platform) (p : UartPoll) (buf : List Nat) (ptr : Nat) (w : World) :
    ∃ evs, (read_uart_input_body P p buf ptr w).2.trace = w.trace ++ evs ∧
      (∀ e ∈ evs, Event.is_uart_step e = true) ∧
      (read_uart_input_body P p buf ptr w).2.connect_to_server = w.connect_to_server ∧
      (read_uart_input_body P p buf ptr w).1 ≠ Outcome.blocked := by
  unfold read_uart_input_body
  dsimp only
  split_ifs
  all_goals first
    | exact ⟨[_], rfl, by simp [Event.is_uart_step], rfl, by simp⟩
    | exact ⟨[], (List.append_nil _).symm, by simp, rfl, by simp⟩

theorem uart_loop_run (P : Platform) :
    ∀ (polls : List UartPoll) (buf : List Nat) (ptr : Nat) (w : World),
    ∃ evs, (read_uart_input_loop P polls buf ptr w).2.trace = w.trace ++ evs ∧
      (∀ e ∈ evs, Event.is_uart_step e = true) ∧
      (read_uart_input_loop P polls buf ptr w).2.connect_to_server = w.connect_to_server ∧
      (read_uart_input_loop P polls buf ptr w).1 ≠ Outcome.blocked := by
  intro polls
  induction polls with
  | nil =>
    intro buf ptr w
    exact ⟨[], by simp [read_uart_input_loop], by simp, rfl, by simp [read_uart_input_loop]⟩
  | cons p rest ih =>
    intro buf ptr w
    obtain ⟨bevs, b1, b2, b3, b4⟩ := uart_body_run P p buf ptr { w with uart := rest }
    rw [read_uart_input_loop]
    generalize read_uart_input_body P p buf ptr { w with uart := rest } = r at b1 b2 b3 b4 ⊢
    obtain ⟨o, w1⟩ := r
    dsimp only at b1 b3 b4
    cases o with
    | returned a =>
      obtain ⟨buf1, ptr1⟩ := a
      dsimp only
      split_ifs
      · obtain ⟨evs, e1, e2, e3, e4⟩ :=
          ih buf1 ptr1 (emit (Event.vTaskDelay RTOS_TICK_TO_WAIT) w1)
        refine ⟨bevs ++ Event.vTaskDelay RTOS_TICK_TO_WAIT :: evs, ?_, ?_, ?_, e4⟩
        · rw [e1]; simp [emit, b1]
        · intro e he
          simp only [List.mem_append, List.mem_cons] at he
          rcases he with he | he | he
          · exact b2 e he
          · subst he; rfl
          · exact e2 e he
        · rw [e3]; simp [emit, b3]
      · refine ⟨bevs ++ [Event.vTaskDelay RTOS_TICK_TO_WAIT], by simp [emit, b1], ?_,
          by simp [emit, b3], by simp⟩
        intro e he
        simp only [List.mem_append, List.mem_singleton] at he
        rcases he with he | he
        · exact b2 e he
        · subst he; rfl
      · refine ⟨bevs ++ [Event.vTaskDelay RTOS_TICK_TO_WAIT], by simp [emit, b1], ?_,
          by simp [emit, b3], by simp⟩
        intro e he
        simp only [List.mem_append, List.mem_singleton] at he
        rcases he with he | he
        · exact b2 e he
        · subst he; rfl
    | halted => exact ⟨bevs, b1, b2, b3, by simp⟩
    | blocked => exact absurd rfl b4
    | starved => exact ⟨bevs, b1, b2, b3, by simp⟩
    | out_of_bounds i => exact ⟨bevs, b1, b2, b3, by simp⟩

theorem uart_run (P : Platform) (buf : List Nat) (w : World) :
    ∃ evs, (read_uart_input P buf w).2.trace = w.trace ++ evs ∧
      gives evs = 0 ∧ printed PROMPT_MSG evs = 0 ∧
      (read_uart_input P buf w).2.connect_to_server = w.connect_to_server ∧
      (read_uart_input P buf w).1 ≠ Outcome.blocked := by
  obtain ⟨evs, e1, e2, e3, e4⟩ := uart_loop_run P w.uart buf 0 w
  obtain ⟨n1, n2⟩ := uart_steps_neutral evs e2
  refine ⟨evs, ?_, n1, n2, ?_, ?_⟩
  all_goals
    unfold read_uart_input
    generalize read_uart_input_loop P w.uart buf 0 w = r at e1 e3 e4 ⊢
    obtain ⟨o, w1⟩ := r
    cases o <;> first | assumption | exact absurd rfl e4 | simp

/-- What a run of `connect_to_tcp_server` leaves alone: it never waits, it neither
gives the token nor prompts. -/
theorem connect_run_frame (P : Platform) (adr : cy_socket_sockaddr_t) (w : World) :
    ∃ evs, (connect_to_tcp_server P adr w).2.trace = w.trace ++ evs ∧
      gives evs = 0 ∧ printed PROMPT_MSG evs = 0 ∧
      (connect_to_tcp_server P adr w).2.connect_to_server = w.connect_to_server ∧
      (connect_to_tcp_server P adr w).1 ≠ Outcome.blocked := by
  obtain ⟨evs, e1, e2, _, e4, e5, _, e7⟩ :=
    connect_loop_run P adr P.CY_RSLT_MODULE_SECURE_SOCKETS_TIMEOUT
      MAX_TCP_SERVER_CONN_RETRIES w
  refine ⟨evs, e1, e4, e5, e2, ?_⟩
  change (connect_to_tcp_server P adr w).1 = Outcome.halted ∨ _ at e7
  rcases e7 with h | ⟨_, _, _, _, h, _⟩ | ⟨_, h, _⟩
  · rw [h]; simp
  · change (connect_to_tcp_server P adr w).1 = _ at h
    rw [h]; simp
  · change (connect_to_tcp_server P adr w).1 = _ at h
    rw [h]; simp

/-! ## The loop of `tcp_client_task` -/

/-- An iteration that finds the token absent waits, and does nothing else. -/
theorem iteration_blocked (P : Platform) (adr : cy_socket_sockaddr_t) (w : World)
    (hs : w.connect_to_server = false) :
    tcp_client_task_iteration P adr w = (Outcome.blocked, w) := by
  simp [tcp_client_task_iteration, xSemaphoreTake, take_token, hs]

/-- An iteration that finds the token present: it does not wait, it prompts once,
and it gives the token back exactly when `connect_to_tcp_server` returns a failure. -/
theorem iteration_run (P : Platform) (adr : cy_socket_sockaddr_t) (w : World)
    (hs : w.connect_to_server = true) :
    ∃ evs, (tcp_client_task_iteration P adr w).2.trace = w.trace ++ evs ∧
      (tcp_client_task_iteration P adr w).1 ≠ Outcome.blocked ∧
      printed PROMPT_MSG evs = 1 ∧
      ∀ result adr1, (tcp_client_task_iteration P adr w).1 = Outcome.returned (result, adr1) →
        (result ≠ P.CY_RSLT_SUCCESS →
          gives evs = 1 ∧ (tcp_client_task_iteration P adr w).2.connect_to_server = true) ∧
        (result = P.CY_RSLT_SUCCESS →
          gives evs = 0 ∧ (tcp_client_task_iteration P adr w).2.connect_to_server = false) := by
  unfold tcp_client_task_iteration
  simp only [xSemaphoreTake, take_token, hs, if_true]
  generalize hw3 : emit Event.cyhal_syspm_lock_deepsleep _ = w3
  obtain ⟨pre, hpre⟩ : ∃ pre, pre = [Event.xSemaphoreTake,
      Event.printf "Connect to TCP server\n" [], Event.printf PROMPT_MSG [],
      Event.cyhal_syspm_lock_deepsleep] := ⟨_, rfl⟩
  have t3 : w3.trace = w.trace ++ pre := by
    rw [← hw3, hpre]; simp [printf, emit, PROMPT_MSG]
  have s3 : w3.connect_to_server = false := by
    rw [← hw3]; simp [printf, emit]
  obtain ⟨uevs, u1, u2, u3, u4, u5⟩ := uart_run P (List.replicate UART_BUFFER_SIZE 0) w3
  generalize read_uart_input P (List.replicate UART_BUFFER_SIZE 0) w3 = ru at u1 u4 u5 ⊢
  obtain ⟨o, w4⟩ := ru
  dsimp only at u1 u4 u5
  have p0 : printed PROMPT_MSG pre = 1 := by rw [hpre]; decide
  have g0 : gives pre = 0 := by rw [hpre]; decide
  simp only [printed, gives] at *
  have stop : ∀ o1 : Outcome (cy_rslt_t × cy_socket_sockaddr_t),
      o1 ≠ Outcome.blocked → (∀ x, o1 ≠ Outcome.returned x) →
      ∃ evs, w4.trace = w.trace ++ evs ∧ o1 ≠ Outcome.blocked ∧
      List.countP (Event.is_printf PROMPT_MSG) evs = 1 ∧
      ∀ result adr1, o1 = Outcome.returned (result, adr1) →
        (result ≠ P.CY_RSLT_SUCCESS →
          List.countP Event.is_give evs = 1 ∧ w4.connect_to_server = true) ∧
        (result = P.CY_RSLT_SUCCESS →
          List.countP Event.is_give evs = 0 ∧ w4.connect_to_server = false) := by
    intro o1 h1 h2
    refine ⟨pre ++ uevs, by rw [u1, t3, List.append_assoc], h1, ?_, ?_⟩
    · simp only [List.countP_append]
      omega
    · intro result adr1 h
      exact absurd h (h2 _)
  cases o with
  | returned buf =>
    dsimp only
    generalize hw6 : printf "Connecting to TCP Server (IP Address: %s, Port: %d)\n\n" _ _ = w6
    obtain ⟨mid, t6, p6, g6⟩ : ∃ mid, w6.trace = w4.trace ++ mid ∧
        List.countP (Event.is_printf PROMPT_MSG) mid = 0 ∧
        List.countP Event.is_give mid = 0 := by
      rw [← hw6]
      refine ⟨[_, _], List.append_assoc _ _ _, ?_, ?_⟩
      · simp [Event.is_printf]; decide
      · simp [Event.is_give]
    have s6 : w6.connect_to_server = false := by
      rw [← hw6]; simp [printf, emit, u4, s3]
    generalize hrc : connect_to_tcp_server P _ w6 = rc
    obtain ⟨cevs, c1, c4, c5, c2, c6⟩ : ∃ evs, rc.2.trace = w6.trace ++ evs ∧
        gives evs = 0 ∧ printed PROMPT_MSG evs = 0 ∧
        rc.2.connect_to_server = w6.connect_to_server ∧ rc.1 ≠ Outcome.blocked := by
      rw [← hrc]; exact connect_run_frame P _ w6
    obtain ⟨oc, w7⟩ := rc
    dsimp only at c1 c2 c6
    simp only [printed, gives] at c4 c5
    have t7 : w7.trace = w.trace ++ (pre ++ uevs ++ mid ++ cevs) := by
      simp [c1, t6, u1, t3]
    cases oc with
    | returned result =>
      dsimp only
      split_ifs with hres
      · refine ⟨pre ++ uevs ++ mid ++ cevs ++
          [Event.printf "Failed to connect to TCP server.\n" [], Event.xSemaphoreGive],
          ?_, by simp, ?_, ?_⟩
        · simp [xSemaphoreGive, printf, emit, t7]
        · simp only [List.countP_append]
          have : List.countP (Event.is_printf PROMPT_MSG)
            [Event.printf "Failed to connect to TCP server.\n" [], Event.xSemaphoreGive] = 0 := by
            decide
          omega
        · intro r a1 h
          simp only [Outcome.returned.injEq, Prod.mk.injEq] at h
          obtain ⟨h, _⟩ := h
          subst h
          refine ⟨fun _ => ⟨?_, ?_⟩, fun h => absurd h hres⟩
          · simp only [List.countP_append]
            have : List.countP Event.is_give
              [Event.printf "Failed to connect to TCP server.\n" [], Event.xSemaphoreGive] = 1 := by
              decide
            omega
          · simp [xSemaphoreGive, printf, emit, give_token, c2, s6]
      · refine ⟨pre ++ uevs ++ mid ++ cevs, t7, by simp, ?_, ?_⟩
        · simp only [List.countP_append]
          omega
        · intro r a1 h
          simp only [Outcome.returned.injEq, Prod.mk.injEq] at h
          obtain ⟨h, _⟩ := h
          subst h
          refine ⟨fun h => absurd h hres, fun _ => ⟨?_, ?_⟩⟩
          · simp only [List.countP_append]
            omega
          · rw [c2, s6]
    | halted =>
      exact ⟨pre ++ uevs ++ mid ++ cevs, t7, by simp,
        by simp only [List.countP_append]; omega, by simp⟩
    | blocked => exact absurd rfl c6
    | starved =>
      exact ⟨pre ++ uevs ++ mid ++ cevs, t7, by simp,
        by simp only [List.countP_append]; omega, by simp⟩
    | out_of_bounds i =>
      exact ⟨pre ++ uevs ++ mid ++ cevs, t7, by simp,
        by simp only [List.countP_append]; omega, by simp⟩
  | halted => exact stop _ (by simp) (by simp)
  | blocked => exact absurd rfl u5
  | starved => exact stop _ (by simp) (by simp)
  | out_of_bounds i => exact stop _ (by simp) (by simp)

/-- C7: an iteration of the Supervisor loop that runs `connect_to_tcp_server` gives
the ConnectionTrigger exactly once when that call returned a failure, and then the
token is present, the next iteration does not wait and prompts exactly once; it gives
the trigger not at all when the call returned success, and then the token is absent,
the next iteration waits, and it no longer waits once the Disconnect Handler has
run. -/
theorem supervisor_iteration_trigger (P : Platform) (adr adr1 : cy_socket_sockaddr_t)
    (w w1 : World) (result : cy_rslt_t)
    (h : tcp_client_task_iteration P adr w = (Outcome.returned (result, adr1), w1)) :
    (result ≠ P.CY_RSLT_SUCCESS →
      gives (appended w w1) = 1 ∧ w1.connect_to_server = true ∧
      (tcp_client_task_iteration P adr1 w1).1 ≠ Outcome.blocked ∧
      printed "Enter the IPv4 address of the TCP Server:\n"
        (appended w1 (tcp_client_task_iteration P adr1 w1).2) = 1) ∧
    (result = P.CY_RSLT_SUCCESS →
      gives (appended w w1) = 0 ∧ w1.connect_to_server = false ∧
      tcp_client_task_iteration P adr1 w1 = (Outcome.blocked, w1) ∧
      ∀ socket_handle, (tcp_client_task_iteration P adr1
        (tcp_disconnection_handler socket_handle w1).2).1 ≠ Outcome.blocked) := by
  have hs : w.connect_to_server = true := by
    cases hc : w.connect_to_server with
    | true => rfl
    | false =>
      rw [iteration_blocked P adr w hc] at h
      simp at h
  obtain ⟨evs, e1, _, _, e4⟩ := iteration_run P adr w hs
  rw [h] at e1 e4
  dsimp only at e1 e4
  obtain ⟨f1, f2⟩ := e4 result adr1 rfl
  rw [appended_eq _ _ _ e1]
  constructor
  · intro hr
    obtain ⟨g1, g2⟩ := f1 hr
    obtain ⟨evs2, n1, n2, n3, _⟩ := iteration_run P adr1 w1 g2
    rw [appended_eq _ _ _ n1]
    exact ⟨g1, g2, n2, n3⟩
  · intro hr
    obtain ⟨g1, g2⟩ := f2 hr
    refine ⟨g1, g2, iteration_blocked P adr1 w1 g2, ?_⟩
    intro socket_handle
    have hd : (tcp_disconnection_handler socket_handle w1).2.connect_to_server = true := by
      simp [tcp_disconnection_handler, xSemaphoreGive, printf, cy_socket_delete,
        cy_socket_disconnect, emit, give_token, g2]
    obtain ⟨_, _, n2, _⟩ := iteration_run P adr1 _ hd
    exact n2

/-- C7 on a server that refuses every connect call (the iteration ends with the token
given once) and on a server that accepts the first one (no give, token absent). -/
theorem supervisor_iteration_trigger_witness :
    (gives (appended (supervisorWorld 5)
        (tcp_client_task_iteration examplePlatform exampleAddress (supervisorWorld 5)).2) = 1 ∧
      (tcp_client_task_iteration examplePlatform exampleAddress (supervisorWorld 5)).2.connect_to_server
        = true) ∧
    (gives (appended (supervisorWorld 0)
        (tcp_client_task_iteration examplePlatform exampleAddress (supervisorWorld 0)).2) = 0 ∧
      (tcp_client_task_iteration examplePlatform exampleAddress (supervisorWorld 0)).2.connect_to_server
        = false) :=
  ⟨⟨((supervisor_iteration_trigger examplePlatform exampleAddress exampleAddress
        (supervisorWorld 5)
        (tcp_client_task_iteration examplePlatform exampleAddress (supervisorWorld 5)).2
        0x080c0007 (Prod.ext (by decide) rfl)).1 (by decide)).1,
     ((supervisor_iteration_trigger examplePlatform exampleAddress exampleAddress
        (supervisorWorld 5)
        (tcp_client_task_iteration examplePlatform exampleAddress (supervisorWorld 5)).2
        0x080c0007 (Prod.ext (by decide) rfl)).1 (by decide)).2.1⟩,
   ⟨((supervisor_iteration_trigger examplePlatform exampleAddress exampleAddress
        (supervisorWorld 0)
        (tcp_client_task_iteration examplePlatform exampleAddress (supervisorWorld 0)).2
        0 (Prod.ext (by decide) rfl)).2 (by decide)).1,
     ((supervisor_iteration_trigger examplePlatform exampleAddress exampleAddress
        (supervisorWorld 0)
        (tcp_client_task_iteration examplePlatform exampleAddress (supervisorWorld 0)).2
        0 (Prod.ext (by decide) rfl)).2 (by decide)).2.1⟩⟩

/-- C8: for every handle and every result of the disconnect call, the handler calls
disconnect on the handle, then deletes it, then gives the ConnectionTrigger, exactly
once each and whatever the disconnect call returned, and returns that result; the
handle is no longer undeleted, the token is present, and the next iteration of the
Supervisor does not wait and prompts once. -/
theorem disconnection_handler_rearms (P : Platform) (socket_handle : cy_socket_t)
    (adr : cy_socket_sockaddr_t) (w : World) :
    (tcp_disconnection_handler socket_handle w).1 = w.disconnect_rsp 0 ∧
    appended w (tcp_disconnection_handler socket_handle w).2 =
      [Event.cy_socket_disconnect socket_handle 0 (w.disconnect_rsp 0),
        Event.cy_socket_delete socket_handle,
        Event.printf "Disconnected from the TCP server! \n" [],
        Event.xSemaphoreGive] ∧
    undeleted_from P [socket_handle]
      (appended w (tcp_disconnection_handler socket_handle w).2) = [] ∧
    (tcp_disconnection_handler socket_handle w).2.connect_to_server = true ∧
    (tcp_client_task_iteration P adr (tcp_disconnection_handler socket_handle w).2).1
      ≠ Outcome.blocked ∧
    printed "Enter the IPv4 address of the TCP Server:\n"
      (appended (tcp_disconnection_handler socket_handle w).2
        (tcp_client_task_iteration P adr (tcp_disconnection_handler socket_handle w).2).2)
      = 1 := by
  have ht : (tcp_disconnection_handler socket_handle w).2.trace = w.trace ++
      [Event.cy_socket_disconnect socket_handle 0 (w.disconnect_rsp 0),
        Event.cy_socket_delete socket_handle,
        Event.printf "Disconnected from the TCP server! \n" [],
        Event.xSemaphoreGive] := by
    simp [tcp_disconnection_handler, xSemaphoreGive, printf, cy_socket_delete,
      cy_socket_disconnect, emit]
  have hd : (tcp_disconnection_handler socket_handle w).2.connect_to_server = true := by
    cases hc : w.connect_to_server <;>
    simp [tcp_disconnection_handler, xSemaphoreGive, printf, cy_socket_delete,
      cy_socket_disconnect, emit, give_token, hc]
  obtain ⟨evs, n1, n2, n3, _⟩ := iteration_run P adr _ hd
  rw [appended_eq _ _ _ ht, appended_eq _ _ _ n1]
  refine ⟨?_, rfl, ?_, hd, n2, n3⟩
  · simp [tcp_disconnection_handler, cy_socket_disconnect]
  · simp [undeleted_from, undeleted_step]

/-- C9: giving the ConnectionTrigger when its token is present leaves the semaphore
as it is; after two gives in a row exactly one take succeeds, the next one waits;
and so after any number of gives in a row. -/
theorem trigger_saturates (w : World) :
    (w.connect_to_server = true →
      (xSemaphoreGive w).connect_to_server = w.connect_to_server) ∧
    (∃ w1, xSemaphoreTake (xSemaphoreGive (xSemaphoreGive w)) = some w1 ∧
      xSemaphoreTake w1 = none) ∧
    (∀ n, ∃ w1, xSemaphoreTake (xSemaphoreGive^[n + 1] w) = some w1 ∧
      xSemaphoreTake w1 = none) := by
  have key : ∀ w : World, w.connect_to_server = true →
      ∃ w1, xSemaphoreTake w = some w1 ∧ xSemaphoreTake w1 = none := by
    intro w hw
    exact ⟨emit Event.xSemaphoreTake { w with connect_to_server := false },
      by simp [xSemaphoreTake, take_token, hw], by simp [xSemaphoreTake, take_token, emit]⟩
  have hg : ∀ w : World, (xSemaphoreGive w).connect_to_server = true := by
    intro w
    cases hc : w.connect_to_server <;> simp [xSemaphoreGive, give_token, emit, hc]
  refine ⟨fun h => by rw [hg, h], key _ (hg _), fun n => key _ ?_⟩
  rw [Function.iterate_succ_apply']
  exact hg _

/-- C9 on the example world with the token present. -/
theorem trigger_saturates_witness :
    (xSemaphoreGive (supervisorWorld 0)).connect_to_server
      = (supervisorWorld 0).connect_to_server :=
  (trigger_saturates (supervisorWorld 0)).1 (by decide)

/-- C10, the failing input: the option-set call of the disconnect callback fails (the
stack answers 0x80), and `create_tcp_client_socket` still sets the four keep-alive
options and returns `CY_RSLT_SUCCESS`. -/
theorem factory_hides_disconnect_option_failure :
    (create_tcp_client_socket examplePlatform disconnectOptionFailsWorld).1
      = examplePlatform.CY_RSLT_SUCCESS ∧
    (create_tcp_client_socket examplePlatform disconnectOptionFailsWorld).2.trace =
      [Event.cy_socket_create SockDomain.CY_SOCKET_DOMAIN_AF_INET
          SockType.CY_SOCKET_TYPE_STREAM SockProtocol.CY_SOCKET_IPPROTO_TCP 0 100,
        Event.cy_socket_setsockopt 100 SockLevel.CY_SOCKET_SOL_SOCKET
          SockOpt.CY_SOCKET_SO_RECEIVE_CALLBACK
          (OptVal.callback Callback.tcp_client_recv_handler) 0,
        Event.cy_socket_setsockopt 100 SockLevel.CY_SOCKET_SOL_SOCKET
          SockOpt.CY_SOCKET_SO_DISCONNECT_CALLBACK
          (OptVal.callback Callback.tcp_disconnection_handler) 0x80,
        Event.printf "Set socket option: CY_SOCKET_SO_DISCONNECT_CALLBACK failed\n" [],
        Event.cy_socket_setsockopt 100 SockLevel.CY_SOCKET_SOL_TCP
          SockOpt.CY_SOCKET_SO_TCP_KEEPALIVE_INTERVAL (OptVal.u32 1000) 0,
        Event.cy_socket_setsockopt 100 SockLevel.CY_SOCKET_SOL_TCP
          SockOpt.CY_SOCKET_SO_TCP_KEEPALIVE_COUNT (OptVal.u32 2) 0,
        Event.cy_socket_setsockopt 100 SockLevel.CY_SOCKET_SOL_TCP
          SockOpt.CY_SOCKET_SO_TCP_KEEPALIVE_IDLE_TIME (OptVal.u32 10000) 0,
        Event.cy_socket_setsockopt 100 SockLevel.CY_SOCKET_SOL_SOCKET
          SockOpt.CY_SOCKET_SO_TCP_KEEPALIVE_ENABLE (OptVal.int 1) 0] := by
  decide

/-- When the socket stack accepts every creation and option-set call, the Socket
Factory succeeds, and the stack is as accepting afterwards. -/
theorem factory_accepted (P : Platform) (w : World) (h : stack_accepts P w) :
    (create_tcp_client_socket P w).1 = P.CY_RSLT_SUCCESS ∧
    stack_accepts P (create_tcp_client_socket P w).2 := by
  obtain ⟨hc, ho⟩ := h
  simp [create_tcp_client_socket, cy_socket_create, cy_socket_setsockopt, printf, emit, hc, ho,
    stack_accepts]

/-- When the socket stack accepts every creation and option-set call, no run of
`connect_to_tcp_server` stops in `CY_ASSERT(0)`, whatever the connect calls return. -/
theorem connect_run_not_halted (P : Platform) (address : cy_socket_sockaddr_t) (w : World)
    (h : stack_accepts P w) : (connect_to_tcp_server P address w).1 ≠ Outcome.halted := by
  have key : ∀ (n : Nat) (w : World), stack_accepts P w →
      (connect_to_tcp_server_loop P address P.CY_RSLT_MODULE_SECURE_SOCKETS_TIMEOUT n w).1
        ≠ Outcome.halted := by
    intro n
    induction n with
    | zero =>
      intro w _
      simp [connect_to_tcp_server_loop]
    | succ n ih =>
      intro w hw
      obtain ⟨f1, f2⟩ := factory_accepted P w hw
      rw [connect_to_tcp_server_loop]
      dsimp only
      generalize create_tcp_client_socket P w = p at f1 f2 ⊢
      obtain ⟨r, w1⟩ := p
      dsimp only at f1 f2 ⊢
      simp only [f1, ne_eq, not_true_eq_false, if_false]
      split_ifs
      · simp
      · apply ih
        simpa [stack_accepts, cy_socket_delete, printf, emit, cy_socket_connect] using f2
  exact key _ w h

/-! ## The calls of `tcp_client_recv_handler` -/

/-- The run of the handler, whatever the command byte: the result of the send call
is returned, one receive call of one byte and one send call are made, both on the
handle of the invocation, and the bytes sent are one of the three literals. -/
theorem recv_handler_calls (P : Platform) (socket_handle : cy_socket_t) (w : World) :
    (tcp_client_recv_handler P socket_handle w).1 = w.send_rsp 0 ∧
    receives (appended w (tcp_client_recv_handler P socket_handle w).2)
      = [(socket_handle, 1)] ∧
    ∃ s, s ∈ REPLY_LITERALS ∧
      replies (appended w (tcp_client_recv_handler P socket_handle w).2)
        = [(socket_handle, bytes s, (bytes s).length)] := by
  by_cases h1 : command_byte w = '1'.toNat
  · obtain ⟨r1, _, r3⟩ := recv_handler_on P socket_handle w h1
    rw [appended_eq _ _ _ r3]
    refine ⟨r1, ?_, ACK_LED_ON, by simp [REPLY_LITERALS], ?_⟩
    · split <;> simp [receives]
    · split <;> simp [replies, ACK_LED_ON] <;> decide
  by_cases h0 : command_byte w = '0'.toNat
  · obtain ⟨r1, _, r3⟩ := recv_handler_off P socket_handle w h0
    rw [appended_eq _ _ _ r3]
    refine ⟨r1, ?_, ACK_LED_OFF, by simp [REPLY_LITERALS], ?_⟩
    · split <;> simp [receives]
    · split <;> simp [replies, ACK_LED_OFF] <;> decide
  · obtain ⟨r1, _, r3⟩ := recv_handler_other P socket_handle w h1 h0
    rw [appended_eq _ _ _ r3]
    refine ⟨r1, ?_, MSG_INVALID_CMD, by simp [REPLY_LITERALS], ?_⟩
    · split <;> simp [receives]
    · split <;> simp [replies, MSG_INVALID_CMD] <;> decide

/-- C15: for every command byte the handler sends one of the three reply literals,
the length passed to the send call is the number of characters of that literal (10,
11 and 15), and the bytes sent are exactly those characters, none of them NUL. -/
theorem reply_is_exact_literal (P : Platform) (socket_handle : cy_socket_t) (w : World) :
    (∃ s, s ∈ [ACK_LED_ON, ACK_LED_OFF, MSG_INVALID_CMD] ∧
      replies (appended w (tcp_client_recv_handler P socket_handle w).2)
        = [(socket_handle, bytes s, (bytes s).length)] ∧ 0 ∉ bytes s) ∧
    (bytes "LED ON ACK").length = 10 ∧ (bytes "LED OFF ACK").length = 11 ∧
    (bytes "Invalid command").length = 15 := by
  obtain ⟨_, _, s, hs, hr⟩ := recv_handler_calls P socket_handle w
  refine ⟨⟨s, hs, hr, ?_⟩, by decide, by decide, by decide⟩
  have : ∀ t ∈ REPLY_LITERALS, 0 ∉ bytes t := by decide
  exact this s hs

/-- C16: every invocation of the handler makes exactly one receive call, on the
handle it was invoked with, asking for `TCP_LED_CMD_LEN` = 1 byte. -/
theorem recv_handler_one_receive (P : Platform) (socket_handle : cy_socket_t) (w : World) :
    receives (appended w (tcp_client_recv_handler P socket_handle w).2)
      = [(socket_handle, TCP_LED_CMD_LEN)] ∧ TCP_LED_CMD_LEN = 1 :=
  ⟨(recv_handler_calls P socket_handle w).2.1, rfl⟩

/-- C17: every invocation of the handler makes exactly one send call, on the handle
it was invoked with, and returns the result of that send call, whatever the receive
call returned. -/
theorem recv_handler_one_send (P : Platform) (socket_handle : cy_socket_t) (w : World) :
    (replies (appended w (tcp_client_recv_handler P socket_handle w).2)).map Prod.fst
      = [socket_handle] ∧
    (tcp_client_recv_handler P socket_handle w).1 = w.send_rsp 0 ∧
    ∀ r, (tcp_client_recv_handler P socket_handle
        { w with recv_rsp := fun i => if i = 0 then (r, (w.recv_rsp 0).2) else w.recv_rsp i }).1
      = (tcp_client_recv_handler P socket_handle w).1 := by
  obtain ⟨h1, _, s, _, hr⟩ := recv_handler_calls P socket_handle w
  refine ⟨by rw [hr]; rfl, h1, fun r => ?_⟩
  rw [h1, (recv_handler_calls P socket_handle _).1]

/-- The Socket Factory in closed form: its result and its events as a function of
the answers of the stack to its creation call and to its option-set calls. -/
theorem factory_exact (P : Platform) (w : World) :
    (create_tcp_client_socket P w).1 =
      (if (w.socket_create_rsp 0).1 ≠ P.CY_RSLT_SUCCESS then (w.socket_create_rsp 0).1
       else if w.setsockopt_rsp 0 ≠ P.CY_RSLT_SUCCESS then w.setsockopt_rsp 0
       else if w.setsockopt_rsp 2 ≠ P.CY_RSLT_SUCCESS then w.setsockopt_rsp 2
       else if w.setsockopt_rsp 3 ≠ P.CY_RSLT_SUCCESS then w.setsockopt_rsp 3
       else if w.setsockopt_rsp 4 ≠ P.CY_RSLT_SUCCESS then w.setsockopt_rsp 4
       else w.setsockopt_rsp 5) ∧
    (create_tcp_client_socket P w).2.trace = w.trace ++
      (Event.cy_socket_create SockDomain.CY_SOCKET_DOMAIN_AF_INET SockType.CY_SOCKET_TYPE_STREAM
          SockProtocol.CY_SOCKET_IPPROTO_TCP (w.socket_create_rsp 0).1 (w.socket_create_rsp 0).2 ::
       if (w.socket_create_rsp 0).1 ≠ P.CY_RSLT_SUCCESS then
         [Event.printf "Failed to create socket!\n" []]
       else
       Event.cy_socket_setsockopt (w.socket_create_rsp 0).2 SockLevel.CY_SOCKET_SOL_SOCKET
         SockOpt.CY_SOCKET_SO_RECEIVE_CALLBACK (OptVal.callback Callback.tcp_client_recv_handler)
         (w.setsockopt_rsp 0) ::
       if w.setsockopt_rsp 0 ≠ P.CY_RSLT_SUCCESS then
         [Event.printf "Set socket option: CY_SOCKET_SO_RECEIVE_CALLBACK failed\n" []]
       else
       Event.cy_socket_setsockopt (w.socket_create_rsp 0).2 SockLevel.CY_SOCKET_SOL_SOCKET
         SockOpt.CY_SOCKET_SO_DISCONNECT_CALLBACK
         (OptVal.callback Callback.tcp_disconnection_handler) (w.setsockopt_rsp 1) ::
       ((if w.setsockopt_rsp 1 ≠ P.CY_RSLT_SUCCESS then
         [Event.printf "Set socket option: CY_SOCKET_SO_DISCONNECT_CALLBACK failed\n" []]
         else []) ++
       Event.cy_socket_setsockopt (w.socket_create_rsp 0).2 SockLevel.CY_SOCKET_SOL_TCP
         SockOpt.CY_SOCKET_SO_TCP_KEEPALIVE_INTERVAL (OptVal.u32 TCP_KEEP_ALIVE_INTERVAL_MS)
         (w.setsockopt_rsp 2) ::
       if w.setsockopt_rsp 2 ≠ P.CY_RSLT_SUCCESS then
         [Event.printf "Set socket option: CY_SOCKET_SO_TCP_KEEPALIVE_INTERVAL failed\n" []]
       else
       Event.cy_socket_setsockopt (w.socket_create_rsp 0).2 SockLevel.CY_SOCKET_SOL_TCP
         SockOpt.CY_SOCKET_SO_TCP_KEEPALIVE_COUNT (OptVal.u32 TCP_KEEP_ALIVE_RETRY_COUNT)
         (w.setsockopt_rsp 3) ::
       if w.setsockopt_rsp 3 ≠ P.CY_RSLT_SUCCESS then
         [Event.printf "Set socket option: CY_SOCKET_SO_TCP_KEEPALIVE_COUNT failed\n" []]
       else
       Event.cy_socket_setsockopt (w.socket_create_rsp 0).2 SockLevel.CY_SOCKET_SOL_TCP
         SockOpt.CY_SOCKET_SO_TCP_KEEPALIVE_IDLE_TIME (OptVal.u32 TCP_KEEP_ALIVE_IDLE_TIME_MS)
         (w.setsockopt_rsp 4) ::
       if w.setsockopt_rsp 4 ≠ P.CY_RSLT_SUCCESS then
         [Event.printf "Set socket option: CY_SOCKET_SO_TCP_KEEPALIVE_IDLE_TIME failed\n" []]
       else
       Event.cy_socket_setsockopt (w.socket_create_rsp 0).2 SockLevel.CY_SOCKET_SOL_SOCKET
         SockOpt.CY_SOCKET_SO_TCP_KEEPALIVE_ENABLE (OptVal.int 1) (w.setsockopt_rsp 5) ::
       if w.setsockopt_rsp 5 ≠ P.CY_RSLT_SUCCESS then
         [Event.printf "Set socket option: CY_SOCKET_SO_TCP_KEEPALIVE_ENABLE failed\n" []]
       else [])) := by
  by_cases c0 : (w.socket_create_rsp 0).1 = P.CY_RSLT_SUCCESS
  swap
  · simp [create_tcp_client_socket, cy_socket_create, cy_socket_setsockopt, printf, emit, c0]
  by_cases o0 : w.setsockopt_rsp 0 = P.CY_RSLT_SUCCESS
  swap
  · simp [create_tcp_client_socket, cy_socket_create, cy_socket_setsockopt, printf, emit, c0, o0]
  by_cases o1 : w.setsockopt_rsp 1 = P.CY_RSLT_SUCCESS
  all_goals
    by_cases o2 : w.setsockopt_rsp 2 = P.CY_RSLT_SUCCESS
    swap
    · simp [create_tcp_client_socket, cy_socket_create, cy_socket_setsockopt, printf, emit,
        c0, o0, o1, o2]
    by_cases o3 : w.setsockopt_rsp 3 = P.CY_RSLT_SUCCESS
    swap
    · simp [create_tcp_client_socket, cy_socket_create, cy_socket_setsockopt, printf, emit,
        c0, o0, o1, o2, o3]
    by_cases o4 : w.setsockopt_rsp 4 = P.CY_RSLT_SUCCESS
    swap
    · simp [create_tcp_client_socket, cy_socket_create, cy_socket_setsockopt, printf, emit,
        c0, o0, o1, o2, o3, o4]
    by_cases o5 : w.setsockopt_rsp 5 = P.CY_RSLT_SUCCESS
    swap
    · simp [create_tcp_client_socket, cy_socket_create, cy_socket_setsockopt, printf, emit,
        c0, o0, o1, o2, o3, o4, o5]
    simp [create_tcp_client_socket, cy_socket_create, cy_socket_setsockopt, printf, emit,
      c0, o0, o1, o2, o3, o4, o5]


/-- One iteration of the loop of `tcp_client_task` is: the take, the prompt, the call
of `connect_to_tcp_server`, and the give when that call returned a failure. -/
theorem iteration_parts (P : Platform) (adr : cy_socket_sockaddr_t) (w : World) :
    tcp_client_task_iteration P adr w =
      match xSemaphoreTake w with
      | none => (Outcome.blocked, w)
      | some w =>
        match tcp_client_task_prompt P adr w with
        | (Outcome.returned adr, w) =>
          match connect_to_tcp_server P adr w with
          | (Outcome.returned result, w) =>
            if result ≠ P.CY_RSLT_SUCCESS then
              (Outcome.returned (result, adr), tcp_client_task_rearm w)
            else (Outcome.returned (result, adr), w)
          | (Outcome.halted, w) => (Outcome.halted, w)
          | (Outcome.blocked, w) => (Outcome.blocked, w)
          | (Outcome.starved, w) => (Outcome.starved, w)
          | (Outcome.out_of_bounds i, w) => (Outcome.out_of_bounds i, w)
        | (Outcome.halted, w) => (Outcome.halted, w)
        | (Outcome.blocked, w) => (Outcome.blocked, w)
        | (Outcome.starved, w) => (Outcome.starved, w)
        | (Outcome.out_of_bounds i, w) => (Outcome.out_of_bounds i, w) := by
  unfold tcp_client_task_iteration tcp_client_task_prompt tcp_client_task_rearm
  cases xSemaphoreTake w with
  | none => rfl
  | some w1 =>
    dsimp only
    generalize read_uart_input P _ _ = ru
    obtain ⟨o, w2⟩ := ru
    cases o <;> rfl


/-! ## The shape of a Connect Cycle -/

/-- The events of the loop of `connect_to_tcp_server` have the shape `CycleTrace`. -/
theorem connect_loop_shape (P : Platform) (a : cy_socket_sockaddr_t) (res : cy_rslt_t) :
    ∀ (n : Nat) (w : World), ∃ evs c,
      (connect_to_tcp_server_loop P a res n w).2.trace = w.trace ++ evs ∧
      CycleTrace P a res n (connect_to_tcp_server_loop P a res n w).1 c evs ∧
      ∀ h, c = some h → (connect_to_tcp_server_loop P a res n w).2.client_handle = h := by
  intro n
  induction n with
  | zero =>
    intro w
    refine ⟨[Event.printf EXHAUSTED_MSG []], none, ?_, CycleTrace.exhausted, by simp⟩
    simp [connect_to_tcp_server_loop, printf, emit, EXHAUSTED_MSG]
  | succ n ih =>
    intro w
    obtain ⟨⟨rest, h1, h2, h3, h4, h5⟩, hs⟩ := factory_run P w
    rw [connect_to_tcp_server_loop]
    dsimp only
    generalize create_tcp_client_socket P w = p at h1 h3 h4 h5 hs ⊢
    obtain ⟨r, w1⟩ := p
    dsimp only at h1 h3 h4 h5 hs ⊢
    have hc1 : (cy_socket_connect w1.client_handle a w1).1 = w.connect_rsp 0 := by
      simp [cy_socket_connect, h4]
    by_cases hr : r = P.CY_RSLT_SUCCESS
    swap
    · simp only [hr, ne_eq, not_false_eq_true, if_true, CY_ASSERT_0]
      refine ⟨_, none, ?_, CycleTrace.halted n (w.socket_create_rsp 0).1 _ rest h2, by simp⟩
      simp [printf, emit, h1]
    have hr0 := hs hr
    rw [hr0] at h1
    simp only [hr, ne_eq, not_true_eq_false, if_false, hc1]
    by_cases hc : w.connect_rsp 0 = P.CY_RSLT_SUCCESS
    · simp only [hc, if_true]
      refine ⟨_, some (w.socket_create_rsp 0).2, ?_, CycleTrace.connected n _ rest h2, ?_⟩
      · simp [printf, emit, cy_socket_connect, h1, h3, h4, hc]
      · intro h hh
        simp only [Option.some.injEq] at hh
        simp [printf, emit, cy_socket_connect, h3, hh]
    · simp only [hc, if_false]
      generalize hw3 : cy_socket_delete _ _ = w3
      obtain ⟨evs, c, e1, e2, e3⟩ := ih w3
      refine ⟨_, c, ?_, CycleTrace.retry n (w.socket_create_rsp 0).2 rest (w.connect_rsp 0)
        _ c evs h2 hc e2, e3⟩
      rw [e1, ← hw3]
      simp [printf, emit, cy_socket_connect, cy_socket_delete, h1, h3, h4]

theorem connected_from_append (P : Platform) (conn : List cy_socket_t) (a b : List Event) :
    connected_from P conn (a ++ b) = connected_from P (connected_from P conn a) b := by
  simp [connected_from, List.foldl_append]

theorem connected_step_neutral (P : Platform) (conn : List cy_socket_t) (e : Event)
    (h1 : e.is_connect = false) (h2 : e.is_delete = false) :
    connected_step P conn e = conn := by
  cases e <;> simp_all [connected_step, Event.is_connect, Event.is_delete]

/-- Events that are neither connect nor delete calls leave the connected sockets as
they are. -/
theorem connected_from_neutral (P : Platform) (evs : List Event) :
    ∀ conn, connects evs = 0 → deletions evs = 0 → connected_from P conn evs = conn := by
  induction evs with
  | nil => intro conn _ _; rfl
  | cons e es ih =>
    intro conn h1 h2
    simp only [connects, deletions, List.countP_cons] at h1 h2 ih
    have e1 : e.is_connect = false := by
      cases hc : e.is_connect with
      | false => rfl
      | true => simp [hc] at h1
    have e2 : e.is_delete = false := by
      cases hc : e.is_delete with
      | false => rfl
      | true => simp [hc] at h2
    show connected_from P (connected_step P conn e) es = conn
    rw [connected_step_neutral P conn e e1 e2]
    simp only [e1, e2] at h1 h2
    exact ih conn (by simpa using h1) (by simpa using h2)

/-- What a Connect Cycle leaves connected: the handle of its last connect call when
it returns after a successful connect call, nothing otherwise. -/
theorem cycle_connected (P : Platform) (a : cy_socket_sockaddr_t) (res : cy_rslt_t)
    (n : Nat) (o : Outcome cy_rslt_t) (c : Option cy_socket_t) (evs : List Event)
    (h : CycleTrace P a res n o c evs) :
    connected_from P [] evs = c.toList ∧
    (c = none → o = Outcome.halted ∨ o = Outcome.returned res) ∧
    (c ≠ none → o = Outcome.returned P.CY_RSLT_SUCCESS) := by
  induction h with
  | exhausted => simp [connected_from, connected_step]
  | halted n r0 h rest hr =>
    obtain ⟨_, _, _, n4, n5, _⟩ := option_steps_neutral P h rest hr
    refine ⟨?_, by simp, by simp⟩
    show connected_from P (connected_step P [] _) _ = _
    rw [connected_from_append, connected_from_neutral P rest _ n4 n5]
    simp [connected_from, connected_step]
  | connected n h rest hr =>
    obtain ⟨_, _, _, n4, n5, _⟩ := option_steps_neutral P h rest hr
    refine ⟨?_, by simp, by simp⟩
    show connected_from P (connected_step P [] _) _ = _
    rw [connected_from_append, connected_from_neutral P rest _ n4 n5]
    simp [connected_from, connected_step]
  | retry n h rest rc o c evs hr hrc _ ih =>
    obtain ⟨_, _, _, n4, n5, _⟩ := option_steps_neutral P h rest hr
    refine ⟨?_, ih.2.1, ih.2.2⟩
    rw [connected_from_append]
    have : connected_from P [] (Event.cy_socket_create SockDomain.CY_SOCKET_DOMAIN_AF_INET
          SockType.CY_SOCKET_TYPE_STREAM SockProtocol.CY_SOCKET_IPPROTO_TCP
          P.CY_RSLT_SUCCESS h ::
          (rest ++ [Event.cy_socket_connect h a rc,
            Event.printf
              ("Could not connect to TCP server. Error code: 0x%08" ++ P.PRIx32 ++ "\n")
              [PrintfArg.u32 res],
            Event.printf
              "Trying to reconnect to TCP server... Please check if the server is listening\n"
              [],
            Event.cy_socket_delete h])) = [] := by
      show connected_from P (connected_step P [] _) _ = _
      rw [connected_from_append, connected_from_neutral P rest _ n4 n5]
      simp [connected_from, connected_step, hrc]
    rw [this]
    exact ih.1

/-- C11: whenever the Socket Factory returns success, its events are exactly: one
creation call (AF_INET, STREAM, TCP), which succeeded, and on the handle it stored
the option-set calls for the receive callback `tcp_client_recv_handler`, the
disconnect callback `tcp_disconnection_handler`, the keep-alive interval 1000, the
keep-alive count 2, the keep-alive idle time 10000 and keep-alive enable 1 (with one
message when the disconnect callback call failed). -/
theorem factory_success_configuration (P : Platform) (w : World)
    (h : (create_tcp_client_socket P w).1 = P.CY_RSLT_SUCCESS) :
    creations (appended w (create_tcp_client_socket P w).2) = 1 ∧
    appended w (create_tcp_client_socket P w).2 =
      [Event.cy_socket_create SockDomain.CY_SOCKET_DOMAIN_AF_INET SockType.CY_SOCKET_TYPE_STREAM
          SockProtocol.CY_SOCKET_IPPROTO_TCP P.CY_RSLT_SUCCESS
          (create_tcp_client_socket P w).2.client_handle,
        Event.cy_socket_setsockopt (create_tcp_client_socket P w).2.client_handle
          SockLevel.CY_SOCKET_SOL_SOCKET SockOpt.CY_SOCKET_SO_RECEIVE_CALLBACK
          (OptVal.callback Callback.tcp_client_recv_handler) P.CY_RSLT_SUCCESS,
        Event.cy_socket_setsockopt (create_tcp_client_socket P w).2.client_handle
          SockLevel.CY_SOCKET_SOL_SOCKET SockOpt.CY_SOCKET_SO_DISCONNECT_CALLBACK
          (OptVal.callback Callback.tcp_disconnection_handler) (w.setsockopt_rsp 1)] ++
      (if w.setsockopt_rsp 1 ≠ P.CY_RSLT_SUCCESS then
        [Event.printf "Set socket option: CY_SOCKET_SO_DISCONNECT_CALLBACK failed\n" []]
       else []) ++
      [Event.cy_socket_setsockopt (create_tcp_client_socket P w).2.client_handle
          SockLevel.CY_SOCKET_SOL_TCP SockOpt.CY_SOCKET_SO_TCP_KEEPALIVE_INTERVAL
          (OptVal.u32 1000) P.CY_RSLT_SUCCESS,
        Event.cy_socket_setsockopt (create_tcp_client_socket P w).2.client_handle
          SockLevel.CY_SOCKET_SOL_TCP SockOpt.CY_SOCKET_SO_TCP_KEEPALIVE_COUNT
          (OptVal.u32 2) P.CY_RSLT_SUCCESS,
        Event.cy_socket_setsockopt (create_tcp_client_socket P w).2.client_handle
          SockLevel.CY_SOCKET_SOL_TCP SockOpt.CY_SOCKET_SO_TCP_KEEPALIVE_IDLE_TIME
          (OptVal.u32 10000) P.CY_RSLT_SUCCESS,
        Event.cy_socket_setsockopt (create_tcp_client_socket P w).2.client_handle
          SockLevel.CY_SOCKET_SOL_SOCKET SockOpt.CY_SOCKET_SO_TCP_KEEPALIVE_ENABLE
          (OptVal.int 1) P.CY_RSLT_SUCCESS] := by
  obtain ⟨e1, e2⟩ := factory_exact P w
  obtain ⟨⟨_, _, _, f3, _⟩, _⟩ := factory_run P w
  rw [e1] at h
  split_ifs at h with c0 o0 o2 o3 o4
  · exact absurd h c0
  · exact absurd h o0
  · exact absurd h o2
  · exact absurd h o3
  · exact absurd h o4
  · rw [appended_eq _ _ _ e2, f3]
    simp only [ne_eq, not_not] at c0 o0 o2 o3 o4
    simp only [c0, o0, o2, o3, o4, h, ne_eq, not_true_eq_false, if_false,
      TCP_KEEP_ALIVE_INTERVAL_MS, TCP_KEEP_ALIVE_RETRY_COUNT, TCP_KEEP_ALIVE_IDLE_TIME_MS]
    split <;> simp [creations, Event.is_create]

/-- C11 on the example world, where every call succeeds. -/
theorem factory_success_configuration_witness :
    creations (appended (exampleWorld 0 true)
      (create_tcp_client_socket examplePlatform (exampleWorld 0 true)).2) = 1 ∧
    (create_tcp_client_socket examplePlatform (exampleWorld 0 true)).2.client_handle = 100 :=
  ⟨(factory_success_configuration examplePlatform (exampleWorld 0 true) (by decide)).1,
    by decide⟩

/-! ## The parts of an iteration -/

theorem uart_steps_no_socket (evs : List Event)
    (h : ∀ e ∈ evs, Event.is_uart_step e = true) :
    creations evs = 0 ∧ connects evs = 0 ∧ deletions evs = 0 := by
  simp only [creations, connects, deletions, List.countP_eq_zero]
  refine ⟨?_, ?_, ?_⟩ <;>
  · intro e he
    have := h e he
    cases e <;> simp_all [Event.is_uart_step, Event.is_create, Event.is_connect,
      Event.is_delete]

theorem uart_run_steps (P : Platform) (buf : List Nat) (w : World) :
    ∃ evs, (read_uart_input P buf w).2.trace = w.trace ++ evs ∧
      (∀ e ∈ evs, Event.is_uart_step e = true) ∧
      (read_uart_input P buf w).2.connect_to_server = w.connect_to_server := by
  obtain ⟨evs, e1, e2, e3, e4⟩ := uart_loop_run P w.uart buf 0 w
  refine ⟨evs, ?_, e2, ?_⟩
  all_goals
    unfold read_uart_input
    generalize read_uart_input_loop P w.uart buf 0 w = r at e1 e3 e4 ⊢
    obtain ⟨o, w1⟩ := r
    cases o <;> assumption

/-- What the prompt part of an iteration does: it prompts once, makes no socket call
and leaves the semaphore alone. -/
theorem prompt_run (P : Platform) (adr : cy_socket_sockaddr_t) (w : World) :
    ∃ evs, (tcp_client_task_prompt P adr w).2.trace = w.trace ++ evs ∧
      gives evs = 0 ∧ creations evs = 0 ∧ connects evs = 0 ∧ deletions evs = 0 ∧
      printed PROMPT_MSG evs = 1 ∧
      (tcp_client_task_prompt P adr w).2.connect_to_server = w.connect_to_server := by
  unfold tcp_client_task_prompt
  dsimp only
  generalize hw3 : emit Event.cyhal_syspm_lock_deepsleep _ = w3
  obtain ⟨pre, hpre⟩ : ∃ pre, pre = [Event.printf "Connect to TCP server\n" [],
      Event.printf PROMPT_MSG [], Event.cyhal_syspm_lock_deepsleep] := ⟨_, rfl⟩
  have t3 : w3.trace = w.trace ++ pre := by
    rw [← hw3, hpre]; simp [printf, emit, PROMPT_MSG]
  have s3 : w3.connect_to_server = w.connect_to_server := by
    rw [← hw3]; simp [printf, emit]
  have c0 : gives pre = 0 ∧ creations pre = 0 ∧ connects pre = 0 ∧ deletions pre = 0 ∧
      printed PROMPT_MSG pre = 1 := by
    rw [hpre]; decide
  obtain ⟨uevs, u1, u2, u3⟩ := uart_run_steps P (List.replicate UART_BUFFER_SIZE 0) w3
  obtain ⟨v1, v2, v3⟩ := uart_steps_no_socket uevs u2
  obtain ⟨v4, v5⟩ := uart_steps_neutral uevs u2
  generalize read_uart_input P (List.replicate UART_BUFFER_SIZE 0) w3 = ru at u1 u3 ⊢
  obtain ⟨o, w4⟩ := ru
  dsimp only at u1 u3
  simp only [gives, creations, connects, deletions, printed] at *
  have stop : ∃ evs, w4.trace = w.trace ++ evs ∧
      List.countP Event.is_give evs = 0 ∧ List.countP Event.is_create evs = 0 ∧
      List.countP Event.is_connect evs = 0 ∧ List.countP Event.is_delete evs = 0 ∧
      List.countP (Event.is_printf PROMPT_MSG) evs = 1 ∧
      w4.connect_to_server = w.connect_to_server := by
    refine ⟨pre ++ uevs, by rw [u1, t3, List.append_assoc], ?_, ?_, ?_, ?_, ?_, by rw [u3, s3]⟩
    all_goals simp only [List.countP_append]; omega
  cases o with
  | returned buf =>
    dsimp only
    generalize hw6 : printf "Connecting to TCP Server (IP Address: %s, Port: %d)\n\n" _ _ = w6
    obtain ⟨mid, t6, m1, m2, m3, m4, m5⟩ : ∃ mid, w6.trace = w4.trace ++ mid ∧
        List.countP Event.is_give mid = 0 ∧ List.countP Event.is_create mid = 0 ∧
        List.countP Event.is_connect mid = 0 ∧ List.countP Event.is_delete mid = 0 ∧
        List.countP (Event.is_printf PROMPT_MSG) mid = 0 := by
      rw [← hw6]
      refine ⟨[_, _], List.append_assoc _ _ _, ?_, ?_, ?_, ?_, ?_⟩
      · simp [Event.is_give]
      · simp [Event.is_create]
      · simp [Event.is_connect]
      · simp [Event.is_delete]
      · simp [Event.is_printf]; decide
    have s6 : w6.connect_to_server = w.connect_to_server := by
      rw [← hw6]; simp [printf, emit, u3, s3]
    refine ⟨pre ++ uevs ++ mid, by simp [t6, u1, t3], ?_, ?_, ?_, ?_, ?_, s6⟩
    all_goals simp only [List.countP_append]; omega
  | halted => exact stop
  | blocked => exact stop
  | starved => exact stop
  | out_of_bounds i => exact stop

/-- The take: when it succeeds the token is consumed and one event is added. -/
theorem take_run (w w1 : World) (h : xSemaphoreTake w = some w1) :
    w.connect_to_server = true ∧ w1.trace = w.trace ++ [Event.xSemaphoreTake] ∧
    w1.connect_to_server = false ∧ w1.client_handle = w.client_handle := by
  unfold xSemaphoreTake take_token at h
  cases hc : w.connect_to_server with
  | false => simp [hc] at h
  | true =>
    simp only [hc, if_true, Option.some.injEq] at h
    subst h
    simp [emit]

/-- An iteration that stops in `CY_ASSERT(0)` gave no token and leaves the token
absent. -/
theorem iteration_halted (P : Platform) (adr : cy_socket_sockaddr_t) (w : World)
    (h : (tcp_client_task_iteration P adr w).1 = Outcome.halted) :
    gives (appended w (tcp_client_task_iteration P adr w).2) = 0 ∧
    (tcp_client_task_iteration P adr w).2.connect_to_server = false := by
  rw [iteration_parts] at h ⊢
  cases ht : xSemaphoreTake w with
  | none => simp [ht] at h
  | some w1 =>
    obtain ⟨_, t1, t2, _⟩ := take_run w w1 ht
    obtain ⟨pevs, p1, p2, _, _, _, _, p7⟩ := prompt_run P adr w1
    simp only [ht] at h ⊢
    generalize tcp_client_task_prompt P adr w1 = rp at p1 p7 h ⊢
    obtain ⟨o, w2⟩ := rp
    dsimp only at p1 p7
    have g1 : gives [Event.xSemaphoreTake] = 0 := by decide
    have stop : gives (appended w w2) = 0 ∧ w2.connect_to_server = false := by
      refine ⟨?_, by rw [p7, t2]⟩
      rw [appended_eq w w2 ([Event.xSemaphoreTake] ++ pevs) (by simp [p1, t1])]
      simp only [gives, List.countP_append] at g1 p2 ⊢
      omega
    cases o with
    | returned adr1 =>
      dsimp only at h ⊢
      obtain ⟨cevs, c1, c2, _, c4, _⟩ := connect_run_frame P adr1 w2
      generalize connect_to_tcp_server P adr1 w2 = rc at c1 c4 h ⊢
      obtain ⟨oc, w3⟩ := rc
      dsimp only at c1 c4
      cases oc with
      | returned result =>
        dsimp only at h
        split_ifs at h
      | halted =>
        refine ⟨?_, by dsimp only; rw [c4, p7, t2]⟩
        dsimp only
        rw [appended_eq w w3 ([Event.xSemaphoreTake] ++ pevs ++ cevs) (by simp [c1, p1, t1])]
        simp only [gives, List.countP_append] at g1 p2 c2 ⊢
        omega
      | blocked => simp at h
      | starved => simp at h
      | out_of_bounds i => simp at h
    | halted => exact stop
    | blocked => simp at h
    | starved => simp at h
    | out_of_bounds i => simp at h

/-! ## Properties of the specification, continued -/

/-- C12, as stated, fails: when the option-set call of the receive callback fails
after a successful creation, the Socket Factory returns the error with the handle 100
undeleted, and `connect_to_tcp_server` stops in `CY_ASSERT(0)` with it undeleted. -/
theorem factory_failure_leaves_handle :
    (create_tcp_client_socket examplePlatform receiveOptionFailsWorld).1
      ≠ examplePlatform.CY_RSLT_SUCCESS ∧
    undeleted examplePlatform (appended receiveOptionFailsWorld
      (create_tcp_client_socket examplePlatform receiveOptionFailsWorld).2) = [100] ∧
    (connect_to_tcp_server examplePlatform exampleAddress receiveOptionFailsWorld).1
      = Outcome.halted ∧
    undeleted examplePlatform (appended receiveOptionFailsWorld
      (connect_to_tcp_server examplePlatform exampleAddress receiveOptionFailsWorld).2)
      = [100] := by
  decide

/-- C12, amended: when `connect_to_tcp_server` returns a failure (its retries are
exhausted) every handle created has been deleted; at no point of a run of the Connect
Cycle or of the Socket Factory do two undeleted handles exist; the Socket Factory
never deletes, so the handle of a successful creation call is still undeleted when
the factory returns, also when it returns an error. -/
theorem handles_released_on_exhaustion (P : Platform) (address : cy_socket_sockaddr_t)
    (w : World) :
    (∀ r, (connect_to_tcp_server P address w).1 = Outcome.returned r →
      r ≠ P.CY_RSLT_SUCCESS →
      undeleted P (appended w (connect_to_tcp_server P address w).2) = []) ∧
    (∀ n, (undeleted P ((appended w (connect_to_tcp_server P address w).2).take n)).length
      ≤ 1) ∧
    (∀ n, (undeleted P ((appended w (create_tcp_client_socket P w).2).take n)).length ≤ 1) ∧
    deletions (appended w (create_tcp_client_socket P w).2) = 0 ∧
    ((w.socket_create_rsp 0).1 = P.CY_RSLT_SUCCESS →
      undeleted P (appended w (create_tcp_client_socket P w).2)
        = [(create_tcp_client_socket P w).2.client_handle]) := by
  obtain ⟨evs, e1, _, e3, _, _, _, e6⟩ :=
    connect_loop_run P address P.CY_RSLT_MODULE_SECURE_SOCKETS_TIMEOUT
      MAX_TCP_SERVER_CONN_RETRIES w
  have ha : appended w (connect_to_tcp_server P address w).2 = evs :=
    appended_eq _ _ _ e1
  change (connect_to_tcp_server P address w).1 = Outcome.halted ∨ _ at e6
  obtain ⟨⟨rest, f1, f2, f3, _⟩, _⟩ := factory_run P w
  obtain ⟨n1, n2, n3, n4, n5, _⟩ := option_steps_neutral P _ rest f2
  have hl : (undeleted_step P [] (Event.cy_socket_create SockDomain.CY_SOCKET_DOMAIN_AF_INET
      SockType.CY_SOCKET_TYPE_STREAM SockProtocol.CY_SOCKET_IPPROTO_TCP
      (w.socket_create_rsp 0).1 (w.socket_create_rsp 0).2)).length ≤ 1 := by
    simp only [undeleted_step]; split <;> simp
  have hd : disciplined P [] (Event.cy_socket_create SockDomain.CY_SOCKET_DOMAIN_AF_INET
      SockType.CY_SOCKET_TYPE_STREAM SockProtocol.CY_SOCKET_IPPROTO_TCP
      (w.socket_create_rsp 0).1 (w.socket_create_rsp 0).2 :: rest) :=
    ⟨by simp, by simp [disciplined_event], n2 _ hl⟩
  rw [ha, appended_eq _ _ _ f1]
  refine ⟨?_, disciplined_take P evs e3, disciplined_take P _ hd, ?_, ?_⟩
  · intro r hr hne
    rcases e6 with e6 | ⟨_, _, _, _, k4, _⟩ | ⟨_, _, _, _, _, _, k7⟩
    · rw [e6] at hr; simp at hr
    · change (connect_to_tcp_server P address w).1 = _ at k4
      rw [k4] at hr
      exact absurd (Outcome.returned.inj hr).symm hne
    · exact k7
  · simp only [deletions, List.countP_cons] at n5 ⊢
    simp [n5, Event.is_delete]
  · intro hc
    show undeleted_from P (undeleted_step P [] _) rest = _
    rw [n1, f3]
    simp [undeleted_step, hc]

/-- C12 amended, on a server that refuses every connect call (nothing undeleted at
the return) and on the stack that fails the receive callback option (the handle 100
is undeleted when the factory returns). -/
theorem handles_released_on_exhaustion_witness :
    undeleted examplePlatform (appended (refusingWorld 5)
      (connect_to_tcp_server examplePlatform exampleAddress (refusingWorld 5)).2) = [] ∧
    undeleted examplePlatform (appended receiveOptionFailsWorld
      (create_tcp_client_socket examplePlatform receiveOptionFailsWorld).2)
      = [(create_tcp_client_socket examplePlatform receiveOptionFailsWorld).2.client_handle] :=
  ⟨(handles_released_on_exhaustion examplePlatform exampleAddress (refusingWorld 5)).1
      0x080c0007 (by decide) (by decide),
   (handles_released_on_exhaustion examplePlatform exampleAddress
      receiveOptionFailsWorld).2.2.2.2 (by decide)⟩

/-- C13: when the Socket Factory fails on an attempt of the Connect Cycle, whatever
the number of attempts left, the cycle ends there in `CY_ASSERT(0)`: after the events
of the factory come only the message and the failed assertion, so no connect call is
made and no further creation.  An iteration of the Supervisor in which
`connect_to_tcp_server` stops so stops there too, with no give and the token absent,
and the loop of `tcp_client_task` does not go on. -/
theorem factory_failure_aborts (P : Platform) (a : cy_socket_sockaddr_t) (res : cy_rslt_t) :
    (∀ (n : Nat) (w : World), (create_tcp_client_socket P w).1 ≠ P.CY_RSLT_SUCCESS →
      connect_to_tcp_server_loop P a res (n + 1) w =
        (Outcome.halted, emit Event.CY_ASSERT_0
          (printf "Socket creation failed!\n" [] (create_tcp_client_socket P w).2)) ∧
      creations (appended w (connect_to_tcp_server_loop P a res (n + 1) w).2) = 1 ∧
      connects (appended w (connect_to_tcp_server_loop P a res (n + 1) w).2) = 0 ∧
      gives (appended w (connect_to_tcp_server_loop P a res (n + 1) w).2) = 0) ∧
    (∀ (adr adr1 : cy_socket_sockaddr_t) (w w1 w2 : World),
      xSemaphoreTake w = some w1 →
      tcp_client_task_prompt P adr w1 = (Outcome.returned adr1, w2) →
      (connect_to_tcp_server P adr1 w2).1 = Outcome.halted →
      tcp_client_task_iteration P adr w
        = (Outcome.halted, (connect_to_tcp_server P adr1 w2).2)) ∧
    (∀ (adr : cy_socket_sockaddr_t) (w : World),
      (tcp_client_task_iteration P adr w).1 = Outcome.halted →
      gives (appended w (tcp_client_task_iteration P adr w).2) = 0 ∧
      (tcp_client_task_iteration P adr w).2.connect_to_server = false ∧
      ∀ k, tcp_client_task_loop P (k + 1) adr w
        = (Outcome.halted, (tcp_client_task_iteration P adr w).2)) := by
  refine ⟨?_, ?_, ?_⟩
  · intro n w hf
    obtain ⟨⟨rest, f1, f2, _⟩, _⟩ := factory_run P w
    obtain ⟨_, _, n3, n4, _, n6, _⟩ := option_steps_neutral P _ rest f2
    have hl : connect_to_tcp_server_loop P a res (n + 1) w =
        (Outcome.halted, emit Event.CY_ASSERT_0
          (printf "Socket creation failed!\n" [] (create_tcp_client_socket P w).2)) := by
      rw [connect_to_tcp_server_loop]
      dsimp only
      simp only [hf, ne_eq, not_false_eq_true, if_true, CY_ASSERT_0]
    rw [hl]
    refine ⟨rfl, ?_, ?_, ?_⟩
    all_goals
      rw [appended_eq w _ (Event.cy_socket_create SockDomain.CY_SOCKET_DOMAIN_AF_INET
        SockType.CY_SOCKET_TYPE_STREAM SockProtocol.CY_SOCKET_IPPROTO_TCP
        (w.socket_create_rsp 0).1 (w.socket_create_rsp 0).2 ::
        (rest ++ [Event.printf "Socket creation failed!\n" [], Event.CY_ASSERT_0]))
        (by simp [printf, emit, f1])]
      simp only [creations, connects, gives, List.countP_cons, List.countP_append] at n3 n4 n6 ⊢
      simp [n3, n4, n6, Event.is_create, Event.is_connect, Event.is_give]
  · intro adr adr1 w w1 w2 ht hp hc
    rw [iteration_parts]
    simp only [ht, hp]
    generalize connect_to_tcp_server P adr1 w2 = rc at hc ⊢
    obtain ⟨oc, w3⟩ := rc
    dsimp only at hc
    subst hc
    rfl
  · intro adr w h
    obtain ⟨g1, g2⟩ := iteration_halted P adr w h
    refine ⟨g1, g2, fun k => ?_⟩
    rw [tcp_client_task_loop]
    generalize tcp_client_task_iteration P adr w = ri at h ⊢
    obtain ⟨o, w1⟩ := ri
    dsimp only at h
    subst h
    rfl

/-- C13 on the stack that fails the receive callback option: the cycle stops in
`CY_ASSERT(0)` after one creation and no connect call. -/
theorem factory_failure_aborts_witness :
    (connect_to_tcp_server examplePlatform exampleAddress receiveOptionFailsWorld).1
      = Outcome.halted ∧
    connects (appended receiveOptionFailsWorld
      (connect_to_tcp_server examplePlatform exampleAddress receiveOptionFailsWorld).2) = 0 :=
  ⟨congrArg Prod.fst ((factory_failure_aborts examplePlatform exampleAddress
      examplePlatform.CY_RSLT_MODULE_SECURE_SOCKETS_TIMEOUT).1 4 receiveOptionFailsWorld
      (by decide)).1,
   ((factory_failure_aborts examplePlatform exampleAddress
      examplePlatform.CY_RSLT_MODULE_SECURE_SOCKETS_TIMEOUT).1 4 receiveOptionFailsWorld
      (by decide)).2.2.1⟩

/-! ## `connect_to_wifi_ap` -/

theorem init_steps_neutral (evs : List Event)
    (h : ∀ e ∈ evs, Event.is_init_step e = true) :
    creations evs = 0 ∧ connects evs = 0 ∧ deletions evs = 0 ∧ takes evs = 0 ∧
    printed PROMPT_MSG evs = 0 := by
  simp only [creations, connects, deletions, takes, printed, List.countP_eq_zero]
  refine ⟨?_, ?_, ?_, ?_, ?_⟩ <;>
  · intro e he
    have := h e he
    cases e <;> simp_all [Event.is_init_step, Event.is_create, Event.is_connect,
      Event.is_delete, Event.is_take, Event.is_printf]

/-- One run of the loop of `connect_to_wifi_ap` with `n` attempts left: it ends at
the first successful join, after one delay per failed join, or after `n` failed
joins and `n` delays with the result of the last join. -/
theorem wifi_loop_run (P : Platform) :
    ∀ (n : Nat) (res : cy_rslt_t) (w : World), ∃ evs,
      (connect_to_wifi_ap_loop P n res w).2.trace = w.trace ++ evs ∧
      (∀ e ∈ evs, Event.is_init_step e = true) ∧
      (connect_to_wifi_ap_loop P n res w).2.connect_to_server = w.connect_to_server ∧
      (connect_to_wifi_ap_loop P n res w).2.socket_init_rsp = w.socket_init_rsp ∧
      gives evs = 0 ∧ wcm_inits evs = 0 ∧ socket_inits evs = 0 ∧
      ((∃ k, k < n ∧ (∀ i, i < k → (w.wcm_connect_rsp i).1 ≠ P.CY_RSLT_SUCCESS) ∧
          (w.wcm_connect_rsp k).1 = P.CY_RSLT_SUCCESS ∧
          (connect_to_wifi_ap_loop P n res w).1 = P.CY_RSLT_SUCCESS ∧
          joins evs = k + 1 ∧
          delays evs = List.replicate k (P.pdMS_TO_TICKS WIFI_CONN_RETRY_INTERVAL_MSEC) ∧
          wifi_calls evs = join_then_delay (P.pdMS_TO_TICKS WIFI_CONN_RETRY_INTERVAL_MSEC)
            ((List.range k).map (fun i => (w.wcm_connect_rsp i).1))
            ++ [Sum.inl P.CY_RSLT_SUCCESS])
      ∨ ((∀ i, i < n → (w.wcm_connect_rsp i).1 ≠ P.CY_RSLT_SUCCESS) ∧
          (connect_to_wifi_ap_loop P n res w).1
            = (if n = 0 then res else (w.wcm_connect_rsp (n - 1)).1) ∧
          joins evs = n ∧
          delays evs = List.replicate n (P.pdMS_TO_TICKS WIFI_CONN_RETRY_INTERVAL_MSEC) ∧
          wifi_calls evs = join_then_delay (P.pdMS_TO_TICKS WIFI_CONN_RETRY_INTERVAL_MSEC)
            ((List.range n).map (fun i => (w.wcm_connect_rsp i).1)))) := by
  intro n
  induction n with
  | zero =>
    intro res w
    refine ⟨[Event.printf "Exceeded maximum Wi-Fi connection attempts\n" []], ?_, ?_, ?_, ?_,
      ?_, ?_, ?_, Or.inr ?_⟩
    · simp [connect_to_wifi_ap_loop, printf, emit]
    · simp [Event.is_init_step]; decide
    · simp [connect_to_wifi_ap_loop, printf, emit]
    · simp [connect_to_wifi_ap_loop, printf, emit]
    · decide
    · decide
    · decide
    · simp [connect_to_wifi_ap_loop, joins, delays, Event.is_join, wifi_calls, join_then_delay]
  | succ n ih =>
    intro res w
    rw [connect_to_wifi_ap_loop]
    simp only [cy_wcm_connect_ap]
    by_cases hc : (w.wcm_connect_rsp 0).1 = P.CY_RSLT_SUCCESS
    · simp only [hc, if_true]
      refine ⟨[Event.cy_wcm_connect_ap WIFI_SSID WIFI_PASSWORD WIFI_SECURITY_TYPE
          P.CY_RSLT_SUCCESS (w.wcm_connect_rsp 0).2,
        Event.printf "Successfully connected to Wi-Fi network '%s'.\n" [PrintfArg.str WIFI_SSID],
        Event.printf "IP Address Assigned: %s\n"
          [PrintfArg.str (P.ip4addr_ntoa (w.wcm_connect_rsp 0).2)]], ?_, ?_, ?_, ?_, ?_, ?_, ?_,
        Or.inl ⟨0, by omega, by simp, hc, trivial, ?_, ?_, ?_⟩⟩
      · simp [printf, emit]
      · simp [Event.is_init_step]; decide
      · simp [printf, emit]
      · simp [printf, emit]
      · simp [gives, Event.is_give]
      · simp [wcm_inits]
      · simp [socket_inits]
      · simp [joins, Event.is_join]
      · simp [delays]
      · simp [wifi_calls, join_then_delay]
    · simp only [hc, if_false]
      generalize hw2 : vTaskDelay _ _ = w2
      obtain ⟨B, hB⟩ : ∃ B, B = [Event.cy_wcm_connect_ap WIFI_SSID WIFI_PASSWORD
          WIFI_SECURITY_TYPE (w.wcm_connect_rsp 0).1 (w.wcm_connect_rsp 0).2,
        Event.printf
          "Connection to Wi-Fi network failed with error code %d.Retrying in %d ms...\n"
          [PrintfArg.int (to_int (w.wcm_connect_rsp 0).1),
            PrintfArg.u32 WIFI_CONN_RETRY_INTERVAL_MSEC],
        Event.vTaskDelay (P.pdMS_TO_TICKS WIFI_CONN_RETRY_INTERVAL_MSEC)] := ⟨_, rfl⟩
      have t2 : w2.trace = w.trace ++ B := by
        rw [← hw2, hB]; simp [vTaskDelay, printf, emit]
      have s2 : w2.connect_to_server = w.connect_to_server := by
        rw [← hw2]; simp [vTaskDelay, printf, emit]
      have i2 : w2.socket_init_rsp = w.socket_init_rsp := by
        rw [← hw2]; simp [vTaskDelay, printf, emit]
      have c2 : w2.wcm_connect_rsp = fun i => w.wcm_connect_rsp (i + 1) := by
        rw [← hw2]; simp [vTaskDelay, printf, emit]
      have b1 : ∀ e ∈ B, Event.is_init_step e = true := by
        rw [hB]; simp [Event.is_init_step]; decide
      have b2 : gives B = 0 ∧ wcm_inits B = 0 ∧ socket_inits B = 0 ∧ joins B = 1 := by
        rw [hB]; simp [gives, wcm_inits, socket_inits, joins, Event.is_give, Event.is_join]
      have b3 : ∀ evs, delays (B ++ evs)
          = P.pdMS_TO_TICKS WIFI_CONN_RETRY_INTERVAL_MSEC :: delays evs := by
        intro evs; rw [hB]; simp [delays]
      have b4 : ∀ evs, wifi_calls (B ++ evs) = Sum.inl (w.wcm_connect_rsp 0).1 ::
          Sum.inr (P.pdMS_TO_TICKS WIFI_CONN_RETRY_INTERVAL_MSEC) :: wifi_calls evs := by
        intro evs; rw [hB]; simp [wifi_calls]
      have b5 : ∀ k, join_then_delay (P.pdMS_TO_TICKS WIFI_CONN_RETRY_INTERVAL_MSEC)
          ((List.range (k + 1)).map (fun i => (w.wcm_connect_rsp i).1)) =
          Sum.inl (w.wcm_connect_rsp 0).1 ::
          Sum.inr (P.pdMS_TO_TICKS WIFI_CONN_RETRY_INTERVAL_MSEC) ::
          join_then_delay (P.pdMS_TO_TICKS WIFI_CONN_RETRY_INTERVAL_MSEC)
            ((List.range k).map (fun i => (w.wcm_connect_rsp (i + 1)).1)) := by
        intro k
        rw [List.range_succ_eq_map]
        simp [join_then_delay, List.map_map, Function.comp_def]
      obtain ⟨evs, e1, e2, e3, e4, e5, e6, e7, e8⟩ := ih (w.wcm_connect_rsp 0).1 w2
      refine ⟨B ++ evs, ?_, ?_, by rw [e3, s2], by rw [e4, i2], ?_, ?_, ?_, ?_⟩
      · rw [e1, t2, List.append_assoc]
      · intro e he
        rcases List.mem_append.1 he with he | he
        · exact b1 e he
        · exact e2 e he
      · simp only [gives, List.countP_append] at b2 e5 ⊢; omega
      · simp only [wcm_inits, List.countP_append] at b2 e6 ⊢; omega
      · simp only [socket_inits, List.countP_append] at b2 e7 ⊢; omega
      · rcases e8 with ⟨k, k1, k2, k3, k4, k5, k6, k7⟩ | ⟨k1, k2, k3, k4, k5⟩
        · refine Or.inl ⟨k + 1, by omega, ?_, by rwa [c2] at k3, k4, ?_, ?_, ?_⟩
          · intro i hi
            cases i with
            | zero => exact hc
            | succ i => have := k2 i (by omega); rwa [c2] at this
          · simp only [joins, List.countP_append] at b2 k5 ⊢; omega
          · rw [b3, k6, List.replicate_succ]
          · rw [b4, k7, b5, c2]; rfl
        · refine Or.inr ⟨?_, ?_, ?_, ?_, ?_⟩
          · intro i hi
            cases i with
            | zero => exact hc
            | succ i => have := k1 i (by omega); rwa [c2] at this
          · rw [k2, c2]
            cases n with
            | zero => simp
            | succ m => simp
          · simp only [joins, List.countP_append] at b2 k3 ⊢; omega
          · rw [b3, k4, List.replicate_succ]
          · rw [b4, k5, b5, c2]

/-- One run of `connect_to_wifi_ap`: the loop of `MAX_WIFI_CONN_RETRIES` attempts after
the opening message. -/
theorem wifi_run (P : Platform) (w : World) : ∃ evs,
    (connect_to_wifi_ap P w).2.trace = w.trace ++ evs ∧
    (∀ e ∈ evs, Event.is_init_step e = true) ∧
    (connect_to_wifi_ap P w).2.connect_to_server = w.connect_to_server ∧
    (connect_to_wifi_ap P w).2.socket_init_rsp = w.socket_init_rsp ∧
    gives evs = 0 ∧ wcm_inits evs = 0 ∧ socket_inits evs = 0 ∧
    ((∃ k, k < MAX_WIFI_CONN_RETRIES ∧
        (∀ i, i < k → (w.wcm_connect_rsp i).1 ≠ P.CY_RSLT_SUCCESS) ∧
        (w.wcm_connect_rsp k).1 = P.CY_RSLT_SUCCESS ∧
        (connect_to_wifi_ap P w).1 = P.CY_RSLT_SUCCESS ∧
        joins evs = k + 1 ∧
        wifi_calls evs = join_then_delay (P.pdMS_TO_TICKS WIFI_CONN_RETRY_INTERVAL_MSEC)
          ((List.range k).map (fun i => (w.wcm_connect_rsp i).1))
          ++ [Sum.inl P.CY_RSLT_SUCCESS])
    ∨ ((∀ i, i < MAX_WIFI_CONN_RETRIES → (w.wcm_connect_rsp i).1 ≠ P.CY_RSLT_SUCCESS) ∧
        (connect_to_wifi_ap P w).1 = (w.wcm_connect_rsp 9).1 ∧
        joins evs = MAX_WIFI_CONN_RETRIES ∧
        wifi_calls evs = join_then_delay (P.pdMS_TO_TICKS WIFI_CONN_RETRY_INTERVAL_MSEC)
          ((List.range MAX_WIFI_CONN_RETRIES).map (fun i => (w.wcm_connect_rsp i).1)))) := by
  obtain ⟨evs, e1, e2, e3, e4, e5, e6, e7, e8⟩ :=
    wifi_loop_run P MAX_WIFI_CONN_RETRIES w.indeterminate_result
      (printf "Connecting to Wi-Fi Network: %s\n" [PrintfArg.str WIFI_SSID] w)
  change (connect_to_wifi_ap P w).2.trace = _ at e1
  change (connect_to_wifi_ap P w).2.connect_to_server = _ at e3
  change (connect_to_wifi_ap P w).2.socket_init_rsp = _ at e4
  have hr : (printf "Connecting to Wi-Fi Network: %s\n" [PrintfArg.str WIFI_SSID]
      w).wcm_connect_rsp = w.wcm_connect_rsp := rfl
  rw [hr] at e8
  refine ⟨Event.printf "Connecting to Wi-Fi Network: %s\n" [PrintfArg.str WIFI_SSID] :: evs,
    ?_, ?_, e3, e4, ?_, ?_, ?_, ?_⟩
  · rw [e1]; simp [printf, emit]
  · intro e he
    rcases List.mem_cons.1 he with he | he
    · subst he; decide
    · exact e2 e he
  · simpa [gives, Event.is_give] using e5
  · simpa [wcm_inits] using e6
  · simpa [socket_inits] using e7
  · rcases e8 with ⟨k, k1, k2, k3, k4, k5, _, k7⟩ | ⟨k1, k2, k3, _, k5⟩
    · exact Or.inl ⟨k, k1, k2, k3, k4, by simpa [joins, Event.is_join] using k5,
        by simpa [wifi_calls] using k7⟩
    · exact Or.inr ⟨k1, k2, by simpa [joins, Event.is_join] using k3,
        by simpa [wifi_calls] using k5⟩

/-- C18: `connect_to_wifi_ap` makes at most `MAX_WIFI_CONN_RETRIES` = 10 join calls.
Either join `k + 1 ≤ 10` is the first to succeed: the function returns success, and
its joins and delays are, in order, the `k` failed joins, each followed by one delay
of `WIFI_CONN_RETRY_INTERVAL_MSEC` = 1000 ms, and the successful join, with nothing
after it.  Or the 10 joins fail: each is followed by one such delay, and the function
returns the result of the tenth join, which is not success. -/
theorem wifi_join_bounded_retries (P : Platform) (w : World) :
    joins (appended w (connect_to_wifi_ap P w).2) ≤ 10 ∧
    ((∃ k, k < 10 ∧ (∀ i, i < k → (w.wcm_connect_rsp i).1 ≠ P.CY_RSLT_SUCCESS) ∧
        (w.wcm_connect_rsp k).1 = P.CY_RSLT_SUCCESS ∧
        (connect_to_wifi_ap P w).1 = P.CY_RSLT_SUCCESS ∧
        joins (appended w (connect_to_wifi_ap P w).2) = k + 1 ∧
        wifi_calls (appended w (connect_to_wifi_ap P w).2) =
          join_then_delay (P.pdMS_TO_TICKS 1000)
            ((List.range k).map (fun i => (w.wcm_connect_rsp i).1))
          ++ [Sum.inl P.CY_RSLT_SUCCESS])
    ∨ ((∀ i, i < 10 → (w.wcm_connect_rsp i).1 ≠ P.CY_RSLT_SUCCESS) ∧
        (connect_to_wifi_ap P w).1 = (w.wcm_connect_rsp 9).1 ∧
        (connect_to_wifi_ap P w).1 ≠ P.CY_RSLT_SUCCESS ∧
        joins (appended w (connect_to_wifi_ap P w).2) = 10 ∧
        wifi_calls (appended w (connect_to_wifi_ap P w).2) =
          join_then_delay (P.pdMS_TO_TICKS 1000)
            ((List.range 10).map (fun i => (w.wcm_connect_rsp i).1)))) := by
  obtain ⟨evs, e1, _, _, _, _, _, _, e8⟩ := wifi_run P w
  rw [appended_eq _ _ _ e1]
  simp only [MAX_WIFI_CONN_RETRIES, WIFI_CONN_RETRY_INTERVAL_MSEC] at e8
  rcases e8 with ⟨k, k1, k2, k3, k4, k5, k6⟩ | ⟨k1, k2, k3, k4⟩
  · exact ⟨by omega, Or.inl ⟨k, k1, k2, k3, k4, k5, k6⟩⟩
  · refine ⟨by omega, Or.inr ⟨k1, k2, ?_, k3, k4⟩⟩
    rw [k2]
    exact k1 9 (by omega)

/-- C18 on an access point that refuses the first 3 joins, and on one that refuses
all of them: 4 joins and 3 delays of 1000 ticks, then 10 joins and 10 delays. -/
theorem wifi_join_bounded_retries_witness :
    (connect_to_wifi_ap examplePlatform (wifiWorld 3)).1 = 0 ∧
    wifi_calls (appended (wifiWorld 3) (connect_to_wifi_ap examplePlatform (wifiWorld 3)).2)
      = [Sum.inl 0x70, Sum.inr 1000, Sum.inl 0x71, Sum.inr 1000, Sum.inl 0x72, Sum.inr 1000,
          Sum.inl 0] ∧
    (connect_to_wifi_ap examplePlatform (wifiWorld 10)).1 = 0x79 ∧
    delays (appended (wifiWorld 10) (connect_to_wifi_ap examplePlatform (wifiWorld 10)).2)
      = List.replicate 10 1000 ∧
    joins (appended (wifiWorld 10) (connect_to_wifi_ap examplePlatform (wifiWorld 10)).2)
      ≤ 10 :=
  ⟨by decide, by decide, by decide, by decide,
    (wifi_join_bounded_retries examplePlatform (wifiWorld 10)).1⟩

/-! ## The start of `tcp_client_task` -/

theorem wcm_failed_ne_prompt (x : String) :
    ("Wi-Fi Connection Manager initialization failed! Error code: 0x%08" ++ x ++ "\n"
      != PROMPT_MSG) = true := by
  rw [bne_iff_ne]
  intro h
  have := congrArg String.data h
  simp [PROMPT_MSG] at this

theorem wifi_failed_ne_prompt (x : String) :
    ("\n Failed to connect to Wi-Fi AP! Error code: 0x%08" ++ x ++ "\n"
      != PROMPT_MSG) = true := by
  rw [bne_iff_ne]
  intro h
  have := congrArg String.data h
  simp [PROMPT_MSG] at this

/-- The run of `tcp_client_task` up to its loop.  Its events are start steps, with
one call of `cy_wcm_init`, at most 10 joins and at most one call of
`cy_socket_init`.  It stops in `CY_ASSERT(0)` exactly when one of the three steps
fails; otherwise it reaches the loop with the token present, given once. -/
theorem init_run (P : Platform) (w : World) : ∃ evs,
    (tcp_client_task_init P w).2.trace = w.trace ++ evs ∧
    (∀ e ∈ evs, Event.is_init_step e = true) ∧
    wcm_inits evs = 1 ∧ socket_inits evs ≤ 1 ∧ joins evs ≤ 10 ∧
    (((tcp_client_task_init P w).1 = Outcome.halted ∧
        (w.wcm_init_rsp 0 ≠ P.CY_RSLT_SUCCESS ∨
          (∀ i, i < 10 → (w.wcm_connect_rsp i).1 ≠ P.CY_RSLT_SUCCESS) ∨
          w.socket_init_rsp 0 ≠ P.CY_RSLT_SUCCESS))
    ∨ ((tcp_client_task_init P w).1 = Outcome.returned
          { version := cy_socket_ip_version_t.CY_SOCKET_IP_VER_V4, port := TCP_SERVER_PORT,
            v4 := 0 } ∧
        w.wcm_init_rsp 0 = P.CY_RSLT_SUCCESS ∧
        (∃ k, k < 10 ∧ (w.wcm_connect_rsp k).1 = P.CY_RSLT_SUCCESS) ∧
        w.socket_init_rsp 0 = P.CY_RSLT_SUCCESS ∧
        (tcp_client_task_init P w).2.connect_to_server = true ∧ gives evs = 1)) := by
  unfold tcp_client_task_init
  simp only [cy_wcm_init]
  by_cases h0 : w.wcm_init_rsp 0 = P.CY_RSLT_SUCCESS
  swap
  · simp only [h0, ne_eq, not_false_eq_true, if_true, CY_ASSERT_0]
    refine ⟨[Event.cy_wcm_init WIFI_INTERFACE_TYPE (w.wcm_init_rsp 0),
      Event.printf
        ("Wi-Fi Connection Manager initialization failed! Error code: 0x%08" ++ P.PRIx32 ++ "\n")
        [PrintfArg.u32 (w.wcm_init_rsp 0)],
      Event.CY_ASSERT_0], ?_, ?_, ?_, ?_, ?_, Or.inl ⟨trivial, Or.inl trivial⟩⟩
    · simp [printf, emit]
    · simp [Event.is_init_step, wcm_failed_ne_prompt]
    · simp [wcm_inits]
    · simp [socket_inits]
    · simp [joins, Event.is_join]
  simp only [h0, ne_eq, not_true_eq_false, if_false]
  generalize hw1 : printf "Wi-Fi Connection Manager initialized.\r\n" [] _ = w1
  obtain ⟨pre, hpre⟩ : ∃ pre, pre = [Event.cy_wcm_init WIFI_INTERFACE_TYPE P.CY_RSLT_SUCCESS,
      Event.printf "Wi-Fi Connection Manager initialized.\r\n" []] := ⟨_, rfl⟩
  have t1 : w1.trace = w.trace ++ pre := by rw [← hw1, hpre]; simp [printf, emit, h0]
  have r1 : w1.wcm_connect_rsp = w.wcm_connect_rsp := by rw [← hw1]; simp [printf, emit]
  have i1 : w1.socket_init_rsp = w.socket_init_rsp := by rw [← hw1]; simp [printf, emit]
  have p1 : ∀ e ∈ pre, Event.is_init_step e = true := by
    rw [hpre]; simp [Event.is_init_step]; decide
  have p2 : wcm_inits pre = 1 ∧ socket_inits pre = 0 ∧ joins pre = 0 ∧ gives pre = 0 := by
    rw [hpre]; simp [wcm_inits, socket_inits, joins, gives, Event.is_join, Event.is_give]
  obtain ⟨wevs, v1, v2, _, v4, v5, v6, v7, v8⟩ := wifi_run P w1
  rw [r1] at v8
  simp only [MAX_WIFI_CONN_RETRIES] at v8
  have v9 : joins wevs ≤ 10 := by
    rcases v8 with ⟨k, k1, _, _, _, k5, _⟩ | ⟨_, _, k3, _⟩ <;> omega
  generalize connect_to_wifi_ap P w1 = rw at v1 v4 v8 ⊢
  obtain ⟨r, w2⟩ := rw
  dsimp only at v1 v4 v8 ⊢
  simp only [wcm_inits, socket_inits, joins, gives] at *
  by_cases hr : r = P.CY_RSLT_SUCCESS
  swap
  · simp only [hr, not_false_eq_true, if_true, CY_ASSERT_0]
    refine ⟨pre ++ wevs ++ [Event.printf
        ("\n Failed to connect to Wi-Fi AP! Error code: 0x%08" ++ P.PRIx32 ++ "\n")
        [PrintfArg.u32 r], Event.CY_ASSERT_0], ?_, ?_, ?_, ?_, ?_,
      Or.inl ⟨trivial, Or.inr (Or.inl ?_)⟩⟩
    · simp [printf, emit, v1, t1]
    · intro e he
      simp only [List.mem_append, List.mem_cons, List.mem_singleton, List.not_mem_nil,
        or_false] at he
      rcases he with (he | he) | he | he
      · exact p1 e he
      · exact v2 e he
      · subst he
        simp only [Event.is_init_step]
        exact wifi_failed_ne_prompt _
      · subst he; rfl
    · simp [List.countP_append, List.countP_cons, p2, v6]
    · simp [List.countP_append, List.countP_cons, p2, v7]
    · simp [List.countP_append, List.countP_cons, p2, Event.is_join]; exact v9
    · rcases v8 with ⟨_, _, _, _, k4, _⟩ | ⟨k1, _⟩
      · exact absurd k4 hr
      · exact k1
  have hk : ∃ k, k < 10 ∧ (w.wcm_connect_rsp k).1 = P.CY_RSLT_SUCCESS := by
    rcases v8 with ⟨k, k1, _, k3, _⟩ | ⟨k1, k2, _⟩
    · exact ⟨k, k1, k3⟩
    · rw [hr] at k2
      exact absurd k2.symm (k1 9 (by omega))
  simp only [hr, not_true_eq_false, if_false, cy_socket_init]
  have i2 : (xSemaphoreGive (xSemaphoreCreateBinary w2)).socket_init_rsp 0
      = w.socket_init_rsp 0 := by
    simp [xSemaphoreGive, xSemaphoreCreateBinary, emit, v4, i1]
  rw [i2]
  by_cases hs : w.socket_init_rsp 0 = P.CY_RSLT_SUCCESS
  swap
  · simp only [hs, not_false_eq_true, if_true, CY_ASSERT_0]
    refine ⟨pre ++ wevs ++ [Event.xSemaphoreGive, Event.cy_socket_init (w.socket_init_rsp 0),
      Event.printf "Secure Socket initialization failed!\n" [], Event.CY_ASSERT_0],
      ?_, ?_, ?_, ?_, ?_, Or.inl ⟨trivial, Or.inr (Or.inr trivial)⟩⟩
    · simp [printf, emit, xSemaphoreGive, xSemaphoreCreateBinary, v1, t1]
    · intro e he
      simp only [List.mem_append, List.mem_cons, List.mem_singleton, List.not_mem_nil,
        or_false] at he
      rcases he with (he | he) | he | he | he | he
      · exact p1 e he
      · exact v2 e he
      all_goals subst he; rfl
    · simp [List.countP_append, List.countP_cons, p2, v6]
    · simp [List.countP_append, List.countP_cons, p2, v7]
    · simp [List.countP_append, List.countP_cons, p2, Event.is_join]; exact v9
  · simp only [hs, not_true_eq_false, if_false]
    refine ⟨pre ++ wevs ++ [Event.xSemaphoreGive, Event.cy_socket_init P.CY_RSLT_SUCCESS,
      Event.printf "Secure Socket initialized\n" []],
      ?_, ?_, ?_, ?_, ?_, Or.inr ⟨trivial, trivial, hk, trivial, ?_, ?_⟩⟩
    · simp [printf, emit, xSemaphoreGive, xSemaphoreCreateBinary, v1, t1]
    · intro e he
      simp only [List.mem_append, List.mem_cons, List.mem_singleton, List.not_mem_nil,
        or_false] at he
      rcases he with (he | he) | he | he | he
      · exact p1 e he
      · exact v2 e he
      all_goals subst he; rfl
    · simp [List.countP_append, List.countP_cons, p2, v6]
    · simp [List.countP_append, List.countP_cons, p2, v7]
    · simp [List.countP_append, List.countP_cons, p2, Event.is_join]; exact v9
    · simp [printf, emit, xSemaphoreGive, xSemaphoreCreateBinary, give_token]
    · simp [List.countP_append, List.countP_cons, p2, v5, Event.is_give]

/-- C19: when the initialisation of the Wi-Fi connection manager fails, or the 10
joins of `connect_to_wifi_ap` all fail, or the initialisation of the socket library
fails, `tcp_client_task` stops in `CY_ASSERT(0)` before its loop: whatever the number
of loop iterations allowed, the task ends halted in the world the start left.  No
step is retried (at most one `cy_wcm_init` call, the at most 10 joins of the single
`connect_to_wifi_ap` call, at most one `cy_socket_init` call), the trigger is never
taken, no address prompt is printed and no socket is created. -/
theorem init_failure_aborts (P : Platform) (w : World)
    (h : w.wcm_init_rsp 0 ≠ P.CY_RSLT_SUCCESS ∨
      (∀ i, i < 10 → (w.wcm_connect_rsp i).1 ≠ P.CY_RSLT_SUCCESS) ∨
      w.socket_init_rsp 0 ≠ P.CY_RSLT_SUCCESS) :
    (tcp_client_task_init P w).1 = Outcome.halted ∧
    (∀ iterations, tcp_client_task P iterations w
      = (Outcome.halted, (tcp_client_task_init P w).2)) ∧
    wcm_inits (appended w (tcp_client_task_init P w).2) ≤ 1 ∧
    joins (appended w (tcp_client_task_init P w).2) ≤ 10 ∧
    socket_inits (appended w (tcp_client_task_init P w).2) ≤ 1 ∧
    takes (appended w (tcp_client_task_init P w).2) = 0 ∧
    printed PROMPT_MSG (appended w (tcp_client_task_init P w).2) = 0 ∧
    creations (appended w (tcp_client_task_init P w).2) = 0 := by
  obtain ⟨evs, e1, e2, e3, e4, e5, e6⟩ := init_run P w
  obtain ⟨n1, _, _, n4, n5⟩ := init_steps_neutral evs e2
  rw [appended_eq _ _ _ e1]
  have hh : (tcp_client_task_init P w).1 = Outcome.halted := by
    rcases e6 with ⟨k1, _⟩ | ⟨_, k2, ⟨k, k3, k4⟩, k5, _⟩
    · exact k1
    · rcases h with h | h | h
      · exact absurd k2 h
      · exact absurd k4 (h k k3)
      · exact absurd k5 h
  refine ⟨hh, ?_, by omega, e5, e4, n4, n5, n1⟩
  intro iterations
  unfold tcp_client_task
  generalize tcp_client_task_init P w = p at hh
  obtain ⟨o, w1⟩ := p
  dsimp only at hh
  subst hh
  rfl

/-- C19 on an access point that refuses the 10 joins: the task halts before its
loop, after 10 joins and no call of `cy_socket_init`. -/
theorem init_failure_aborts_witness :
    (∀ i, i < 10 → ((wifiWorld 10).wcm_connect_rsp i).1 ≠ examplePlatform.CY_RSLT_SUCCESS) ∧
    ((tcp_client_task_init examplePlatform (wifiWorld 10)).1 = Outcome.halted ∧
    (∀ iterations, tcp_client_task examplePlatform iterations (wifiWorld 10)
      = (Outcome.halted, (tcp_client_task_init examplePlatform (wifiWorld 10)).2)) ∧
    wcm_inits (appended (wifiWorld 10)
      (tcp_client_task_init examplePlatform (wifiWorld 10)).2) ≤ 1 ∧
    joins (appended (wifiWorld 10)
      (tcp_client_task_init examplePlatform (wifiWorld 10)).2) ≤ 10 ∧
    socket_inits (appended (wifiWorld 10)
      (tcp_client_task_init examplePlatform (wifiWorld 10)).2) ≤ 1 ∧
    takes (appended (wifiWorld 10)
      (tcp_client_task_init examplePlatform (wifiWorld 10)).2) = 0 ∧
    printed PROMPT_MSG (appended (wifiWorld 10)
      (tcp_client_task_init examplePlatform (wifiWorld 10)).2) = 0 ∧
    creations (appended (wifiWorld 10)
      (tcp_client_task_init examplePlatform (wifiWorld 10)).2) = 0) :=
  ⟨by decide, init_failure_aborts examplePlatform (wifiWorld 10) (Or.inr (Or.inl (by decide)))⟩

/-! ## Line editing in `read_uart_input` -/

theorem take_set_succ (buf : List Nat) (ptr c : Nat) (h : ptr < buf.length) :
    (buf.set ptr c).take (ptr + 1) = buf.take ptr ++ [c] := by
  induction buf generalizing ptr with
  | nil => simp at h
  | cons b bs ih =>
    cases ptr with
    | zero => simp
    | succ k =>
      simp only [List.length_cons, Nat.add_lt_add_iff_right] at h
      simp [List.set, List.take, ih k h]

theorem take_set_of_le (buf : List Nat) (ptr k c : Nat) (h : k ≤ ptr) :
    (buf.set ptr c).take k = buf.take k := by
  induction buf generalizing ptr k with
  | nil => simp
  | cons b bs ih =>
    cases ptr with
    | zero =>
      have : k = 0 := by omega
      subst this; simp
    | succ j =>
      cases k with
      | zero => simp
      | succ i => simp [List.set, List.take, ih j i (by omega)]

theorem take_pred_eq_dropLast (buf : List Nat) (ptr : Nat) (h : ptr ≤ buf.length) :
    buf.take (ptr - 1) = (buf.take ptr).dropLast := by
  rw [List.dropLast_eq_take, List.length_take, Nat.min_eq_left h, List.take_take]
  congr 1
  omega

theorem getElem_not_terminator (l : List Nat) (h : ∀ b ∈ l, b ≠ 13 ∧ b ≠ 10) (i : Nat)
    (hi : i < l.length) : l[i] ≠ 13 ∧ l[i] ≠ 10 :=
  h _ (List.getElem_mem hi)

/-- The loop of `read_uart_input` over polls that deliver no CR and no LF, each read
with success, followed by a poll that delivers a CR or LF, on a buffer that holds no
CR and no LF and has room for every character delivered: the loop returns at the
terminator, with `ptr` at the end of the edited line. -/
theorem uart_edit_loop (P : Platform) (t : UartPoll) (rest : List UartPoll)
    (t1 : 0 < t.readable) (t2 : t.getc_result = P.CY_RSLT_SUCCESS)
    (t3 : t.getc_char = 13 ∨ t.getc_char = 10) :
    ∀ (polls : List UartPoll) (buf : List Nat) (ptr : Nat) (w : World),
    (∀ p ∈ polls, 0 < p.readable → p.getc_result = P.CY_RSLT_SUCCESS) →
    (∀ c ∈ uart_chars polls, c ≠ 13 ∧ c ≠ 10) →
    (∀ b ∈ buf, b ≠ 13 ∧ b ≠ 10) →
    ptr + (uart_chars polls).length < buf.length →
    ∃ buf1,
      (read_uart_input_loop P (polls ++ t :: rest) buf ptr w).1
        = Outcome.returned (buf1, ((uart_chars polls).foldl spec_edit_char
            (buf.take ptr)).length) ∧
      buf1.length = buf.length ∧
      (read_uart_input_loop P (polls ++ t :: rest) buf ptr w).2.uart = rest ∧
      buf1.take ((uart_chars polls).foldl spec_edit_char (buf.take ptr)).length
        = (uart_chars polls).foldl spec_edit_char (buf.take ptr) := by
  have hcr : '\r'.toNat = 13 := rfl
  have hlf : '\n'.toNat = 10 := rfl
  intro polls
  induction polls with
  | nil =>
    intro buf ptr w _ _ _ hfit
    simp only [uart_chars, List.filter_nil, List.map_nil, List.length_nil, Nat.add_zero] at hfit
    have hl : (buf.take ptr).length = ptr := by
      rw [List.length_take]; omega
    have hg : (buf.set ptr t.getc_char).getD ptr 0 = t.getc_char := by
      simp [List.getD_eq_getElem?_getD, hfit]
    refine ⟨buf.set ptr t.getc_char, ?_, by simp, ?_, ?_⟩
    · simp only [List.nil_append, read_uart_input_loop, read_uart_input_body, uart_chars,
        List.filter_nil, List.map_nil, List.foldl_nil, hl]
      rcases t3 with t3 | t3 <;> simp [t1, t2, hfit, hg, hcr, hlf, t3]
    · simp only [List.nil_append, read_uart_input_loop, read_uart_input_body]
      rcases t3 with t3 | t3 <;> simp [t1, t2, hfit, hg, hcr, hlf, t3, printf, emit]
    · simp only [uart_chars, List.filter_nil, List.map_nil, List.foldl_nil, hl]
      exact take_set_of_le buf ptr ptr _ (le_refl _)
  | cons p polls ih =>
    intro buf ptr w hs hc hb hfit
    have hs1 : ∀ q ∈ polls, 0 < q.readable → q.getc_result = P.CY_RSLT_SUCCESS :=
      fun q hq => hs q (List.mem_cons_of_mem _ hq)
    by_cases hr : 0 < p.readable
    swap
    · have hu : uart_chars (p :: polls) = uart_chars polls := by
        simp [uart_chars, List.filter_cons, hr]
      rw [hu] at hc hfit ⊢
      have hp : ptr < buf.length := by omega
      have hg := hb (buf.getD ptr 0) (by
        rw [List.getD_eq_getElem?_getD, List.getElem?_eq_getElem hp]
        simp)
      obtain ⟨buf1, e1, e2, e3, e4⟩ :=
        ih buf ptr (emit (Event.vTaskDelay RTOS_TICK_TO_WAIT) { w with uart := polls ++ t :: rest })
          hs1 hc hb hfit
      have hstep : read_uart_input_loop P ((p :: polls) ++ t :: rest) buf ptr w
          = read_uart_input_loop P (polls ++ t :: rest) buf ptr
              (emit (Event.vTaskDelay RTOS_TICK_TO_WAIT)
                { w with uart := polls ++ t :: rest }) := by
        simp only [List.cons_append, read_uart_input_loop, read_uart_input_body]
        simp [hr, hp, hcr, hlf, getElem_not_terminator buf hb ptr hp]
      rw [hstep]
      exact ⟨buf1, e1, e2, e3, e4⟩
    · have hu : uart_chars (p :: polls) = p.getc_char :: uart_chars polls := by
        simp [uart_chars, List.filter_cons, hr]
      rw [hu] at hc hfit ⊢
      have hok := hs p (List.mem_cons_self _ _) hr
      have hch := hc p.getc_char (List.mem_cons_self _ _)
      have hc1 : ∀ c ∈ uart_chars polls, c ≠ 13 ∧ c ≠ 10 :=
        fun c hc0 => hc c (List.mem_cons_of_mem _ hc0)
      simp only [List.length_cons] at hfit
      have hp : ptr < buf.length := by omega
      have hg : (buf.set ptr p.getc_char).getD ptr 0 = p.getc_char := by
        simp [List.getD_eq_getElem?_getD, hp]
      have hb1 : ∀ b ∈ buf.set ptr p.getc_char, b ≠ 13 ∧ b ≠ 10 := by
        intro b hb0
        rcases List.mem_or_eq_of_mem_set hb0 with h | h
        · exact hb b h
        · rw [h]; exact hch
      simp only [List.foldl_cons]
      by_cases hbs : p.getc_char = ASCII_BACKSPACE
      · by_cases h0 : ptr = 0
        · subst h0
          have hk : spec_edit_char (List.take 0 buf) p.getc_char
              = (buf.set 0 p.getc_char).take 0 := by
            simp [spec_edit_char, hbs]
          rw [hk]
          obtain ⟨buf1, e1, e2, e3, e4⟩ :=
            ih (buf.set 0 p.getc_char) 0
              (emit (Event.vTaskDelay RTOS_TICK_TO_WAIT)
                (emit (Event.cyhal_uart_putc p.getc_char) { w with uart := polls ++ t :: rest }))
              hs1 hc1 hb1 (by simpa using (by omega : 0 + (uart_chars polls).length < buf.length))
          have hstep : read_uart_input_loop P ((p :: polls) ++ t :: rest) buf 0 w
              = read_uart_input_loop P (polls ++ t :: rest) (buf.set 0 p.getc_char) (0)
                  (emit (Event.vTaskDelay RTOS_TICK_TO_WAIT)
                    (emit (Event.cyhal_uart_putc p.getc_char)
                      { w with uart := polls ++ t :: rest })) := by
            have hz := getElem_not_terminator _ hb1 0 (by simpa using hp)
            have hbs8 : p.getc_char = 8 := hbs
            rw [hbs8] at hz hg
            simp only [List.cons_append, read_uart_input_loop, read_uart_input_body]
            simp [hr, hok, hp, hg, hcr, hlf, hbs8, hz, ASCII_BACKSPACE]
          rw [hstep]
          exact ⟨buf1, e1, by simpa using e2, e3, e4⟩
        · have hk : spec_edit_char (List.take ptr buf) p.getc_char
              = (buf.set ptr p.getc_char).take (ptr - 1) := by
            rw [take_set_of_le _ _ _ _ (by omega), take_pred_eq_dropLast _ _ (by omega)]
            simp [spec_edit_char, hbs]
          rw [hk]
          obtain ⟨buf1, e1, e2, e3, e4⟩ :=
            ih (buf.set ptr p.getc_char) (ptr - 1)
              (emit (Event.vTaskDelay RTOS_TICK_TO_WAIT)
                (emit (Event.cyhal_uart_putc p.getc_char) { w with uart := polls ++ t :: rest }))
              hs1 hc1 hb1 (by simp only [List.length_set]; omega)
          have hstep : read_uart_input_loop P ((p :: polls) ++ t :: rest) buf ptr w
              = read_uart_input_loop P (polls ++ t :: rest) (buf.set ptr p.getc_char) (ptr - 1)
                  (emit (Event.vTaskDelay RTOS_TICK_TO_WAIT)
                    (emit (Event.cyhal_uart_putc p.getc_char)
                      { w with uart := polls ++ t :: rest })) := by
            have hz := getElem_not_terminator _ hb1 (ptr - 1)
              (by simp only [List.length_set]; omega)
            have hbs8 : p.getc_char = 8 := hbs
            rw [hbs8] at hz hg
            simp only [List.cons_append, read_uart_input_loop, read_uart_input_body]
            simp [hr, hok, hp, hg, hcr, hlf, hbs8, h0, (by omega : ptr - 1 < buf.length), hz,
              ASCII_BACKSPACE]
          rw [hstep]
          exact ⟨buf1, e1, by simpa using e2, e3, e4⟩
      · have hk : spec_edit_char (List.take ptr buf) p.getc_char
            = (buf.set ptr p.getc_char).take (ptr + 1) := by
          rw [take_set_succ _ _ _ hp]
          simp [spec_edit_char, hbs]
        rw [hk]
        obtain ⟨buf1, e1, e2, e3, e4⟩ :=
          ih (buf.set ptr p.getc_char) (ptr + 1)
            (emit (Event.vTaskDelay RTOS_TICK_TO_WAIT)
              (emit (Event.cyhal_uart_putc p.getc_char) { w with uart := polls ++ t :: rest }))
            hs1 hc1 hb1 (by simp only [List.length_set]; omega)
        have hp1 : ptr + 1 < buf.length := by omega
        have hstep : read_uart_input_loop P ((p :: polls) ++ t :: rest) buf ptr w
            = read_uart_input_loop P (polls ++ t :: rest) (buf.set ptr p.getc_char) (ptr + 1)
                (emit (Event.vTaskDelay RTOS_TICK_TO_WAIT)
                  (emit (Event.cyhal_uart_putc p.getc_char)
                    { w with uart := polls ++ t :: rest })) := by
          simp only [List.cons_append, read_uart_input_loop, read_uart_input_body]
          simp [hr, hok, hp, hg, hcr, hlf, hch, hbs, hp1,
            getElem_not_terminator buf hb (ptr + 1) hp1]
        rw [hstep]
        exact ⟨buf1, e1, by simpa using e2, e3, e4⟩

theorem edit_length_le (cs : List Nat) : ∀ kept : List Nat,
    (cs.foldl spec_edit_char kept).length ≤ kept.length + cs.length := by
  induction cs with
  | nil => intro kept; simp
  | cons c cs ih =>
    intro kept
    have h := ih (spec_edit_char kept c)
    have h1 : (spec_edit_char kept c).length ≤ kept.length + 1 := by
      unfold spec_edit_char
      split_ifs <;> simp
      omega
    simp only [List.foldl_cons, List.length_cons]
    omega

/-- C20: let the UART deliver, over the coming polls, characters that are neither CR
(13) nor LF (10), each read with success, and then a CR or LF, and let the buffer
hold `n` zero bytes, with `n` more than the number of characters before the CR or
LF.  Then `read_uart_input` returns, and the buffer holds the line of the
specification (each backspace removes the character kept last, if any, every other
character is appended), followed by a NUL in place of the CR or LF: as a C string
the buffer is that line, when the line holds no NUL character.  The polls after the
CR or LF are not consumed. -/
theorem uart_line_editing (P : Platform) (w : World) (n : Nat)
    (polls : List UartPoll) (t : UartPoll) (rest : List UartPoll)
    (hu : w.uart = polls ++ t :: rest)
    (hs : ∀ p ∈ polls, 0 < p.readable → p.getc_result = P.CY_RSLT_SUCCESS)
    (hc : ∀ c ∈ uart_chars polls, c ≠ 13 ∧ c ≠ 10)
    (t1 : 0 < t.readable) (t2 : t.getc_result = P.CY_RSLT_SUCCESS)
    (t3 : t.getc_char = 13 ∨ t.getc_char = 10)
    (hfit : (uart_chars polls).length < n) :
    ∃ stale,
      (read_uart_input P (List.replicate n 0) w).1
        = Outcome.returned (spec_edit_line (uart_chars polls) ++ 0 :: stale) ∧
      (spec_edit_line (uart_chars polls) ++ 0 :: stale).length = n ∧
      (0 ∉ spec_edit_line (uart_chars polls) →
        cstring (spec_edit_line (uart_chars polls) ++ 0 :: stale)
          = spec_edit_line (uart_chars polls)) ∧
      (read_uart_input P (List.replicate n 0) w).2.uart = rest := by
  obtain ⟨buf1, e1, e2, e3, e4⟩ := uart_edit_loop P t rest t1 t2 t3 polls
    (List.replicate n 0) 0 w hs hc
    (by intro b hb; rw [List.eq_of_mem_replicate hb]; decide)
    (by simpa using hfit)
  have hl := edit_length_le (uart_chars polls) []
  simp only [List.take_zero, List.length_replicate, List.length_nil, Nat.zero_add] at e1 e2 e4 hl
  change buf1.take (spec_edit_line (uart_chars polls)).length = spec_edit_line _ at e4
  change _ = Outcome.returned (buf1, (spec_edit_line (uart_chars polls)).length) at e1
  change (spec_edit_line (uart_chars polls)).length ≤ _ at hl
  have hL : (spec_edit_line (uart_chars polls)).length < buf1.length := by omega
  have hset : buf1.set (spec_edit_line (uart_chars polls)).length 0
      = spec_edit_line (uart_chars polls)
        ++ 0 :: buf1.drop ((spec_edit_line (uart_chars polls)).length + 1) := by
    rw [List.set_eq_take_append_cons_drop, if_pos hL, e4]
  refine ⟨buf1.drop ((spec_edit_line (uart_chars polls)).length + 1), ?_, ?_, ?_, ?_⟩
  · unfold read_uart_input
    rw [hu]
    generalize read_uart_input_loop P (polls ++ t :: rest) (List.replicate n 0) 0 w = r at e1
    obtain ⟨o, w1⟩ := r
    dsimp only at e1
    subst e1
    simp only [hset]
  · rw [← hset, List.length_set, e2]
  · intro h0
    exact takeWhile_nonzero_append _ _ (fun b hb hb0 => h0 (hb0 ▸ hb))
  · unfold read_uart_input
    rw [hu]
    generalize read_uart_input_loop P (polls ++ t :: rest) (List.replicate n 0) 0 w = r
      at e1 e3
    obtain ⟨o, w1⟩ := r
    dsimp only at e1 e3
    subst e1
    exact e3

/-- C20 on the example input: the keys `1`, `0`, `x`, backspace, `.`, four
backspaces, `7` and carriage return, with idle polls in between, leave the string
`7` in a buffer of `UART_BUFFER_SIZE` zero bytes, and the key after the carriage
return is not read. -/
theorem uart_line_editing_witness :
    spec_edit_line (uart_chars (typingWorld.uart.take 12)) = ['7'.toNat] ∧
    cstring (spec_edit_line (uart_chars (typingWorld.uart.take 12))
      ++ 0 :: List.replicate 48 0) = ['7'.toNat] ∧
    (read_uart_input examplePlatform (List.replicate UART_BUFFER_SIZE 0) typingWorld).1
      = Outcome.returned (['7'.toNat, 0, 8, 8] ++ List.replicate 46 0) ∧
    ∃ stale,
      (read_uart_input examplePlatform (List.replicate UART_BUFFER_SIZE 0) typingWorld).1
        = Outcome.returned (spec_edit_line (uart_chars (typingWorld.uart.take 12))
            ++ 0 :: stale) ∧
      (spec_edit_line (uart_chars (typingWorld.uart.take 12)) ++ 0 :: stale).length
        = UART_BUFFER_SIZE ∧
      (0 ∉ spec_edit_line (uart_chars (typingWorld.uart.take 12)) →
        cstring (spec_edit_line (uart_chars (typingWorld.uart.take 12)) ++ 0 :: stale)
          = spec_edit_line (uart_chars (typingWorld.uart.take 12))) ∧
      (read_uart_input examplePlatform (List.replicate UART_BUFFER_SIZE 0) typingWorld).2.uart
        = [key 'z'] :=
  ⟨by decide, by decide, by decide,
    uart_line_editing examplePlatform typingWorld UART_BUFFER_SIZE
      (typingWorld.uart.take 12) (key '\r') [key 'z'] (by decide) (by decide) (by decide)
      (by decide) (by decide) (by decide) (by decide)⟩

/-- The room the buffer needs is that of the characters delivered, not that of the
line kept: in a buffer of 3 bytes the keys `a`, `b`, `c`, backspace, backspace and
carriage return make the loop condition read the byte after the buffer, although
the line kept is `a`. -/
theorem uart_overrun_example :
    (read_uart_input examplePlatform (List.replicate 3 0)
      { exampleWorld 0 true with
        uart := [key 'a', key 'b', key 'c', key '\x08', key '\x08', key '\r'] }).1
      = Outcome.out_of_bounds 3 ∧
    spec_edit_line (uart_chars
      [key 'a', key 'b', key 'c', key '\x08', key '\x08']) = ['a'.toNat] := by
  decide

/-! ## The lifecycle -/

/-- What `tcp_client_recv_handler` leaves alone: the handle, the token and the
connected sockets. -/
theorem recv_handler_frame (P : Platform) (socket_handle : cy_socket_t) (w : World) :
    (tcp_client_recv_handler P socket_handle w).2.client_handle = w.client_handle ∧
    (tcp_client_recv_handler P socket_handle w).2.connect_to_server = w.connect_to_server ∧
    connected P (tcp_client_recv_handler P socket_handle w).2 = connected P w := by
  refine ⟨?_, ?_, ?_⟩
  · unfold tcp_client_recv_handler
    dsimp only [cy_socket_recv, cy_socket_send, printf, emit, cyhal_gpio_write]
    split_ifs <;> rfl
  · unfold tcp_client_recv_handler
    dsimp only [cy_socket_recv, cy_socket_send, printf, emit, cyhal_gpio_write]
    split_ifs <;> rfl
  · unfold connected
    by_cases h1 : command_byte w = '1'.toNat
    · obtain ⟨_, _, r3⟩ := recv_handler_on P socket_handle w h1
      rw [r3, connected_from_append]
      split <;> simp [connected_from, connected_step]
    by_cases h0 : command_byte w = '0'.toNat
    · obtain ⟨_, _, r3⟩ := recv_handler_off P socket_handle w h0
      rw [r3, connected_from_append]
      split <;> simp [connected_from, connected_step]
    · obtain ⟨_, _, r3⟩ := recv_handler_other P socket_handle w h1 h0
      rw [r3, connected_from_append]
      split <;> simp [connected_from, connected_step]

/-- The handler `tcp_disconnection_handler` on the connected socket: no socket is
connected afterwards, and the token is present. -/
theorem disconnection_handler_frame (P : Platform) (w : World)
    (h : connected P w = [w.client_handle]) :
    connected P (tcp_disconnection_handler w.client_handle w).2 = [] ∧
    (tcp_disconnection_handler w.client_handle w).2.connect_to_server = true := by
  unfold connected at h ⊢
  refine ⟨?_, ?_⟩
  · have ht : (tcp_disconnection_handler w.client_handle w).2.trace = w.trace ++
        [Event.cy_socket_disconnect w.client_handle 0 (w.disconnect_rsp 0),
          Event.cy_socket_delete w.client_handle,
          Event.printf "Disconnected from the TCP server! \n" [], Event.xSemaphoreGive] := by
      simp [tcp_disconnection_handler, cy_socket_disconnect, cy_socket_delete, printf,
        xSemaphoreGive, emit]
    rw [ht, connected_from_append, h]
    simp [connected_from, connected_step]
  · simp [tcp_disconnection_handler, cy_socket_disconnect, cy_socket_delete, printf,
      xSemaphoreGive, emit, give_token]

/-- The start of the task connects no socket and leaves the token present. -/
theorem init_frame (P : Platform) (w0 w : World) (adr : cy_socket_sockaddr_t)
    (h : tcp_client_task_init P w0 = (Outcome.returned adr, w)) :
    connected P w = connected P w0 ∧ w.connect_to_server = true := by
  obtain ⟨evs, e1, e2, _, _, _, e6⟩ := init_run P w0
  obtain ⟨_, n2, n3, _, _⟩ := init_steps_neutral evs e2
  rw [h] at e1 e6
  dsimp only at e1 e6
  refine ⟨?_, ?_⟩
  · unfold connected
    rw [e1, connected_from_append, connected_from_neutral P evs _ n2 n3]
  · rcases e6 with ⟨k, _⟩ | ⟨_, _, _, _, k, _⟩
    · simp at k
    · exact k

/-- The take of the token connects no socket and leaves the token absent. -/
theorem take_frame (P : Platform) (w w1 : World) (h : xSemaphoreTake w = some w1) :
    connected P w1 = connected P w ∧ w1.connect_to_server = false := by
  obtain ⟨_, t2, t3, _⟩ := take_run w w1 h
  refine ⟨?_, t3⟩
  unfold connected
  rw [t2, connected_from_append]
  simp [connected_from, connected_step]

/-- The prompt connects no socket and leaves the token as it is. -/
theorem prompt_frame (P : Platform) (a : cy_socket_sockaddr_t) (w w1 : World)
    (o : Outcome cy_socket_sockaddr_t) (h : tcp_client_task_prompt P a w = (o, w1)) :
    connected P w1 = connected P w ∧ w1.connect_to_server = w.connect_to_server := by
  obtain ⟨evs, e1, _, _, e4, e5, _, e7⟩ := prompt_run P a w
  rw [h] at e1 e7
  dsimp only at e1 e7
  refine ⟨?_, e7⟩
  unfold connected
  rw [e1, connected_from_append, connected_from_neutral P evs _ e4 e5]

/-- A run of `connect_to_tcp_server` from a world without a connected socket: the
socket of `client_handle` is connected when the run returns success, none is
otherwise, and the token is left as it is. -/
theorem connect_frame (P : Platform)
    (hT : P.CY_RSLT_MODULE_SECURE_SOCKETS_TIMEOUT ≠ P.CY_RSLT_SUCCESS)
    (a : cy_socket_sockaddr_t) (w w1 : World) (o : Outcome cy_rslt_t)
    (h : connect_to_tcp_server P a w = (o, w1)) (hc : connected P w = []) :
    (o = Outcome.returned P.CY_RSLT_SUCCESS → connected P w1 = [w1.client_handle]) ∧
    (o ≠ Outcome.returned P.CY_RSLT_SUCCESS → connected P w1 = []) ∧
    w1.connect_to_server = w.connect_to_server := by
  obtain ⟨evs, c, e1, e2, e3⟩ := connect_loop_shape P a
    P.CY_RSLT_MODULE_SECURE_SOCKETS_TIMEOUT MAX_TCP_SERVER_CONN_RETRIES w
  obtain ⟨_, _, _, _, f4, _⟩ := connect_run_frame P a w
  change (connect_to_tcp_server P a w).2.trace = _ at e1
  change CycleTrace P a _ _ (connect_to_tcp_server P a w).1 c evs at e2
  change ∀ h, c = some h → (connect_to_tcp_server P a w).2.client_handle = h at e3
  rw [h] at e1 e2 e3 f4
  dsimp only at e1 e2 e3 f4
  obtain ⟨k1, k2, k3⟩ := cycle_connected P a _ _ o c evs e2
  have hw : connected P w1 = c.toList := by
    unfold connected at hc ⊢
    rw [e1, connected_from_append, hc, k1]
  refine ⟨?_, ?_, f4⟩
  · intro ho
    cases c with
    | none =>
      rcases k2 rfl with k | k
      · rw [k] at ho; simp at ho
      · rw [k] at ho
        simp only [Outcome.returned.injEq] at ho
        exact absurd ho hT
    | some hd =>
      rw [hw, e3 hd rfl]
      rfl
  · intro ho
    cases c with
    | none => rw [hw]; rfl
    | some hd => exact absurd (k3 (by simp)) ho

/-- The end of a failed iteration connects no socket and leaves the token present. -/
theorem rearm_frame (P : Platform) (w : World) :
    connected P (tcp_client_task_rearm w) = connected P w ∧
    (tcp_client_task_rearm w).connect_to_server = true := by
  refine ⟨?_, ?_⟩
  · unfold connected
    have ht : (tcp_client_task_rearm w).trace = w.trace ++
        [Event.printf "Failed to connect to TCP server.\n" [], Event.xSemaphoreGive] := by
      simp [tcp_client_task_rearm, xSemaphoreGive, printf, emit]
    rw [ht, connected_from_append]
    simp [connected_from, connected_step]
  · simp [tcp_client_task_rearm, xSemaphoreGive, printf, emit, give_token]

/-- Every step of the lifecycle keeps `LifecycleInv`. -/
theorem step_inv (P : Platform)
    (hT : P.CY_RSLT_MODULE_SECURE_SOCKETS_TIMEOUT ≠ P.CY_RSLT_SUCCESS)
    (s t : Lifecycle) (hi : LifecycleInv P s) (hst : Step P s t) : LifecycleInv P t := by
  obtain ⟨i1, i2, i3, i4⟩ := hi
  cases hst with
  | wake w hp hw =>
    obtain ⟨f1, f2⟩ := take_frame P s.world w hw
    obtain ⟨g1, _⟩ := take_run s.world w hw
    have hidle : s.phase = Phase.IDLE := by
      rcases hp with hp | hp
      · exact hp
      · rw [i4 (Or.inr (Or.inr (Or.inl hp)))] at g1
        simp at g1
    refine ⟨fun _ => ?_, fun h => by simp at h, fun h => by simp at h, fun _ => f2⟩
    show connected P w = []
    rw [f1]
    exact i1 (by rw [hidle]; simp)
  | prompted adr w hp hw =>
    obtain ⟨f1, f2⟩ := prompt_frame P _ _ _ _ hw
    refine ⟨fun _ => ?_, fun h => by simp at h, fun h => by simp at h, fun _ => ?_⟩
    · show connected P w = []
      rw [f1]
      exact i1 (by rw [hp]; simp)
    · show w.connect_to_server = false
      rw [f2]
      exact i4 (Or.inl hp)
  | connected w hp hw =>
    obtain ⟨f1, _, f3⟩ := connect_frame P hT _ _ _ _ hw (i1 (by rw [hp]; simp))
    refine ⟨fun h => by simp at h, fun _ => f1 rfl, fun h => by simp at h, fun _ => ?_⟩
    show w.connect_to_server = false
    rw [f3]
    exact i4 (Or.inr (Or.inl hp))
  | exhausted result w hp hw hr =>
    obtain ⟨_, f2, f3⟩ := connect_frame P hT _ _ _ _ hw (i1 (by rw [hp]; simp))
    refine ⟨fun _ => f2 (by simpa using hr), fun h => by simp at h, fun h => by simp at h,
      fun _ => ?_⟩
    show w.connect_to_server = false
    rw [f3]
    exact i4 (Or.inr (Or.inl hp))
  | aborted w hp hw =>
    obtain ⟨_, f2, _⟩ := connect_frame P hT _ _ _ _ hw (i1 (by rw [hp]; simp))
    exact ⟨fun _ => f2 (by simp), fun h => by simp at h, fun h => by simp at h,
      fun h => by simp at h⟩
  | rearmed hp =>
    obtain ⟨f1, f2⟩ := rearm_frame P s.world
    refine ⟨fun _ => ?_, fun h => by simp at h, fun _ => f2, fun h => by simp at h⟩
    show connected P (tcp_client_task_rearm s.world) = []
    rw [f1]
    exact i1 (by rw [hp]; simp)
  | received hp =>
    obtain ⟨f1, f2, f3⟩ := recv_handler_frame P s.world.client_handle s.world
    refine ⟨fun h => by simp at h, fun _ => ?_, fun h => by simp at h, fun _ => ?_⟩
    · show connected P (tcp_client_recv_handler P s.world.client_handle s.world).2
        = [(tcp_client_recv_handler P s.world.client_handle s.world).2.client_handle]
      rw [f3, f1]
      exact i2 hp
    · show (tcp_client_recv_handler P s.world.client_handle s.world).2.connect_to_server
        = false
      rw [f2]
      exact i4 (Or.inr (Or.inr (Or.inl hp)))
  | disconnected hp =>
    obtain ⟨f1, f2⟩ := disconnection_handler_frame P s.world (i2 hp)
    exact ⟨fun _ => f1, fun h => by simp at h, fun _ => f2, fun h => by simp at h⟩

/-- Every reachable state of the lifecycle has `LifecycleInv`. -/
theorem reachable_inv (P : Platform)
    (hT : P.CY_RSLT_MODULE_SECURE_SOCKETS_TIMEOUT ≠ P.CY_RSLT_SUCCESS)
    (s : Lifecycle) (hs : Reachable P s) : LifecycleInv P s := by
  induction hs with
  | start w0 w adr h0 hi =>
    obtain ⟨f1, f2⟩ := init_frame P w0 w adr hi
    refine ⟨fun _ => ?_, fun h => by simp at h, fun _ => f2, fun h => by simp at h⟩
    show connected P w = []
    rw [f1]
    exact h0
  | step s t _ hst ih => exact step_inv P hT s t ih hst

/-- The example state `connectedExample` is reachable: the task starts, the
Supervisor takes the token, prompts, and connects at the first attempt. -/
theorem connectedExample_reachable : Reachable examplePlatform connectedExample :=
  Reachable.step ⟨Phase.CONNECTING, startAddress, promptedWorld⟩ connectedExample
    (Reachable.step ⟨Phase.PROMPTING, startAddress, wokenWorld⟩ _
      (Reachable.step ⟨Phase.IDLE, startAddress, startedWorld⟩ _
        (Reachable.start typingWorld startedWorld startAddress (by decide)
          (Prod.ext (by decide) rfl))
        (Step.wake _ wokenWorld (Or.inl rfl) rfl))
      (Step.prompted _ startAddress promptedWorld rfl (Prod.ext (by decide) rfl)))
    (Step.connected _ connectedWorld rfl (Prod.ext (by decide) rfl))

/-- C14: in every reachable state of the lifecycle, a connected socket exists in
`CONNECTED` only, where it is the socket of `client_handle`.  In `CONNECTED` the
token of `connect_to_server` is absent: the call of `xSemaphoreTake` leaves the
Supervisor waiting, an iteration of its loop is blocked with no event added to the
trace, and the only steps of the system are the two callbacks: a run of
`tcp_client_recv_handler`, which stays in `CONNECTED`, and the run of
`tcp_disconnection_handler`, which leads to `IDLE`.  The constant
`CY_RSLT_MODULE_SECURE_SOCKETS_TIMEOUT` is taken to differ from `CY_RSLT_SUCCESS`. -/
theorem lifecycle_socket_ownership (P : Platform)
    (hT : P.CY_RSLT_MODULE_SECURE_SOCKETS_TIMEOUT ≠ P.CY_RSLT_SUCCESS)
    (s : Lifecycle) (hs : Reachable P s) :
    (s.phase ≠ Phase.CONNECTED → connected P s.world = []) ∧
    (s.phase = Phase.CONNECTED →
      connected P s.world = [s.world.client_handle] ∧
      s.world.connect_to_server = false ∧
      xSemaphoreTake s.world = none ∧
      tcp_client_task_iteration P s.tcp_server_address s.world
        = (Outcome.blocked, s.world) ∧
      ∀ t, Step P s t →
        (t.phase = Phase.CONNECTED ∧
          t.world = (tcp_client_recv_handler P s.world.client_handle s.world).2) ∨
        (t.phase = Phase.IDLE ∧
          t.world = (tcp_disconnection_handler s.world.client_handle s.world).2)) := by
  obtain ⟨i1, i2, _, i4⟩ := reachable_inv P hT s hs
  refine ⟨i1, fun hp => ?_⟩
  have htok := i4 (Or.inr (Or.inr (Or.inl hp)))
  have htake : xSemaphoreTake s.world = none := by
    simp [xSemaphoreTake, take_token, htok]
  refine ⟨i2 hp, htok, htake, iteration_blocked P _ _ htok, ?_⟩
  intro t hst
  cases hst with
  | wake w _ hw => rw [htake] at hw; simp at hw
  | prompted adr w hq _ => rw [hp] at hq; simp at hq
  | connected w hq _ => rw [hp] at hq; simp at hq
  | exhausted result w hq _ _ => rw [hp] at hq; simp at hq
  | aborted w hq _ => rw [hp] at hq; simp at hq
  | rearmed hq => rw [hp] at hq; simp at hq
  | received _ => exact Or.inl ⟨rfl, rfl⟩
  | disconnected _ => exact Or.inr ⟨rfl, rfl⟩

/-- C14 on the example state: connected at the first attempt, the socket 100 of
`client_handle` is the connected one and the Supervisor is blocked. -/
theorem lifecycle_socket_ownership_witness :
    examplePlatform.CY_RSLT_MODULE_SECURE_SOCKETS_TIMEOUT ≠ examplePlatform.CY_RSLT_SUCCESS ∧
    Reachable examplePlatform connectedExample ∧
    connectedExample.world.client_handle = 100 ∧
    connected examplePlatform connectedExample.world = [100] ∧
    connected examplePlatform connectedExample.world
      = [connectedExample.world.client_handle] ∧
    connectedExample.world.connect_to_server = false ∧
    xSemaphoreTake connectedExample.world = none :=
  ⟨by decide, connectedExample_reachable, by decide, by decide,
    ((lifecycle_socket_ownership examplePlatform (by decide) connectedExample
      connectedExample_reachable).2 rfl).1,
    ((lifecycle_socket_ownership examplePlatform (by decide) connectedExample
      connectedExample_reachable).2 rfl).2.1,
    ((lifecycle_socket_ownership examplePlatform (by decide) connectedExample
      connectedExample_reachable).2 rfl).2.2.1⟩

/-! ## The address macros -/

theorem make_ip_sum (a b c d : Nat) (ha : a < 256) (hb : b < 256) (hc : c < 256)
    (hd : d < 256) :
    MAKE_IP_PARAMETERS a b c d = a + 2 ^ 8 * b + 2 ^ 16 * c + 2 ^ 24 * d := by
  simp only [MAKE_IP_PARAMETERS, shl32, to_uint32, Nat.shiftLeft_eq]
  rw [Nat.mod_eq_of_lt (by omega : a < 2 ^ 32), Nat.mod_eq_of_lt (by omega : b < 2 ^ 32),
    Nat.mod_eq_of_lt (by omega : c < 2 ^ 32), Nat.mod_eq_of_lt (by omega : d < 2 ^ 32),
    Nat.mod_eq_of_lt (by omega : d * 2 ^ 24 < 2 ^ 32),
    Nat.mod_eq_of_lt (by omega : c * 2 ^ 16 < 2 ^ 32),
    Nat.mod_eq_of_lt (by omega : b * 2 ^ 8 < 2 ^ 32)]
  have s1 : d * 2 ^ 24 ||| c * 2 ^ 16 = 2 ^ 24 * d + c * 2 ^ 16 := by
    rw [Nat.mul_comm d, Nat.mul_add_lt_is_or (by omega : c * 2 ^ 16 < 2 ^ 24)]
  have s2 : 2 ^ 24 * d + c * 2 ^ 16 = 2 ^ 16 * (2 ^ 8 * d + c) := by omega
  have s3 : 2 ^ 16 * (2 ^ 8 * d + c) ||| b * 2 ^ 8 = 2 ^ 16 * (2 ^ 8 * d + c) + b * 2 ^ 8 := by
    rw [Nat.mul_add_lt_is_or (by omega : b * 2 ^ 8 < 2 ^ 16)]
  have s4 : 2 ^ 16 * (2 ^ 8 * d + c) + b * 2 ^ 8 = 2 ^ 8 * (2 ^ 16 * d + 2 ^ 8 * c + b) := by
    omega
  have s5 : 2 ^ 8 * (2 ^ 16 * d + 2 ^ 8 * c + b) ||| a
      = 2 ^ 8 * (2 ^ 16 * d + 2 ^ 8 * c + b) + a := by
    rw [Nat.mul_add_lt_is_or (by omega : a < 2 ^ 8)]
  rw [s1, s2, s3, s4, s5]
  omega

/-- C28: for octets `a`, `b`, `c`, `d` the macro `MAKE_IP_PARAMETERS`, and the macro
`MAKE_IPV4_ADDRESS`, which has the same text, equal `a + 2^8 b + 2^16 c + 2^24 d`,
below `2^32`: no shift loses a bit.  Byte `i` of the result, least significant
first, is the `i`-th argument, so two packings are equal only when the octets are;
the default server address (172, 20, 10, 2) is `0x020A14AC`. -/
theorem make_ip_parameters_packs (a b c d : Nat) (ha : a < 256) (hb : b < 256)
    (hc : c < 256) (hd : d < 256) :
    MAKE_IP_PARAMETERS a b c d = a + 2 ^ 8 * b + 2 ^ 16 * c + 2 ^ 24 * d ∧
    MAKE_IPV4_ADDRESS a b c d = MAKE_IP_PARAMETERS a b c d ∧
    MAKE_IP_PARAMETERS a b c d < 2 ^ 32 ∧
    d <<< 24 < 2 ^ 32 ∧ c <<< 16 < 2 ^ 32 ∧ b <<< 8 < 2 ^ 32 ∧
    byte_of (MAKE_IP_PARAMETERS a b c d) 0 = a ∧
    byte_of (MAKE_IP_PARAMETERS a b c d) 1 = b ∧
    byte_of (MAKE_IP_PARAMETERS a b c d) 2 = c ∧
    byte_of (MAKE_IP_PARAMETERS a b c d) 3 = d ∧
    (∀ a1 b1 c1 d1, a1 < 256 → b1 < 256 → c1 < 256 → d1 < 256 →
      MAKE_IP_PARAMETERS a1 b1 c1 d1 = MAKE_IP_PARAMETERS a b c d →
      a1 = a ∧ b1 = b ∧ c1 = c ∧ d1 = d) ∧
    TCP_SERVER_IP_ADDRESS = 0x020A14AC := by
  have hs := make_ip_sum a b c d ha hb hc hd
  refine ⟨hs, rfl, by omega, by rw [Nat.shiftLeft_eq]; omega, by rw [Nat.shiftLeft_eq]; omega,
    by rw [Nat.shiftLeft_eq]; omega, ?_, ?_, ?_, ?_, ?_, by decide⟩
  · rw [hs]; simp only [byte_of]; omega
  · rw [hs]; simp only [byte_of]; omega
  · rw [hs]; simp only [byte_of]; omega
  · rw [hs]; simp only [byte_of]; omega
  · intro a1 b1 c1 d1 h1 h2 h3 h4 he
    rw [hs, make_ip_sum a1 b1 c1 d1 h1 h2 h3 h4] at he
    omega

/-- C28 on the default server address of `main.c` and on the largest octets. -/
theorem make_ip_parameters_packs_witness :
    MAKE_IP_PARAMETERS 172 20 10 2 = 172 + 2 ^ 8 * 20 + 2 ^ 16 * 10 + 2 ^ 24 * 2 ∧
    MAKE_IP_PARAMETERS 172 20 10 2 = 0x020A14AC ∧
    byte_of (MAKE_IP_PARAMETERS 172 20 10 2) 1 = 20 ∧
    MAKE_IP_PARAMETERS 255 255 255 255 = 0xFFFFFFFF ∧
    MAKE_IP_PARAMETERS 0 0 0 256 = 0 :=
  ⟨(make_ip_parameters_packs 172 20 10 2 (by decide) (by decide) (by decide) (by decide)).1,
    by decide,
    (make_ip_parameters_packs 172 20 10 2 (by decide) (by decide) (by decide)
      (by decide)).2.2.2.2.2.2.2.1,
    by decide, by decide⟩

/-! ## The reply buffer -/

theorem command_byte_full_read (w : World) (r : cy_rslt_t) (b : Nat) :
    command_byte (with_recv w (r, [b])) = b := by
  simp [command_byte, with_recv, store, TCP_LED_CMD_LEN, MAX_TCP_DATA_PACKET_LENGTH]

theorem command_byte_no_byte (w : World) (r : cy_rslt_t) :
    command_byte (with_recv w (r, [])) = w.indeterminate 0 := by
  simp [command_byte, with_recv, store, TCP_LED_CMD_LEN, MAX_TCP_DATA_PACKET_LENGTH,
    List.range_succ_eq_map]

/-- C22: let two runs of the handler differ in the answer of the receive call only
(result code and bytes delivered), and let the first byte of the message buffer
after the receive call be the same in both.  Then the runs return the same result,
leave the same GPIO levels, and make the same calls in the same order but for the
receive call itself: the same LED write, the same messages, the same reply.  Every
run has such a twin with a successful receive of 1 byte, the command byte; a receive
that delivers no byte, whatever its result, leaves the byte the buffer held before,
and the run is the one of that byte. -/
theorem recv_handler_first_byte_only (P : Platform) (socket_handle : cy_socket_t)
    (w : World) (rsp : cy_rslt_t × List Nat)
    (hb : command_byte (with_recv w rsp) = command_byte w) :
    (tcp_client_recv_handler P socket_handle (with_recv w rsp)).1
      = (tcp_client_recv_handler P socket_handle w).1 ∧
    (tcp_client_recv_handler P socket_handle (with_recv w rsp)).2.gpio
      = (tcp_client_recv_handler P socket_handle w).2.gpio ∧
    without_receives (appended (with_recv w rsp)
        (tcp_client_recv_handler P socket_handle (with_recv w rsp)).2)
      = without_receives (appended w (tcp_client_recv_handler P socket_handle w).2) ∧
    gpio_writes (appended (with_recv w rsp)
        (tcp_client_recv_handler P socket_handle (with_recv w rsp)).2)
      = gpio_writes (appended w (tcp_client_recv_handler P socket_handle w).2) ∧
    replies (appended (with_recv w rsp)
        (tcp_client_recv_handler P socket_handle (with_recv w rsp)).2)
      = replies (appended w (tcp_client_recv_handler P socket_handle w).2) ∧
    (replies (appended w (tcp_client_recv_handler P socket_handle w).2)).length = 1 ∧
    command_byte (with_recv w (P.CY_RSLT_SUCCESS, [command_byte w])) = command_byte w ∧
    (∀ r, command_byte (with_recv w (r, [])) = w.indeterminate 0) := by
  have hlen : (replies (appended w (tcp_client_recv_handler P socket_handle w).2)).length
      = 1 := by
    obtain ⟨_, _, s, _, hr⟩ := recv_handler_calls P socket_handle w
    rw [hr]; rfl
  refine ⟨?_, ?_, ?_, ?_, ?_, hlen, command_byte_full_read w _ _,
    fun r => command_byte_no_byte w r⟩
  · rw [(recv_handler_calls P socket_handle w).1, (recv_handler_calls P socket_handle _).1]
    rfl
  all_goals
    by_cases h1 : command_byte w = '1'.toNat
    · obtain ⟨_, a2, a3⟩ := recv_handler_on P socket_handle w h1
      obtain ⟨_, b2, b3⟩ := recv_handler_on P socket_handle (with_recv w rsp) (hb.trans h1)
      first
        | rw [a2, b2]; rfl
        | rw [appended_eq _ _ _ a3, appended_eq _ _ _ b3]
          simp only [with_recv]
          split <;> simp [without_receives, gpio_writes, replies]
    by_cases h0 : command_byte w = '0'.toNat
    · obtain ⟨_, a2, a3⟩ := recv_handler_off P socket_handle w h0
      obtain ⟨_, b2, b3⟩ := recv_handler_off P socket_handle (with_recv w rsp) (hb.trans h0)
      first
        | rw [a2, b2]; rfl
        | rw [appended_eq _ _ _ a3, appended_eq _ _ _ b3]
          simp only [with_recv]
          split <;> simp [without_receives, gpio_writes, replies]
    · obtain ⟨_, a2, a3⟩ := recv_handler_other P socket_handle w h1 h0
      obtain ⟨_, b2, b3⟩ := recv_handler_other P socket_handle (with_recv w rsp)
        (by rw [hb]; exact h1) (by rw [hb]; exact h0)
      first
        | rw [a2, b2]; rfl
        | rw [appended_eq _ _ _ a3, appended_eq _ _ _ b3]
          simp only [with_recv]
          split <;> simp [without_receives, gpio_writes, replies]

/-- C22 on a receive call that fails and delivers no byte while the buffer starts
with `'1'`: the LED is switched on and "LED ON ACK" is sent, as after a successful
receive of the byte `'1'`. -/
theorem recv_handler_first_byte_only_witness :
    command_byte (with_recv shortReadWorld (0, ['1'.toNat])) = command_byte shortReadWorld ∧
    gpio_writes (appended shortReadWorld
        (tcp_client_recv_handler examplePlatform 100 shortReadWorld).2) = [(13, false)] ∧
    replies (appended shortReadWorld
        (tcp_client_recv_handler examplePlatform 100 shortReadWorld).2)
      = [(100, bytes "LED ON ACK", 10)] ∧
    replies (appended (with_recv shortReadWorld (0, ['1'.toNat]))
        (tcp_client_recv_handler examplePlatform 100
          (with_recv shortReadWorld (0, ['1'.toNat]))).2)
      = replies (appended shortReadWorld
        (tcp_client_recv_handler examplePlatform 100 shortReadWorld).2) :=
  ⟨by decide, by decide, by decide,
    (recv_handler_first_byte_only examplePlatform 100 shortReadWorld (0, ['1'.toNat])
      (by decide)).2.2.2.2.1⟩

/-! ## The error paths of the Socket Factory -/

/-- C23: in `create_tcp_client_socket` a failed creation call, or a failed option-set
call of the receive callback, the keep-alive interval, the keep-alive count, the
keep-alive idle time or the keep-alive enable, is the last call of the function, and
its result is returned.  The result of the option-set call of the disconnect
callback is not returned: when it fails, the message is printed once, the keep-alive
interval is set next, and the result of the function and the options it sets are
the ones of the run in which that call had any other result. -/
theorem factory_error_paths (P : Platform) (w : World) :
    ((w.socket_create_rsp 0).1 ≠ P.CY_RSLT_SUCCESS →
      (create_tcp_client_socket P w).1 = (w.socket_create_rsp 0).1 ∧
      option_calls (appended w (create_tcp_client_socket P w).2) = []) ∧
    ((w.socket_create_rsp 0).1 = P.CY_RSLT_SUCCESS →
      (w.setsockopt_rsp 0 ≠ P.CY_RSLT_SUCCESS →
        (create_tcp_client_socket P w).1 = w.setsockopt_rsp 0 ∧
        option_calls (appended w (create_tcp_client_socket P w).2)
          = [(SockOpt.CY_SOCKET_SO_RECEIVE_CALLBACK, w.setsockopt_rsp 0)]) ∧
      (w.setsockopt_rsp 0 = P.CY_RSLT_SUCCESS →
        (w.setsockopt_rsp 2 ≠ P.CY_RSLT_SUCCESS →
          (create_tcp_client_socket P w).1 = w.setsockopt_rsp 2 ∧
          option_calls (appended w (create_tcp_client_socket P w).2)
            = [(SockOpt.CY_SOCKET_SO_RECEIVE_CALLBACK, w.setsockopt_rsp 0),
                (SockOpt.CY_SOCKET_SO_DISCONNECT_CALLBACK, w.setsockopt_rsp 1),
                (SockOpt.CY_SOCKET_SO_TCP_KEEPALIVE_INTERVAL, w.setsockopt_rsp 2)]) ∧
        (w.setsockopt_rsp 2 = P.CY_RSLT_SUCCESS →
          (w.setsockopt_rsp 3 ≠ P.CY_RSLT_SUCCESS →
            (create_tcp_client_socket P w).1 = w.setsockopt_rsp 3 ∧
            option_calls (appended w (create_tcp_client_socket P w).2)
              = [(SockOpt.CY_SOCKET_SO_RECEIVE_CALLBACK, w.setsockopt_rsp 0),
                  (SockOpt.CY_SOCKET_SO_DISCONNECT_CALLBACK, w.setsockopt_rsp 1),
                  (SockOpt.CY_SOCKET_SO_TCP_KEEPALIVE_INTERVAL, w.setsockopt_rsp 2),
                  (SockOpt.CY_SOCKET_SO_TCP_KEEPALIVE_COUNT, w.setsockopt_rsp 3)]) ∧
          (w.setsockopt_rsp 3 = P.CY_RSLT_SUCCESS →
            (w.setsockopt_rsp 4 ≠ P.CY_RSLT_SUCCESS →
              (create_tcp_client_socket P w).1 = w.setsockopt_rsp 4 ∧
              option_calls (appended w (create_tcp_client_socket P w).2)
                = [(SockOpt.CY_SOCKET_SO_RECEIVE_CALLBACK, w.setsockopt_rsp 0),
                    (SockOpt.CY_SOCKET_SO_DISCONNECT_CALLBACK, w.setsockopt_rsp 1),
                    (SockOpt.CY_SOCKET_SO_TCP_KEEPALIVE_INTERVAL, w.setsockopt_rsp 2),
                    (SockOpt.CY_SOCKET_SO_TCP_KEEPALIVE_COUNT, w.setsockopt_rsp 3),
                    (SockOpt.CY_SOCKET_SO_TCP_KEEPALIVE_IDLE_TIME, w.setsockopt_rsp 4)]) ∧
            (w.setsockopt_rsp 4 = P.CY_RSLT_SUCCESS →
              (create_tcp_client_socket P w).1 = w.setsockopt_rsp 5 ∧
              option_calls (appended w (create_tcp_client_socket P w).2)
                = [(SockOpt.CY_SOCKET_SO_RECEIVE_CALLBACK, w.setsockopt_rsp 0),
                    (SockOpt.CY_SOCKET_SO_DISCONNECT_CALLBACK, w.setsockopt_rsp 1),
                    (SockOpt.CY_SOCKET_SO_TCP_KEEPALIVE_INTERVAL, w.setsockopt_rsp 2),
                    (SockOpt.CY_SOCKET_SO_TCP_KEEPALIVE_COUNT, w.setsockopt_rsp 3),
                    (SockOpt.CY_SOCKET_SO_TCP_KEEPALIVE_IDLE_TIME, w.setsockopt_rsp 4),
                    (SockOpt.CY_SOCKET_SO_TCP_KEEPALIVE_ENABLE, w.setsockopt_rsp 5)])))) ∧
      (w.setsockopt_rsp 0 = P.CY_RSLT_SUCCESS →
        printed DISCONNECT_OPTION_MSG (appended w (create_tcp_client_socket P w).2)
          = (if w.setsockopt_rsp 1 ≠ P.CY_RSLT_SUCCESS then 1 else 0))) ∧
    (∀ r, (create_tcp_client_socket P (with_setsockopt w 1 r)).1
        = (create_tcp_client_socket P w).1 ∧
      (option_calls (appended (with_setsockopt w 1 r)
          (create_tcp_client_socket P (with_setsockopt w 1 r)).2)).map Prod.fst
        = (option_calls (appended w (create_tcp_client_socket P w).2)).map Prod.fst) := by
  obtain ⟨f1, f2⟩ := factory_exact P w
  refine ⟨?_, ?_, ?_⟩
  · intro c0
    rw [f1, appended_eq _ _ _ f2]
    simp [c0, option_calls]
  · intro c0
    rw [f1, appended_eq _ _ _ f2]
    refine ⟨?_, ?_, ?_⟩
    · intro o0
      simp [c0, o0, option_calls]
    · intro o0
      refine ⟨?_, ?_⟩
      · intro o2
        by_cases o1 : w.setsockopt_rsp 1 = P.CY_RSLT_SUCCESS <;>
          simp [c0, o0, o1, o2, option_calls]
      · intro o2
        refine ⟨?_, ?_⟩
        · intro o3
          by_cases o1 : w.setsockopt_rsp 1 = P.CY_RSLT_SUCCESS <;>
            simp [c0, o0, o1, o2, o3, option_calls]
        · intro o3
          refine ⟨?_, ?_⟩
          · intro o4
            by_cases o1 : w.setsockopt_rsp 1 = P.CY_RSLT_SUCCESS <;>
              simp [c0, o0, o1, o2, o3, o4, option_calls]
          · intro o4
            by_cases o1 : w.setsockopt_rsp 1 = P.CY_RSLT_SUCCESS <;>
              by_cases o5 : w.setsockopt_rsp 5 = P.CY_RSLT_SUCCESS <;>
              simp [c0, o0, o1, o2, o3, o4, o5, option_calls]
    · intro o0
      by_cases o1 : w.setsockopt_rsp 1 = P.CY_RSLT_SUCCESS <;>
        by_cases o2 : w.setsockopt_rsp 2 = P.CY_RSLT_SUCCESS <;>
        by_cases o3 : w.setsockopt_rsp 3 = P.CY_RSLT_SUCCESS <;>
        by_cases o4 : w.setsockopt_rsp 4 = P.CY_RSLT_SUCCESS <;>
        by_cases o5 : w.setsockopt_rsp 5 = P.CY_RSLT_SUCCESS <;>
        simp [c0, o0, o1, o2, o3, o4, o5, printed, Event.is_printf, DISCONNECT_OPTION_MSG]
  · intro r
    obtain ⟨g1, g2⟩ := factory_exact P (with_setsockopt w 1 r)
    rw [f1, g1, appended_eq _ _ _ f2, appended_eq _ _ _ g2]
    simp only [with_setsockopt]
    refine ⟨by simp, ?_⟩
    by_cases c0 : (w.socket_create_rsp 0).1 = P.CY_RSLT_SUCCESS <;>
      by_cases o0 : w.setsockopt_rsp 0 = P.CY_RSLT_SUCCESS <;>
      by_cases o1 : w.setsockopt_rsp 1 = P.CY_RSLT_SUCCESS <;>
      by_cases o1r : r = P.CY_RSLT_SUCCESS <;>
      by_cases o2 : w.setsockopt_rsp 2 = P.CY_RSLT_SUCCESS <;>
      by_cases o3 : w.setsockopt_rsp 3 = P.CY_RSLT_SUCCESS <;>
      by_cases o4 : w.setsockopt_rsp 4 = P.CY_RSLT_SUCCESS <;>
      by_cases o5 : w.setsockopt_rsp 5 = P.CY_RSLT_SUCCESS <;>
      simp [c0, o0, o1, o1r, o2, o3, o4, o5, option_calls]

/-- C23 on the stack that fails the option-set call of the receive callback (the
error 0x80 is returned after that call) and on the stack that fails the one of the
disconnect callback (the result is the one of the run in which it succeeds, after
the same six option-set calls). -/
theorem factory_error_paths_witness :
    ((create_tcp_client_socket examplePlatform receiveOptionFailsWorld).1 = 0x80 ∧
      option_calls (appended receiveOptionFailsWorld
        (create_tcp_client_socket examplePlatform receiveOptionFailsWorld).2)
        = [(SockOpt.CY_SOCKET_SO_RECEIVE_CALLBACK, 0x80)]) ∧
    ((create_tcp_client_socket examplePlatform
        (with_setsockopt disconnectOptionFailsWorld 1 0)).1
        = (create_tcp_client_socket examplePlatform disconnectOptionFailsWorld).1 ∧
      (option_calls (appended (with_setsockopt disconnectOptionFailsWorld 1 0)
          (create_tcp_client_socket examplePlatform
            (with_setsockopt disconnectOptionFailsWorld 1 0)).2)).map Prod.fst
        = (option_calls (appended disconnectOptionFailsWorld
          (create_tcp_client_socket examplePlatform disconnectOptionFailsWorld).2)).map
            Prod.fst) ∧
    (option_calls (appended disconnectOptionFailsWorld
      (create_tcp_client_socket examplePlatform disconnectOptionFailsWorld).2)).length = 6 ∧
    printed DISCONNECT_OPTION_MSG (appended disconnectOptionFailsWorld
      (create_tcp_client_socket examplePlatform disconnectOptionFailsWorld).2) = 1 :=
  ⟨((factory_error_paths examplePlatform receiveOptionFailsWorld).2.1 (by decide)).1
      (by decide),
    (factory_error_paths examplePlatform disconnectOptionFailsWorld).2.2 0,
    by decide, by decide⟩

/-! ## The calls of a Connect Cycle -/

theorem connect_calls_append (a b : List Event) :
    connect_calls (a ++ b) = connect_calls a ++ connect_calls b := by
  induction a with
  | nil => rfl
  | cons e es ih => cases e <;> simp [connect_calls, ih]

theorem diagnostics_append (P : Platform) (a b : List Event) :
    diagnostics P (a ++ b) = diagnostics P a ++ diagnostics P b := by
  induction a with
  | nil => rfl
  | cons e es ih =>
    cases e
    case printf f args =>
      show diagnostics P (Event.printf f args :: (es ++ b)) = _
      simp only [diagnostics]
      split <;> simp [ih]
    all_goals exact ih

theorem could_not_take (P : Platform) (s : String) (h : s.data.take 3 ≠ ['C', 'o', 'u']) :
    ¬ s = COULD_NOT_MSG P := by
  intro he
  apply h
  rw [he]
  simp [COULD_NOT_MSG]

/-- Events without a connect call have no connect call to list. -/
theorem connect_calls_nil (evs : List Event) (h : connects evs = 0) :
    connect_calls evs = [] := by
  induction evs with
  | nil => rfl
  | cons e es ih =>
    simp only [connects, List.countP_cons] at h
    have h1 : connects es = 0 := by simp only [connects]; omega
    cases e <;> simp_all [connect_calls, Event.is_connect]

/-- The Socket Factory makes no connect call and prints no connect diagnostic. -/
theorem factory_quiet (P : Platform) (w : World) (evs : List Event)
    (h : (create_tcp_client_socket P w).2.trace = w.trace ++ evs) :
    connect_calls evs = [] ∧ diagnostics P evs = [] := by
  obtain ⟨_, f2⟩ := factory_exact P w
  rw [f2] at h
  have he := List.append_cancel_left h
  rw [← he]
  have m1 := could_not_take P "Failed to create socket!\n" (by decide)
  have m2 := could_not_take P "Set socket option: CY_SOCKET_SO_RECEIVE_CALLBACK failed\n"
    (by decide)
  have m3 := could_not_take P "Set socket option: CY_SOCKET_SO_DISCONNECT_CALLBACK failed\n"
    (by decide)
  have m4 := could_not_take P "Set socket option: CY_SOCKET_SO_TCP_KEEPALIVE_INTERVAL failed\n"
    (by decide)
  have m5 := could_not_take P "Set socket option: CY_SOCKET_SO_TCP_KEEPALIVE_COUNT failed\n"
    (by decide)
  have m6 := could_not_take P "Set socket option: CY_SOCKET_SO_TCP_KEEPALIVE_IDLE_TIME failed\n"
    (by decide)
  have m7 := could_not_take P "Set socket option: CY_SOCKET_SO_TCP_KEEPALIVE_ENABLE failed\n"
    (by decide)
  constructor
  · simp only [connect_calls]
    split_ifs <;> simp [connect_calls, connect_calls_append]
  · simp only [diagnostics]
    split_ifs <;> simp [diagnostics, diagnostics_append, m1, m2, m3, m4, m5, m6, m7]

/-- The connect calls and the diagnostics of the loop of `connect_to_tcp_server` with
`n` attempts left: every connect call is made with the address `a`, call `i` gets
the answer `i` of the stack, and each failed one is followed by one diagnostic, whose
argument is `res`. -/
theorem connect_loop_calls (P : Platform) (a : cy_socket_sockaddr_t) (res : cy_rslt_t) :
    ∀ (n : Nat) (w : World), ∃ evs,
      (connect_to_tcp_server_loop P a res n w).2.trace = w.trace ++ evs ∧
      (connect_calls evs).length ≤ n ∧
      connect_calls evs
        = (List.range (connect_calls evs).length).map (fun i => (a, w.connect_rsp i)) ∧
      diagnostics P evs
        = List.replicate
            ((connect_calls evs).countP (fun c => decide (c.2 ≠ P.CY_RSLT_SUCCESS)))
            [PrintfArg.u32 res] := by
  have m1 := could_not_take P EXHAUSTED_MSG (by decide)
  have m2 := could_not_take P "Socket creation failed!\n" (by decide)
  have m3 := could_not_take P SEPARATOR_MSG (by decide)
  have m4 := could_not_take P "Connected to TCP server\n" (by decide)
  have m5 := could_not_take P
    "Trying to reconnect to TCP server... Please check if the server is listening\n"
    (by decide)
  intro n
  induction n with
  | zero =>
    intro w
    refine ⟨[Event.printf EXHAUSTED_MSG []], ?_, ?_, ?_, ?_⟩
    · simp [connect_to_tcp_server_loop, printf, emit, EXHAUSTED_MSG]
    · simp [connect_calls]
    · simp [connect_calls]
    · simp [connect_calls, diagnostics, m1]
  | succ n ih =>
    intro w
    obtain ⟨⟨rest, h1, _, h3, h4, _⟩, _⟩ := factory_run P w
    obtain ⟨fevs, hf⟩ : ∃ fevs, fevs = Event.cy_socket_create
        SockDomain.CY_SOCKET_DOMAIN_AF_INET SockType.CY_SOCKET_TYPE_STREAM
        SockProtocol.CY_SOCKET_IPPROTO_TCP (w.socket_create_rsp 0).1
        (w.socket_create_rsp 0).2 :: rest := ⟨_, rfl⟩
    rw [← hf] at h1
    obtain ⟨q1, q2⟩ := factory_quiet P w fevs h1
    rw [connect_to_tcp_server_loop]
    dsimp only
    generalize create_tcp_client_socket P w = p at h1 h3 h4 ⊢
    obtain ⟨r, w1⟩ := p
    dsimp only at h1 h3 h4 ⊢
    have hc1 : (cy_socket_connect w1.client_handle a w1).1 = w.connect_rsp 0 := by
      simp [cy_socket_connect, h4]
    by_cases hr : r = P.CY_RSLT_SUCCESS
    swap
    · simp only [hr, ne_eq, not_false_eq_true, if_true, CY_ASSERT_0]
      refine ⟨fevs ++ [Event.printf "Socket creation failed!\n" [], Event.CY_ASSERT_0],
        ?_, ?_, ?_, ?_⟩
      · simp [printf, emit, h1]
      · simp [connect_calls_append, q1, connect_calls]
      · simp [connect_calls_append, q1, connect_calls]
      · simp [connect_calls_append, diagnostics_append, q1, q2, connect_calls, diagnostics, m2]
    simp only [hr, ne_eq, not_true_eq_false, if_false, hc1]
    by_cases hc : w.connect_rsp 0 = P.CY_RSLT_SUCCESS
    · simp only [hc, if_true]
      refine ⟨fevs ++ [Event.cy_socket_connect w1.client_handle a P.CY_RSLT_SUCCESS,
        Event.printf SEPARATOR_MSG [], Event.printf "Connected to TCP server\n" []],
        ?_, ?_, ?_, ?_⟩
      · simp [printf, emit, cy_socket_connect, h1, h4, hc]
      · simp [connect_calls_append, q1, connect_calls]
      · simp [connect_calls_append, q1, connect_calls, hc, List.range_succ]
      · simp [connect_calls_append, diagnostics_append, q1, q2, connect_calls, diagnostics,
          m3, m4]
    · simp only [hc, if_false]
      generalize hw3 : cy_socket_delete _ _ = w3
      obtain ⟨evs, e1, e2, e3, e4⟩ := ih w3
      have hrsp : ∀ i, w3.connect_rsp i = w.connect_rsp (i + 1) := by
        intro i
        rw [← hw3]
        simp [printf, emit, cy_socket_connect, cy_socket_delete, h4]
      simp only [hrsp] at e3
      obtain ⟨mid, hmid⟩ : ∃ mid, mid = [Event.cy_socket_connect w1.client_handle a
          (w.connect_rsp 0), Event.printf (COULD_NOT_MSG P) [PrintfArg.u32 res],
          Event.printf
            "Trying to reconnect to TCP server... Please check if the server is listening\n"
            [], Event.cy_socket_delete w1.client_handle] := ⟨_, rfl⟩
      have c1 : connect_calls mid = [(a, w.connect_rsp 0)] := by
        rw [hmid]; simp [connect_calls]
      have c2 : diagnostics P mid = [[PrintfArg.u32 res]] := by
        rw [hmid]; simp [diagnostics, m5]
      refine ⟨fevs ++ mid ++ evs, ?_, ?_, ?_, ?_⟩
      · rw [e1, ← hw3, hmid]
        simp [printf, emit, cy_socket_connect, cy_socket_delete, h1, h4, COULD_NOT_MSG]
      · simp only [connect_calls_append, q1, c1, List.nil_append, List.length_append,
          List.length_singleton]
        omega
      · simp only [connect_calls_append, q1, c1, List.nil_append, List.singleton_append,
          List.length_cons, List.range_succ_eq_map, List.map_cons, List.map_map]
        congr 1
      · simp only [connect_calls_append, diagnostics_append, q1, q2, c1, c2, List.nil_append,
          List.singleton_append, List.countP_cons, e4]
        simp [hc, List.replicate_succ]

theorem connect_calls_length (evs : List Event) :
    (connect_calls evs).length = connects evs := by
  induction evs with
  | nil => rfl
  | cons e es ih =>
    simp only [connects] at ih ⊢
    cases e <;> simp [connect_calls, List.countP_cons, Event.is_connect, ih]

/-- The connect calls and the diagnostics of one run of `connect_to_tcp_server`. -/
theorem connect_run_calls (P : Platform) (address : cy_socket_sockaddr_t) (w : World) :
    (∀ c ∈ connect_calls (appended w (connect_to_tcp_server P address w).2),
      c.1 = address) ∧
    (connect_calls (appended w (connect_to_tcp_server P address w).2)).map Prod.snd
      = (List.range (connect_calls
          (appended w (connect_to_tcp_server P address w).2)).length).map w.connect_rsp ∧
    diagnostics P (appended w (connect_to_tcp_server P address w).2)
      = List.replicate
          ((connect_calls (appended w (connect_to_tcp_server P address w).2)).countP
            (fun c => decide (c.2 ≠ P.CY_RSLT_SUCCESS)))
          [PrintfArg.u32 P.CY_RSLT_MODULE_SECURE_SOCKETS_TIMEOUT] := by
  obtain ⟨evs, e1, _, e3, e4⟩ := connect_loop_calls P address
    P.CY_RSLT_MODULE_SECURE_SOCKETS_TIMEOUT MAX_TCP_SERVER_CONN_RETRIES w
  have ha : appended w (connect_to_tcp_server P address w).2 = evs := appended_eq _ _ _ e1
  rw [ha]
  refine ⟨?_, ?_, e4⟩
  · intro c hc
    rw [e3] at hc
    simp only [List.mem_map] at hc
    obtain ⟨i, _, hi⟩ := hc
    rw [← hi]
  · conv_lhs => rw [e3]
    simp

/-- C24: in every run of `connect_to_tcp_server`, each failed connect call is followed
by one diagnostic "Could not connect to TCP server", and the error code printed by
every one of them is `CY_RSLT_MODULE_SECURE_SOCKETS_TIMEOUT`, whatever the connect
calls returned.  When the 5 connect calls of a run fail, the function returns
`CY_RSLT_MODULE_SECURE_SOCKETS_TIMEOUT` after 5 such diagnostics; the results of the
connect calls are the 5 answers of the stack, which the function neither returns
nor prints. -/
theorem exhaustion_reports_fixed_code (P : Platform) (address : cy_socket_sockaddr_t)
    (w : World) :
    diagnostics P (appended w (connect_to_tcp_server P address w).2)
      = List.replicate
          ((connect_calls (appended w (connect_to_tcp_server P address w).2)).countP
            (fun c => decide (c.2 ≠ P.CY_RSLT_SUCCESS)))
          [PrintfArg.u32 P.CY_RSLT_MODULE_SECURE_SOCKETS_TIMEOUT] ∧
    ((∀ i, i < MAX_TCP_SERVER_CONN_RETRIES → w.connect_rsp i ≠ P.CY_RSLT_SUCCESS) →
      (connect_to_tcp_server P address w).1 ≠ Outcome.halted →
      (connect_to_tcp_server P address w).1
        = Outcome.returned P.CY_RSLT_MODULE_SECURE_SOCKETS_TIMEOUT ∧
      (connect_calls (appended w (connect_to_tcp_server P address w).2)).map Prod.snd
        = (List.range 5).map w.connect_rsp ∧
      diagnostics P (appended w (connect_to_tcp_server P address w).2)
        = List.replicate 5 [PrintfArg.u32 P.CY_RSLT_MODULE_SECURE_SOCKETS_TIMEOUT]) := by
  obtain ⟨_, c2, c3⟩ := connect_run_calls P address w
  refine ⟨c3, fun hfail hrun => ?_⟩
  obtain ⟨evs, e1, _, _, _, _, _, e6⟩ :=
    connect_loop_run P address P.CY_RSLT_MODULE_SECURE_SOCKETS_TIMEOUT
      MAX_TCP_SERVER_CONN_RETRIES w
  have ha : appended w (connect_to_tcp_server P address w).2 = evs :=
    appended_eq _ _ _ e1
  change (connect_to_tcp_server P address w).1 = Outcome.halted ∨ _ at e6
  rcases e6 with e6 | ⟨j, j1, _, j3, _⟩ | ⟨_, j2, _, j4, _⟩
  · exact absurd e6 hrun
  · exact absurd j3 (hfail j j1)
  · have hl : (connect_calls (appended w (connect_to_tcp_server P address w).2)).length
        = 5 := by
      rw [ha, connect_calls_length, j4]; rfl
    have hall : ∀ c ∈ connect_calls (appended w (connect_to_tcp_server P address w).2),
        decide (c.2 ≠ P.CY_RSLT_SUCCESS) = true := by
      intro c hc
      have hm : c.2 ∈ (connect_calls
          (appended w (connect_to_tcp_server P address w).2)).map Prod.snd :=
        List.mem_map_of_mem _ hc
      rw [c2, hl] at hm
      simp only [List.mem_map, List.mem_range] at hm
      obtain ⟨i, hi, hee⟩ := hm
      rw [← hee]
      simpa using hfail i hi
    refine ⟨j2, by rw [c2, hl], ?_⟩
    rw [c3, List.countP_eq_length.2 hall, hl]

/-- C24 on a server that refuses the connect calls with the errors 0x81 to 0x85: the
function returns 0x080c0007 and every diagnostic prints 0x080c0007. -/
theorem exhaustion_reports_fixed_code_witness :
    (connect_calls (appended erringWorld
        (connect_to_tcp_server examplePlatform exampleAddress erringWorld).2)).map Prod.snd
      = [0x81, 0x82, 0x83, 0x84, 0x85] ∧
    (connect_to_tcp_server examplePlatform exampleAddress erringWorld).1
      = Outcome.returned 0x080c0007 ∧
    diagnostics examplePlatform (appended erringWorld
        (connect_to_tcp_server examplePlatform exampleAddress erringWorld).2)
      = List.replicate 5 [PrintfArg.u32 0x080c0007] :=
  ⟨by decide,
    ((exhaustion_reports_fixed_code examplePlatform exampleAddress erringWorld).2
      (by decide) (by decide)).1,
    ((exhaustion_reports_fixed_code examplePlatform exampleAddress erringWorld).2
      (by decide) (by decide)).2.2⟩

/-! ## The endpoint of a Connect Cycle -/

/-- The address the prompt returns: the one it got, with the IPv4 address that
`ip4addr_aton` parses from the buffer `read_uart_input` returned, as a C string. -/
theorem prompt_address (P : Platform) (adr adr1 : cy_socket_sockaddr_t) (w w1 : World)
    (h : tcp_client_task_prompt P adr w = (Outcome.returned adr1, w1)) :
    adr1.version = adr.version ∧ adr1.port = adr.port ∧
    ∃ line w2,
      read_uart_input P (List.replicate UART_BUFFER_SIZE 0)
          (emit Event.cyhal_syspm_lock_deepsleep
            (printf "Enter the IPv4 address of the TCP Server:\n" []
              (printf "Connect to TCP server\n" [] w)))
        = (Outcome.returned line, w2) ∧
      adr1 = parsed_address P adr line ∧
      adr1.v4 = (P.ip4addr_aton (cstring line)).getD adr.v4 := by
  unfold tcp_client_task_prompt at h
  dsimp only at h
  generalize hru : read_uart_input P _ _ = ru at h
  obtain ⟨o, w2⟩ := ru
  cases o with
  | returned line =>
    dsimp only at h
    have h1 := (Outcome.returned.inj (congrArg Prod.fst h)).symm
    refine ⟨?_, ?_, line, w2, rfl, ?_, ?_⟩
    · rw [h1]; split <;> rfl
    · rw [h1]; split <;> rfl
    · rw [h1]; rfl
    · rw [h1]; split <;> simp [*]
  | halted => simp at h
  | blocked => simp at h
  | starved => simp at h
  | out_of_bounds i => simp at h

/-- The connect calls of one iteration of the loop of `tcp_client_task`: all are made
with one address, which has the version and the port of the address the iteration
got, and which the iteration returns. -/
theorem iteration_calls (P : Platform) (adr : cy_socket_sockaddr_t) (w : World) :
    ∃ evs adr1, (tcp_client_task_iteration P adr w).2.trace = w.trace ++ evs ∧
      (∀ c ∈ connect_calls evs, c.1 = adr1) ∧
      adr1.version = adr.version ∧ adr1.port = adr.port ∧
      (∀ r a, (tcp_client_task_iteration P adr w).1 = Outcome.returned (r, a) → a = adr1) ∧
      (∀ w1 a w2, xSemaphoreTake w = some w1 →
        tcp_client_task_prompt P adr w1 = (Outcome.returned a, w2) → a = adr1) := by
  rw [iteration_parts]
  cases ht : xSemaphoreTake w with
  | none =>
    exact ⟨[], adr, by simp, by simp [connect_calls], rfl, rfl, by simp, by simp⟩
  | some w1 =>
    obtain ⟨_, t2, _, _⟩ := take_run w w1 ht
    obtain ⟨pevs, p1, _, _, p4, _, _, _⟩ := prompt_run P adr w1
    have pc := connect_calls_nil pevs p4
    dsimp only
    cases hp : tcp_client_task_prompt P adr w1 with
    | mk o w2 =>
    rw [hp] at p1
    dsimp only at p1
    have stop : ∃ evs adr1, w2.trace = w.trace ++ evs ∧
        (∀ c ∈ connect_calls evs, c.1 = adr1) ∧
        adr1.version = adr.version ∧ adr1.port = adr.port := by
      refine ⟨Event.xSemaphoreTake :: pevs, adr, by rw [p1, t2]; simp, ?_, rfl, rfl⟩
      simp [connect_calls, pc]
    cases o with
    | returned adr1 =>
      obtain ⟨a1, a2, _⟩ := prompt_address P adr adr1 w1 w2 hp
      obtain ⟨c1, _, _⟩ := connect_run_calls P adr1 w2
      obtain ⟨cevs, ce, _⟩ := connect_run_frame P adr1 w2
      rw [appended_eq _ _ _ ce] at c1
      dsimp only
      cases hc : connect_to_tcp_server P adr1 w2 with
      | mk oc w3 =>
      rw [hc] at ce
      dsimp only at ce
      have base : w3.trace = w.trace ++ (Event.xSemaphoreTake :: pevs ++ cevs) := by
        rw [ce, p1, t2]; simp
      have bc : ∀ c ∈ connect_calls (Event.xSemaphoreTake :: pevs ++ cevs), c.1 = adr1 := by
        simpa [connect_calls, connect_calls_append, pc] using c1
      have hsame : ∀ w1' a w2', some w1 = some w1' →
          tcp_client_task_prompt P adr w1' = (Outcome.returned a, w2') → a = adr1 := by
        intro w1' a w2' h1 h2
        simp only [Option.some.injEq] at h1
        subst h1
        rw [hp] at h2
        exact (Outcome.returned.inj (congrArg Prod.fst h2)).symm
      cases oc with
      | returned result =>
        dsimp only
        by_cases hr : result = P.CY_RSLT_SUCCESS
        · simp only [hr, ne_eq, not_true_eq_false, if_false]
          refine ⟨_, adr1, base, bc, a1, a2, ?_, hsame⟩
          intro r a h
          simp only [Outcome.returned.injEq, Prod.mk.injEq] at h
          exact h.2.symm
        · simp only [hr, ne_eq, not_false_eq_true, if_true]
          refine ⟨Event.xSemaphoreTake :: pevs ++ cevs ++
            [Event.printf "Failed to connect to TCP server.\n" [], Event.xSemaphoreGive],
            adr1, ?_, ?_, a1, a2, ?_, hsame⟩
          · simp [tcp_client_task_rearm, xSemaphoreGive, printf, emit, base]
          · intro c hcm
            rw [connect_calls_append] at hcm
            simp only [connect_calls, List.append_nil] at hcm
            exact bc c hcm
          · intro r a h
            simp only [Outcome.returned.injEq, Prod.mk.injEq] at h
            exact h.2.symm
      | halted => exact ⟨_, adr1, base, bc, a1, a2, by simp, hsame⟩
      | blocked => exact ⟨_, adr1, base, bc, a1, a2, by simp, hsame⟩
      | starved => exact ⟨_, adr1, base, bc, a1, a2, by simp, hsame⟩
      | out_of_bounds i => exact ⟨_, adr1, base, bc, a1, a2, by simp, hsame⟩
    | halted =>
      obtain ⟨evs, a, s1, s2, s3, s4⟩ := stop
      exact ⟨evs, a, s1, s2, s3, s4, by simp, by
        intro w1' a' w2' h1 h2
        simp only [Option.some.injEq] at h1
        subst h1
        rw [hp] at h2
        simp at h2⟩
    | blocked =>
      obtain ⟨evs, a, s1, s2, s3, s4⟩ := stop
      exact ⟨evs, a, s1, s2, s3, s4, by simp, by
        intro w1' a' w2' h1 h2
        simp only [Option.some.injEq] at h1
        subst h1
        rw [hp] at h2
        simp at h2⟩
    | starved =>
      obtain ⟨evs, a, s1, s2, s3, s4⟩ := stop
      exact ⟨evs, a, s1, s2, s3, s4, by simp, by
        intro w1' a' w2' h1 h2
        simp only [Option.some.injEq] at h1
        subst h1
        rw [hp] at h2
        simp at h2⟩
    | out_of_bounds i =>
      obtain ⟨evs, a, s1, s2, s3, s4⟩ := stop
      exact ⟨evs, a, s1, s2, s3, s4, by simp, by
        intro w1' a' w2' h1 h2
        simp only [Option.some.injEq] at h1
        subst h1
        rw [hp] at h2
        simp at h2⟩

/-- The connect calls of the loop of `tcp_client_task`, started with an address of
version IPv4 and port `TCP_SERVER_PORT`: all have that version and that port. -/
theorem task_loop_calls (P : Platform) : ∀ (iterations : Nat) (adr : cy_socket_sockaddr_t)
    (w : World), adr.version = cy_socket_ip_version_t.CY_SOCKET_IP_VER_V4 →
    adr.port = TCP_SERVER_PORT →
    ∃ evs, (tcp_client_task_loop P iterations adr w).2.trace = w.trace ++ evs ∧
      ∀ c ∈ connect_calls evs,
        c.1.version = cy_socket_ip_version_t.CY_SOCKET_IP_VER_V4 ∧
        c.1.port = TCP_SERVER_PORT := by
  intro iterations
  induction iterations with
  | zero =>
    intro adr w _ _
    exact ⟨[], by simp [tcp_client_task_loop], by simp [connect_calls]⟩
  | succ n ih =>
    intro adr w hv hp
    obtain ⟨evs, adr1, i1, i2, i3, i4, i5, _⟩ := iteration_calls P adr w
    have hev : ∀ c ∈ connect_calls evs,
        c.1.version = cy_socket_ip_version_t.CY_SOCKET_IP_VER_V4 ∧
        c.1.port = TCP_SERVER_PORT := by
      intro c hc
      rw [i2 c hc, i3, i4]
      exact ⟨hv, hp⟩
    rw [tcp_client_task_loop]
    generalize tcp_client_task_iteration P adr w = p at i1 i5 ⊢
    obtain ⟨o, w1⟩ := p
    dsimp only at i1 i5
    cases o with
    | returned ra =>
      obtain ⟨r, a⟩ := ra
      have ha := i5 r a rfl
      dsimp only
      obtain ⟨evs2, j1, j2⟩ := ih a w1 (by rw [ha, i3]; exact hv) (by rw [ha, i4]; exact hp)
      refine ⟨evs ++ evs2, by rw [j1, i1, List.append_assoc], ?_⟩
      intro c hc
      rw [connect_calls_append, List.mem_append] at hc
      rcases hc with hc | hc
      · exact hev c hc
      · exact j2 c hc
    | halted => exact ⟨evs, i1, hev⟩
    | blocked => exact ⟨evs, i1, hev⟩
    | starved => exact ⟨evs, i1, hev⟩
    | out_of_bounds i => exact ⟨evs, i1, hev⟩

/-- The connect calls of `tcp_client_task`, its loop cut after any number of
iterations: all have the version IPv4 and the port `TCP_SERVER_PORT`. -/
theorem task_calls (P : Platform) (iterations : Nat) (w : World) :
    ∀ c ∈ connect_calls (appended w (tcp_client_task P iterations w).2),
      c.1.version = cy_socket_ip_version_t.CY_SOCKET_IP_VER_V4 ∧
      c.1.port = TCP_SERVER_PORT := by
  obtain ⟨ievs, e1, e2, _, _, _, e6⟩ := init_run P w
  obtain ⟨_, n2, _, _, _⟩ := init_steps_neutral ievs e2
  have ic := connect_calls_nil ievs n2
  unfold tcp_client_task
  generalize tcp_client_task_init P w = p at e1 e6 ⊢
  obtain ⟨o, w1⟩ := p
  dsimp only at e1 e6
  have hstop : ∀ c ∈ connect_calls (appended w w1),
      c.1.version = cy_socket_ip_version_t.CY_SOCKET_IP_VER_V4 ∧
      c.1.port = TCP_SERVER_PORT := by
    rw [appended_eq _ _ _ e1, ic]
    simp
  cases o with
  | returned adr =>
    dsimp only
    have hadr : adr = startAddress := by
      rcases e6 with ⟨k, _⟩ | ⟨k, _⟩
      · simp at k
      · exact Outcome.returned.inj k
    obtain ⟨evs, l1, l2⟩ := task_loop_calls P iterations adr w1 (by rw [hadr]; rfl) (by rw [hadr]; rfl)
    have ht : (tcp_client_task_loop P iterations adr w1).2.trace = w.trace ++ (ievs ++ evs) := by
      rw [l1, e1, List.append_assoc]
    rw [appended_eq _ _ _ ht, connect_calls_append, ic]
    simpa using l2
  | halted => exact hstop
  | blocked => exact hstop
  | starved => exact hstop
  | out_of_bounds i => exact hstop

/-- C21: every connect call of a run of `connect_to_tcp_server` is made with the
address the function was called with, whatever the retries and the calls of the
Socket Factory in between.  In an iteration of the Supervisor that address is the one
the prompt returned: the address of the task, its version and its port untouched,
with the IPv4 address that `ip4addr_aton` parses from the C string in the buffer that
the call of `read_uart_input` of this iteration returned (the address is left as it
was when that line does not parse).  Every connect call of `tcp_client_task` has the
version IPv4 and the port `TCP_SERVER_PORT` = 50007. -/
theorem connect_calls_use_endpoint (P : Platform) (adr adr1 : cy_socket_sockaddr_t)
    (w w1 w2 : World) (ht : xSemaphoreTake w = some w1)
    (hp : tcp_client_task_prompt P adr w1 = (Outcome.returned adr1, w2)) :
    (∀ c ∈ connect_calls (appended w2 (connect_to_tcp_server P adr1 w2).2), c.1 = adr1) ∧
    (∀ c ∈ connect_calls (appended w (tcp_client_task_iteration P adr w).2), c.1 = adr1) ∧
    adr1.version = adr.version ∧ adr1.port = adr.port ∧
    (∃ line w3,
      read_uart_input P (List.replicate UART_BUFFER_SIZE 0)
          (emit Event.cyhal_syspm_lock_deepsleep
            (printf "Enter the IPv4 address of the TCP Server:\n" []
              (printf "Connect to TCP server\n" [] w1)))
        = (Outcome.returned line, w3) ∧
      adr1 = parsed_address P adr line ∧
      adr1.v4 = (P.ip4addr_aton (cstring line)).getD adr.v4) ∧
    (∀ r a, (tcp_client_task_iteration P adr w).1 = Outcome.returned (r, a) → a = adr1) ∧
    (∀ iterations w0, ∀ c ∈ connect_calls (appended w0 (tcp_client_task P iterations w0).2),
      c.1.version = cy_socket_ip_version_t.CY_SOCKET_IP_VER_V4 ∧
      c.1.port = TCP_SERVER_PORT) ∧
    TCP_SERVER_PORT = 50007 := by
  obtain ⟨evs, a, i1, i2, _, _, i5, i6⟩ := iteration_calls P adr w
  have ha : adr1 = a := i6 w1 adr1 w2 ht hp
  obtain ⟨a1, a2, a3⟩ := prompt_address P adr adr1 w1 w2 hp
  refine ⟨(connect_run_calls P adr1 w2).1, ?_, a1, a2, a3, ?_,
    fun iterations w0 => task_calls P iterations w0, rfl⟩
  · rw [appended_eq _ _ _ i1, ha]
    exact i2
  · rw [ha]
    exact i5

/-- C21 on a server that refuses the first connect call, on a platform that parses
the line "1.2.3.4" and no other: the line read is "1.2.3.4" and the two connect calls
carry IPv4, port 50007 and 1.2.3.4; when the line read is "7", which does not parse,
the connect call carries the address the task had. -/
theorem connect_calls_use_endpoint_witness :
    xSemaphoreTake (supervisorWorld 1)
      = some (emit Event.xSemaphoreTake
          { supervisorWorld 1 with connect_to_server := false }) ∧
    (read_uart_input parsingPlatform (List.replicate UART_BUFFER_SIZE 0)
        (emit Event.cyhal_syspm_lock_deepsleep
          (printf "Enter the IPv4 address of the TCP Server:\n" []
            (printf "Connect to TCP server\n" []
              (emit Event.xSemaphoreTake
                { supervisorWorld 1 with connect_to_server := false }))))).1
      = Outcome.returned (bytes "1.2.3.4" ++ List.replicate 43 0) ∧
    connect_calls (appended (supervisorWorld 1)
        (tcp_client_task_iteration parsingPlatform startAddress (supervisorWorld 1)).2)
      = [({ version := cy_socket_ip_version_t.CY_SOCKET_IP_VER_V4, port := 50007,
            v4 := 0x04030201 }, 0x80),
         ({ version := cy_socket_ip_version_t.CY_SOCKET_IP_VER_V4, port := 50007,
            v4 := 0x04030201 }, 0)] ∧
    connect_calls (appended typingReadyWorld
        (tcp_client_task_iteration parsingPlatform startAddress typingReadyWorld).2)
      = [({ version := cy_socket_ip_version_t.CY_SOCKET_IP_VER_V4, port := 50007,
            v4 := 0 }, 0)] ∧
    (∀ c ∈ connect_calls (appended (supervisorWorld 1)
        (tcp_client_task_iteration parsingPlatform startAddress (supervisorWorld 1)).2),
      c.1 = { version := cy_socket_ip_version_t.CY_SOCKET_IP_VER_V4, port := 50007,
              v4 := 0x04030201 }) ∧
    ∃ line w3,
      read_uart_input parsingPlatform (List.replicate UART_BUFFER_SIZE 0)
          (emit Event.cyhal_syspm_lock_deepsleep
            (printf "Enter the IPv4 address of the TCP Server:\n" []
              (printf "Connect to TCP server\n" []
                (emit Event.xSemaphoreTake
                  { supervisorWorld 1 with connect_to_server := false }))))
        = (Outcome.returned line, w3) ∧
      ({ version := cy_socket_ip_version_t.CY_SOCKET_IP_VER_V4, port := 50007,
         v4 := 0x04030201 } : cy_socket_sockaddr_t)
        = parsed_address parsingPlatform startAddress line ∧
      (0x04030201 : Nat)
        = (parsingPlatform.ip4addr_aton (cstring line)).getD startAddress.v4 :=
  ⟨rfl, by decide, by decide, by decide,
    (connect_calls_use_endpoint parsingPlatform startAddress
      { version := cy_socket_ip_version_t.CY_SOCKET_IP_VER_V4, port := 50007,
        v4 := 0x04030201 }
      (supervisorWorld 1)
      (emit Event.xSemaphoreTake { supervisorWorld 1 with connect_to_server := false })
      (tcp_client_task_prompt parsingPlatform startAddress
        (emit Event.xSemaphoreTake
          { supervisorWorld 1 with connect_to_server := false })).2
      rfl (Prod.ext (by decide) rfl)).2.1,
    (connect_calls_use_endpoint parsingPlatform startAddress
      { version := cy_socket_ip_version_t.CY_SOCKET_IP_VER_V4, port := 50007,
        v4 := 0x04030201 }
      (supervisorWorld 1)
      (emit Event.xSemaphoreTake { supervisorWorld 1 with connect_to_server := false })
      (tcp_client_task_prompt parsingPlatform startAddress
        (emit Event.xSemaphoreTake
          { supervisorWorld 1 with connect_to_server := false })).2
      rfl (Prod.ext (by decide) rfl)).2.2.2.2.1⟩

/-! ## The first wait of the Supervisor -/

/-- C27: when the start of `tcp_client_task` reaches the loop, the semaphore, created
empty, was given exactly once and not taken, so its token is present whatever the
state before.  The first `xSemaphoreTake` of the loop then succeeds without any other
event, the first iteration is not blocked and prints the address prompt once, and
after the take the token is absent: a second take would wait. -/
theorem first_wait_finds_token (P : Platform) (w w1 : World) (adr : cy_socket_sockaddr_t)
    (h : tcp_client_task_init P w = (Outcome.returned adr, w1)) :
    (xSemaphoreCreateBinary w).connect_to_server = false ∧
    gives (appended w w1) = 1 ∧ takes (appended w w1) = 0 ∧
    printed PROMPT_MSG (appended w w1) = 0 ∧
    w1.connect_to_server = true ∧
    (∃ w2, xSemaphoreTake w1 = some w2 ∧ w2.trace = w1.trace ++ [Event.xSemaphoreTake] ∧
      w2.connect_to_server = false ∧ xSemaphoreTake w2 = none) ∧
    (tcp_client_task_iteration P adr w1).1 ≠ Outcome.blocked ∧
    printed PROMPT_MSG (appended w1 (tcp_client_task_iteration P adr w1).2) = 1 ∧
    takes (appended w1 (tcp_client_task_iteration P adr w1).2) ≥ 1 := by
  obtain ⟨evs, e1, e2, _, _, _, e6⟩ := init_run P w
  obtain ⟨_, _, _, n4, n5⟩ := init_steps_neutral evs e2
  rw [h] at e1 e6
  dsimp only at e1 e6
  have htok : w1.connect_to_server = true := by
    rcases e6 with ⟨k, _⟩ | ⟨_, _, _, _, k, _⟩
    · simp at k
    · exact k
  have hg : gives evs = 1 := by
    rcases e6 with ⟨k, _⟩ | ⟨_, _, _, _, _, k⟩
    · simp at k
    · exact k
  obtain ⟨ievs, i1, i2, i3, _⟩ := iteration_run P adr w1 htok
  have htake : xSemaphoreTake w1
      = some (emit Event.xSemaphoreTake { w1 with connect_to_server := false }) := by
    simp [xSemaphoreTake, take_token, htok]
  rw [appended_eq _ _ _ e1, appended_eq _ _ _ i1]
  refine ⟨rfl, hg, n4, n5, htok, ⟨_, htake, by simp [emit], by simp [emit], ?_⟩, i2, i3, ?_⟩
  · simp [xSemaphoreTake, take_token, emit]
  · rw [iteration_parts, htake] at i1
    dsimp only at i1
    obtain ⟨pevs, p1, _⟩ := prompt_run P adr
      (emit Event.xSemaphoreTake { w1 with connect_to_server := false })
    generalize tcp_client_task_prompt P adr
      (emit Event.xSemaphoreTake { w1 with connect_to_server := false }) = pr at i1 p1
    obtain ⟨o, w3⟩ := pr
    have hpre : ∀ w4 : World, (∃ more, w4.trace = w3.trace ++ more) →
        w4.trace = w1.trace ++ ievs → takes ievs ≥ 1 := by
      intro w4 ⟨more, hm⟩ h4
      dsimp only at p1
      rw [hm, p1] at h4
      simp only [emit, List.append_assoc] at h4
      have := List.append_cancel_left h4
      rw [← this]
      simp [takes, Event.is_take]
    cases o with
    | returned a =>
      dsimp only at i1
      obtain ⟨cevs, c1, _⟩ := connect_run_frame P a w3
      generalize connect_to_tcp_server P a w3 = cr at i1 c1
      obtain ⟨oc, w5⟩ := cr
      dsimp only at c1
      cases oc with
      | returned r =>
        dsimp only at i1
        split at i1
        · exact hpre _ ⟨cevs ++ [Event.printf "Failed to connect to TCP server.\n" [],
            Event.xSemaphoreGive], by
              simp [tcp_client_task_rearm, xSemaphoreGive, printf, emit, c1]⟩ i1
        · exact hpre _ ⟨cevs, c1⟩ i1
      | halted => exact hpre _ ⟨cevs, c1⟩ i1
      | blocked => exact hpre _ ⟨cevs, c1⟩ i1
      | starved => exact hpre _ ⟨cevs, c1⟩ i1
      | out_of_bounds i => exact hpre _ ⟨cevs, c1⟩ i1
    | halted => exact hpre _ ⟨[], by simp⟩ i1
    | blocked => exact hpre _ ⟨[], by simp⟩ i1
    | starved => exact hpre _ ⟨[], by simp⟩ i1
    | out_of_bounds i => exact hpre _ ⟨[], by simp⟩ i1

/-- C27 on the example world: the task of `typingWorld` reaches its loop with the
token present, given once. -/
theorem first_wait_finds_token_witness :
    gives (appended typingWorld startedWorld) = 1 ∧
    startedWorld.connect_to_server = true ∧
    (tcp_client_task_iteration examplePlatform startAddress startedWorld).1
      ≠ Outcome.blocked ∧
    printed PROMPT_MSG (appended startedWorld
      (tcp_client_task_iteration examplePlatform startAddress startedWorld).2) = 1 :=
  ⟨(first_wait_finds_token examplePlatform typingWorld startedWorld startAddress
      (Prod.ext (by decide) rfl)).2.1,
    by decide,
    (first_wait_finds_token examplePlatform typingWorld startedWorld startAddress
      (Prod.ext (by decide) rfl)).2.2.2.2.2.2.1,
    by decide⟩

/-! ## The bounds of the UART buffer -/

/-- One poll of the loop of `read_uart_input` that delivers no CR and no LF, from an
offset inside a buffer without CR and LF: the offset stays the number of characters
kept, and the loop goes on to the next poll unless that number is the length of the
buffer, in which case the loop condition reads the byte after the buffer. -/
theorem uart_step (P : Platform) (p : UartPoll) (q : List UartPoll) (buf : List Nat)
    (ptr : Nat) (w : World)
    (hs : 0 < p.readable → p.getc_result = P.CY_RSLT_SUCCESS ∧ p.getc_char ≠ 13 ∧
      p.getc_char ≠ 10)
    (hb : ∀ b ∈ buf, b ≠ 13 ∧ b ≠ 10) (hp : ptr < buf.length) :
    ∃ buf1 ptr1, buf1.length = buf.length ∧ (∀ b ∈ buf1, b ≠ 13 ∧ b ≠ 10) ∧
      ptr1 ≤ buf.length ∧
      buf1.take ptr1 = (if 0 < p.readable then spec_edit_char (buf.take ptr) p.getc_char
        else buf.take ptr) ∧
      (ptr1 < buf.length → ∃ w1, read_uart_input_loop P (p :: q) buf ptr w
        = read_uart_input_loop P q buf1 ptr1 w1) ∧
      (ptr1 = buf.length →
        (read_uart_input_loop P (p :: q) buf ptr w).1 = Outcome.out_of_bounds buf.length) := by
  have hcr : '\r'.toNat = 13 := rfl
  have hlf : '\n'.toNat = 10 := rfl
  by_cases hr : 0 < p.readable
  swap
  · refine ⟨buf, ptr, rfl, hb, by omega, by simp [hr],
      fun _ => ⟨emit (Event.vTaskDelay RTOS_TICK_TO_WAIT) { w with uart := q }, ?_⟩,
      fun h => by omega⟩
    simp only [read_uart_input_loop, read_uart_input_body]
    simp [hr, hp, hcr, hlf, getElem_not_terminator buf hb ptr hp]
  obtain ⟨hok, hch1, hch2⟩ := hs hr
  have hg : (buf.set ptr p.getc_char).getD ptr 0 = p.getc_char := by
    simp [List.getD_eq_getElem?_getD, hp]
  have hb1 : ∀ b ∈ buf.set ptr p.getc_char, b ≠ 13 ∧ b ≠ 10 := by
    intro b hb0
    rcases List.mem_or_eq_of_mem_set hb0 with h | h
    · exact hb b h
    · rw [h]; exact ⟨hch1, hch2⟩
  by_cases hbs : p.getc_char = ASCII_BACKSPACE
  · have hbs8 : p.getc_char = 8 := hbs
    refine ⟨buf.set ptr p.getc_char, ptr - 1, by simp, hb1, by omega, ?_,
      fun _ => ⟨(emit (Event.vTaskDelay RTOS_TICK_TO_WAIT)
        (emit (Event.cyhal_uart_putc p.getc_char) { w with uart := q })), ?_⟩,
      fun h => by omega⟩
    · rw [take_set_of_le _ _ _ _ (by omega), take_pred_eq_dropLast _ _ (by omega)]
      simp [spec_edit_char, hbs, hr]
    · have hz := getElem_not_terminator _ hb1 (ptr - 1)
        (by simp only [List.length_set]; omega)
      rw [hbs8] at hz hg
      by_cases h0 : ptr = 0
      · subst h0
        simp only [read_uart_input_loop, read_uart_input_body]
        simp [hr, hok, hp, hg, hcr, hlf, hbs8, hz, ASCII_BACKSPACE]
      · simp only [read_uart_input_loop, read_uart_input_body]
        simp [hr, hok, hp, hg, hcr, hlf, hbs8, h0, (by omega : ptr - 1 < buf.length), hz,
          ASCII_BACKSPACE]
  · refine ⟨buf.set ptr p.getc_char, ptr + 1, by simp, hb1, by omega, ?_,
      fun h1 => ⟨(emit (Event.vTaskDelay RTOS_TICK_TO_WAIT)
        (emit (Event.cyhal_uart_putc p.getc_char) { w with uart := q })), ?_⟩,
      fun h1 => ?_⟩
    · rw [take_set_succ _ _ _ hp]
      simp [spec_edit_char, hbs, hr]
    · simp only [read_uart_input_loop, read_uart_input_body]
      simp [hr, hok, hp, hg, hcr, hlf, hch1, hch2, hbs, h1,
        getElem_not_terminator buf hb (ptr + 1) h1]
    · simp only [read_uart_input_loop, read_uart_input_body]
      simp [hr, hok, hp, hg, hcr, hlf, hch1, hch2, hbs, h1]

/-- The loop of `read_uart_input` over polls that deliver no CR and no LF, from an
offset inside a buffer without CR and LF.  While the number of characters kept
stays below the length of the buffer the loop consumes the polls, with `ptr` at the
end of the line kept; when that number reaches the length of the buffer, the loop
condition reads the byte after the buffer. -/
theorem uart_prefix (P : Platform) (q : List UartPoll) :
    ∀ (polls : List UartPoll) (buf : List Nat) (ptr : Nat) (w : World),
    (∀ p ∈ polls, 0 < p.readable → p.getc_result = P.CY_RSLT_SUCCESS) →
    (∀ c ∈ uart_chars polls, c ≠ 13 ∧ c ≠ 10) →
    (∀ b ∈ buf, b ≠ 13 ∧ b ≠ 10) → ptr < buf.length →
    ((∀ k, (((uart_chars polls).take k).foldl spec_edit_char (buf.take ptr)).length
        < buf.length) →
      ∃ buf1 w1, read_uart_input_loop P (polls ++ q) buf ptr w
          = read_uart_input_loop P q buf1
              ((uart_chars polls).foldl spec_edit_char (buf.take ptr)).length w1 ∧
        buf1.length = buf.length ∧ (∀ b ∈ buf1, b ≠ 13 ∧ b ≠ 10) ∧
        buf1.take ((uart_chars polls).foldl spec_edit_char (buf.take ptr)).length
          = (uart_chars polls).foldl spec_edit_char (buf.take ptr)) ∧
    ((∃ k, buf.length
        ≤ (((uart_chars polls).take k).foldl spec_edit_char (buf.take ptr)).length) →
      (read_uart_input_loop P (polls ++ q) buf ptr w).1
        = Outcome.out_of_bounds buf.length) := by
  intro polls
  induction polls with
  | nil =>
    intro buf ptr w _ _ hb hp
    have hl : (buf.take ptr).length = ptr := by rw [List.length_take]; omega
    refine ⟨fun _ => ⟨buf, w, ?_, rfl, hb, ?_⟩, ?_⟩
    · simp [uart_chars, hl]
    · simp [uart_chars, hl]
    · rintro ⟨k, hk⟩
      simp [uart_chars, hl] at hk
      omega
  | cons p polls ih =>
    intro buf ptr w hs hc hb hp
    have hl : (buf.take ptr).length = ptr := by rw [List.length_take]; omega
    have hs1 : ∀ r ∈ polls, 0 < r.readable → r.getc_result = P.CY_RSLT_SUCCESS :=
      fun r hr => hs r (List.mem_cons_of_mem _ hr)
    have hsp : 0 < p.readable → p.getc_result = P.CY_RSLT_SUCCESS ∧ p.getc_char ≠ 13 ∧
        p.getc_char ≠ 10 := by
      intro hr
      have hm : p.getc_char ∈ uart_chars (p :: polls) := by
        simp [uart_chars, List.filter_cons, hr]
      exact ⟨hs p (List.mem_cons_self _ _) hr, hc _ hm⟩
    obtain ⟨buf1, ptr1, s1, s2, s3, s4, s5, s6⟩ := uart_step P p (polls ++ q) buf ptr w hsp hb hp
    have hl1 : (buf1.take ptr1).length = ptr1 := by rw [List.length_take]; omega
    by_cases hr : 0 < p.readable
    · have hu : uart_chars (p :: polls) = p.getc_char :: uart_chars polls := by
        simp [uart_chars, List.filter_cons, hr]
      have hc1 : ∀ c ∈ uart_chars polls, c ≠ 13 ∧ c ≠ 10 := by
        intro c hm
        exact hc c (by rw [hu]; exact List.mem_cons_of_mem _ hm)
      simp only [hr, if_true] at s4
      rw [hu]
      simp only [List.foldl_cons, ← s4]
      refine ⟨fun hall => ?_, ?_⟩
      · have h1 : ptr1 < buf.length := by
          have := hall 1
          simp only [List.take_succ_cons, List.take_zero, List.foldl_cons, List.foldl_nil,
            ← s4, hl1] at this
          exact this
        obtain ⟨w1, hw1⟩ := s5 h1
        obtain ⟨i1, _⟩ := ih buf1 ptr1 w1 hs1 hc1 s2 (by omega)
        obtain ⟨buf2, w2, j1, j2, j3, j4⟩ := i1 (by
          intro k
          have := hall (k + 1)
          simp only [List.take_succ_cons, List.foldl_cons, ← s4] at this
          rw [s1]
          exact this)
        refine ⟨buf2, w2, ?_, by rw [j2, s1], j3, j4⟩
        rw [List.cons_append, hw1, j1]
      · rintro ⟨k, hk⟩
        by_cases h1 : ptr1 = buf.length
        · exact s6 h1
        · obtain ⟨w1, hw1⟩ := s5 (by omega)
          obtain ⟨_, i2⟩ := ih buf1 ptr1 w1 hs1 hc1 s2 (by omega)
          rw [List.cons_append, hw1, ← s1]
          apply i2
          cases k with
          | zero =>
            simp only [List.take_zero, List.foldl_nil, hl] at hk
            omega
          | succ j =>
            simp only [List.take_succ_cons, List.foldl_cons, ← s4] at hk
            exact ⟨j, by rw [s1]; exact hk⟩
    · have hu : uart_chars (p :: polls) = uart_chars polls := by
        simp [uart_chars, List.filter_cons, hr]
      simp only [hr, if_false] at s4
      rw [hu] at hc ⊢
      simp only [← s4]
      have h1 : ptr1 < buf.length := by
        have := congrArg List.length s4
        rw [hl1, hl] at this
        omega
      obtain ⟨w1, hw1⟩ := s5 h1
      obtain ⟨i1, i2⟩ := ih buf1 ptr1 w1 hs1 hc s2 (by omega)
      rw [List.cons_append, hw1, ← s1]
      exact ⟨i1, i2⟩

/-- Whatever the UART delivers and whatever the buffer holds, the only index outside
the buffer that `read_uart_input` can access is the one right after its end. -/
theorem uart_index_bound (P : Platform) :
    ∀ (polls : List UartPoll) (buf : List Nat) (ptr : Nat) (w : World) (i : Nat),
    ptr ≤ buf.length →
    (read_uart_input_loop P polls buf ptr w).1 = Outcome.out_of_bounds i →
    i = buf.length := by
  intro polls
  induction polls with
  | nil => intro buf ptr w i _ h; simp [read_uart_input_loop] at h
  | cons p polls ih =>
    intro buf ptr w i hp h
    rw [read_uart_input_loop] at h
    have hbody : ∀ b1 p1 w1,
        read_uart_input_body P p buf ptr { w with uart := polls } = (Outcome.returned (b1, p1), w1) →
        b1.length = buf.length ∧ p1 ≤ buf.length := by
      intro b1 p1 w1 hb
      unfold read_uart_input_body at hb
      dsimp only at hb
      split_ifs at hb <;>
        simp only [Prod.mk.injEq, Outcome.returned.injEq, reduceCtorEq, false_and] at hb <;>
        (obtain ⟨⟨rfl, rfl⟩, _⟩ := hb; exact ⟨by simp, by omega⟩)
    have hbody2 : ∀ j w1,
        read_uart_input_body P p buf ptr { w with uart := polls } = (Outcome.out_of_bounds j, w1) →
        j = buf.length := by
      intro j w1 hb
      unfold read_uart_input_body at hb
      dsimp only at hb
      split_ifs at hb
      all_goals
        simp only [Prod.mk.injEq, Outcome.out_of_bounds.injEq, reduceCtorEq, false_and] at hb
      all_goals omega
    generalize read_uart_input_body P p buf ptr { w with uart := polls } = r at h hbody hbody2
    obtain ⟨o, w1⟩ := r
    cases o with
    | returned bp =>
      obtain ⟨b1, p1⟩ := bp
      obtain ⟨l1, l2⟩ := hbody b1 p1 w1 rfl
      dsimp only at h
      split_ifs at h with c1 c2
      · rw [← l1]
        exact ih b1 p1 _ i (by omega) h
      · simp only [Outcome.out_of_bounds.injEq] at h
        omega
    | halted => simp at h
    | blocked => simp at h
    | starved => simp at h
    | out_of_bounds j =>
      simp only [Outcome.out_of_bounds.injEq] at h
      rw [← h]
      exact hbody2 j w1 rfl

/-- C25: `read_uart_input` checks no bound.  Let the UART deliver characters that are
neither CR (13) nor LF (10), each read with success, and then a CR or LF, into a
buffer of `n > 0` zero bytes.  The function returns exactly when the number of
characters kept (each backspace removes the one kept last, if any, and moves the
index back by one, but not below 0) stays below `n` after every character;
otherwise it reads the byte at index `n`, right after the buffer.  Whatever the
input and the buffer, no other index outside the buffer is accessed.  For the
buffer of `UART_BUFFER_SIZE` = 50 bytes, 50 characters without a backspace make the
function read the byte at index 50. -/
theorem uart_bounds (P : Platform) (w : World) (n : Nat) (hn : 0 < n)
    (polls : List UartPoll) (t : UartPoll) (rest : List UartPoll)
    (hu : w.uart = polls ++ t :: rest)
    (hs : ∀ p ∈ polls, 0 < p.readable → p.getc_result = P.CY_RSLT_SUCCESS)
    (hc : ∀ c ∈ uart_chars polls, c ≠ 13 ∧ c ≠ 10)
    (t1 : 0 < t.readable) (t2 : t.getc_result = P.CY_RSLT_SUCCESS)
    (t3 : t.getc_char = 13 ∨ t.getc_char = 10) :
    ((∃ buf, (read_uart_input P (List.replicate n 0) w).1 = Outcome.returned buf) ↔
      ∀ k, (spec_edit_line ((uart_chars polls).take k)).length < n) ∧
    ((∃ k, n ≤ (spec_edit_line ((uart_chars polls).take k)).length) →
      (read_uart_input P (List.replicate n 0) w).1 = Outcome.out_of_bounds n) ∧
    (∀ w0 buf i, (read_uart_input P buf w0).1 = Outcome.out_of_bounds i → i = buf.length) ∧
    spec_edit_char [] ASCII_BACKSPACE = [] ∧
    UART_BUFFER_SIZE = 50 := by
  have hz : ∀ b ∈ List.replicate n 0, b ≠ 13 ∧ b ≠ 10 := by
    intro b hb; rw [List.eq_of_mem_replicate hb]; decide
  obtain ⟨p1, p2⟩ := uart_prefix P (t :: rest) polls (List.replicate n 0) 0 w hs hc hz
    (by simpa using hn)
  simp only [List.take_zero, List.length_replicate] at p1 p2
  have hin : (∀ k, (spec_edit_line ((uart_chars polls).take k)).length < n) →
      ∃ buf, (read_uart_input P (List.replicate n 0) w).1 = Outcome.returned buf := by
    intro hall
    obtain ⟨buf1, w1, q1, q2, q3, q4⟩ := p1 hall
    have hL : (List.foldl spec_edit_char [] (uart_chars polls)).length < buf1.length := by
      have := hall (uart_chars polls).length
      rw [List.take_length] at this
      rw [q2]
      exact this
    obtain ⟨buf2, e1, _⟩ := uart_edit_loop P t rest t1 t2 t3 [] buf1
      (List.foldl spec_edit_char [] (uart_chars polls)).length w1
      (by simp) (by simp [uart_chars]) q3 (by simpa [uart_chars] using hL)
    rw [List.nil_append, ← q1] at e1
    unfold read_uart_input
    rw [hu]
    generalize read_uart_input_loop P (polls ++ t :: rest) (List.replicate n 0) 0 w = r at e1
    obtain ⟨o, w2⟩ := r
    dsimp only at e1
    subst e1
    exact ⟨_, rfl⟩
  have hout : (∃ k, n ≤ (spec_edit_line ((uart_chars polls).take k)).length) →
      (read_uart_input P (List.replicate n 0) w).1 = Outcome.out_of_bounds n := by
    intro hex
    have h2 := p2 hex
    unfold read_uart_input
    rw [hu]
    generalize read_uart_input_loop P (polls ++ t :: rest) (List.replicate n 0) 0 w = r at h2
    obtain ⟨o, w2⟩ := r
    dsimp only at h2
    subst h2
    rfl
  refine ⟨⟨?_, hin⟩, hout, ?_, by decide, rfl⟩
  · rintro ⟨buf, hb⟩ k
    by_contra hk
    rw [hout ⟨k, by omega⟩] at hb
    simp at hb
  · intro w0 buf i h
    unfold read_uart_input at h
    have hb := uart_index_bound P w0.uart buf 0 w0
    generalize read_uart_input_loop P w0.uart buf 0 w0 = r at h hb
    obtain ⟨o, w2⟩ := r
    cases o with
    | returned bp => simp at h
    | halted => simp at h
    | blocked => simp at h
    | starved => simp at h
    | out_of_bounds j =>
      simp only [Outcome.out_of_bounds.injEq] at h
      rw [← h]
      exact hb j (by omega) rfl

/-- C25 on lines of 49 and of 50 times the key `a`, in the buffer of 50 bytes: the
first is returned, the second makes the function read the byte at index 50. -/
theorem uart_bounds_witness :
    (∃ buf, (read_uart_input examplePlatform (List.replicate UART_BUFFER_SIZE 0)
      (longLineWorld 49)).1 = Outcome.returned buf) ∧
    (read_uart_input examplePlatform (List.replicate UART_BUFFER_SIZE 0)
      (longLineWorld 50)).1 = Outcome.out_of_bounds 50 :=
  ⟨⟨_, rfl⟩,
    (uart_bounds examplePlatform (longLineWorld 50) UART_BUFFER_SIZE (by decide)
      (List.replicate 50 (key 'a')) (key '\r') [] rfl (by decide) (by decide) (by decide)
      (by decide) (by decide)).2.1 ⟨50, by decide⟩⟩

end TcpClient
